import Mathlib

/-!
# FIRGuardian-AI backend: incident classification and legal reference search

A shallow embedding of `backend/services/ai.go`, `backend/services/fir.go`
(`determinePriority`), `backend/utils/helpers.go` and `backend/services/legal.go`,
followed by theorems about the embedded functions.

Conventions of the embedding.

* A Go `string` is its sequence of bytes (`GoString`), so `len` is the byte count and
  `strings.Contains` is a search for a contiguous run of bytes.  A Go string literal is the
  UTF-8 encoding of its source text (`str`).
* `strings.ToLower` follows the Go standard library: byte-wise lowering for pure ASCII
  input, and otherwise `strings.Map(unicode.ToLower, s)`, which decodes UTF-8, lowers each
  rune and encodes again.  The Unicode case table for runes above U+007F is not part of
  the repository and is taken as a parameter `tbl`.
* `float64` constants with integral values (65.0, 80.0, ...) are natural numbers, the
  constant `0.85` is the rational `85/100`.
-/

namespace FIRGuardian

/-! ## Go strings -/

/-- A Go string: a sequence of bytes. -/
abbrev GoString := List Nat

/-- Go's builtin `len` on a string: the number of bytes. -/
def len (s : GoString) : Nat := s.length

/-- The rune `utf8.RuneError` (U+FFFD). -/
def RuneError : Nat := 0xFFFD

/-- The table `first` of `unicode/utf8` together with `acceptRanges`: for a leading byte of
a multi-byte sequence, the sequence size and the accepted range of the second byte;
`none` for a byte that cannot start a multi-byte sequence. -/
def first (s0 : Nat) : Option (Nat × Nat × Nat) :=
  if 0xC2 ≤ s0 ∧ s0 ≤ 0xDF then some (2, 0x80, 0xBF)
  else if s0 = 0xE0 then some (3, 0xA0, 0xBF)
  else if 0xE1 ≤ s0 ∧ s0 ≤ 0xEC then some (3, 0x80, 0xBF)
  else if s0 = 0xED then some (3, 0x80, 0x9F)
  else if 0xEE ≤ s0 ∧ s0 ≤ 0xEF then some (3, 0x80, 0xBF)
  else if s0 = 0xF0 then some (4, 0x90, 0xBF)
  else if 0xF1 ≤ s0 ∧ s0 ≤ 0xF3 then some (4, 0x80, 0xBF)
  else if s0 = 0xF4 then some (4, 0x80, 0x8F)
  else none

/-- Go's `utf8.DecodeRuneInString`: the first rune of `s` and its width in bytes.  An
invalid or truncated encoding gives `(RuneError, 1)`, the empty string `(RuneError, 0)`. -/
def DecodeRuneInString (s : GoString) : Nat × Nat :=
  match s with
  | [] => (RuneError, 0)
  | s0 :: rest =>
    if s0 < 0x80 then (s0, 1)
    else
      match first s0 with
      | none => (RuneError, 1)
      | some (sz, lo, hi) =>
        if rest.length + 1 < sz then (RuneError, 1)
        else
          match rest with
          | [] => (RuneError, 1)
          | s1 :: rest1 =>
            if s1 < lo ∨ hi < s1 then (RuneError, 1)
            else if sz ≤ 2 then (((s0 &&& 0x1F) <<< 6) ||| (s1 &&& 0x3F), 2)
            else
              match rest1 with
              | [] => (RuneError, 1)
              | s2 :: rest2 =>
                if s2 < 0x80 ∨ 0xBF < s2 then (RuneError, 1)
                else if sz ≤ 3 then
                  (((s0 &&& 0x0F) <<< 12) ||| ((s1 &&& 0x3F) <<< 6) ||| (s2 &&& 0x3F), 3)
                else
                  match rest2 with
                  | [] => (RuneError, 1)
                  | s3 :: _ =>
                    if s3 < 0x80 ∨ 0xBF < s3 then (RuneError, 1)
                    else
                      (((s0 &&& 0x07) <<< 18) ||| ((s1 &&& 0x3F) <<< 12)
                        ||| ((s2 &&& 0x3F) <<< 6) ||| (s3 &&& 0x3F), 4)

/-- Go's `utf8.AppendRune` on an empty buffer: the UTF-8 encoding of a rune; surrogates and
values above U+10FFFF are encoded as `RuneError`. -/
def encodeRune (r : Nat) : GoString :=
  if r ≤ 0x7F then [r]
  else if r ≤ 0x7FF then [0xC0 ||| (r >>> 6), 0x80 ||| (r &&& 0x3F)]
  else if 0x10FFFF < r ∨ (0xD800 ≤ r ∧ r ≤ 0xDFFF) then [0xEF, 0xBF, 0xBD]
  else if r ≤ 0xFFFF then
    [0xE0 ||| (r >>> 12), 0x80 ||| ((r >>> 6) &&& 0x3F), 0x80 ||| (r &&& 0x3F)]
  else
    [0xF0 ||| (r >>> 18), 0x80 ||| ((r >>> 12) &&& 0x3F), 0x80 ||| ((r >>> 6) &&& 0x3F),
      0x80 ||| (r &&& 0x3F)]

/-- A Go string literal: the UTF-8 encoding of the source text. -/
def str (s : String) : GoString := s.toList.flatMap (fun c => encodeRune c.toNat)

/-- The runes a `for _, c := range s` loop yields; `fuel` bounds the number of iterations
(every iteration consumes at least one byte, so `s.length` is enough). -/
def runesAux : Nat → GoString → List Nat
  | 0, _ => []
  | _, [] => []
  | fuel + 1, b :: rest =>
    let d := DecodeRuneInString (b :: rest)
    d.1 :: runesAux fuel ((b :: rest).drop d.2)

/-- The runes of a string, as `range` yields them. -/
def runes (s : GoString) : List Nat := runesAux s.length s

/-- Go's `utf8.RuneCountInString`: the number of characters of a string. -/
def RuneCountInString (s : GoString) : Nat := (runes s).length

/-- Go's `strings.Map` for a mapping that never returns a negative rune. -/
def Map (mapping : Nat → Nat) (s : GoString) : GoString :=
  (runes s).flatMap (fun c => encodeRune (mapping c))

/-- Go's `unicode.ToLower`: ASCII is handled directly, other runes through the case table
`tbl`. -/
def unicodeToLower (tbl : Nat → Nat) (r : Nat) : Nat :=
  if r ≤ 0x7F then (if 0x41 ≤ r ∧ r ≤ 0x5A then r + 0x20 else r) else tbl r

/-- The byte-wise lowering of the ASCII path of `strings.ToLower`. -/
def lowerByte (c : Nat) : Nat := if 0x41 ≤ c ∧ c ≤ 0x5A then c + 0x20 else c

/-- Go's `strings.ToLower`. -/
def stringsToLower (tbl : Nat → Nat) (s : GoString) : GoString :=
  if s.all (fun c => decide (c < 0x80)) then s.map lowerByte
  else Map (unicodeToLower tbl) s

/-- Go's `strings.HasPrefix`. -/
def HasPrefix : GoString → GoString → Bool
  | _, [] => true
  | [], _ :: _ => false
  | c :: s, p :: ps => decide (c = p) && HasPrefix s ps

/-- Go's `strings.Contains`: `substr` occurs in `s` as a contiguous run of bytes. -/
def stringsContains : GoString → GoString → Bool
  | [], substr => HasPrefix [] substr
  | c :: s, substr => HasPrefix (c :: s) substr || stringsContains s substr

/-! ## `backend/utils/helpers.go` -/

/-- The helper `utils.ToLower`. -/
def ToLower (tbl : Nat → Nat) (s : GoString) : GoString := stringsToLower tbl s

/-- The helper `utils.Contains`. -/
def Contains (s substr : GoString) : Bool := stringsContains s substr

/-! ## `backend/models/fir.go` -/

/-- The model `models.SuggestedLaw`. -/
structure SuggestedLaw where
  Section : GoString
  Act : GoString
  Description : GoString
  Confidence : Nat
  Relevance : GoString
  deriving DecidableEq

/-- The model `models.CaseLaw`. -/
structure CaseLaw where
  Title : GoString
  Court : GoString
  Year : GoString
  Relevance : ℚ
  Summary : GoString
  deriving DecidableEq

/-- The model `models.AIAnalysis`; `ProcessedAt` is a time in nanoseconds, `0` standing
for the zero `time.Time`. -/
structure AIAnalysis where
  Confidence : Nat
  KeyEntities : List GoString
  CrimeType : GoString
  RelevantCaseLaws : List CaseLaw
  Recommendations : List GoString
  ProcessedAt : Int
  deriving DecidableEq

/-! ## `backend/services/ai.go` -/

/-- The method `AIService.calculateConfidence`. -/
def calculateConfidence (description : GoString) : Nat :=
  if len description < 50 then 65
  else if len description < 200 then 80
  else 90

/-- The method `AIService.extractEntities`. -/
def extractEntities (tbl : Nat → Nat) (description : GoString) : List GoString :=
  let entities := [str "person", str "location", str "incident"]
  let desc := stringsToLower tbl description
  let entities :=
    if stringsContains desc (str "woman") || stringsContains desc (str "girl") then
      entities ++ [str "female victim"]
    else entities
  let entities :=
    if stringsContains desc (str "phone") || stringsContains desc (str "mobile") then
      entities ++ [str "electronic device"]
    else entities
  entities

/-- The method `AIService.determineCrimeType`. -/
def determineCrimeType (tbl : Nat → Nat) (description : GoString) : GoString :=
  let desc := stringsToLower tbl description
  if stringsContains desc (str "assault") || stringsContains desc (str "attack") then
    str "assault"
  else if stringsContains desc (str "theft") || stringsContains desc (str "steal") then
    str "theft"
  else if stringsContains desc (str "fraud") || stringsContains desc (str "cheat") then
    str "fraud"
  else str "miscellaneous"

/-- The two statutes appended by the first rule of `getSuggestedLaws`. -/
def law354 : SuggestedLaw :=
  { Section := str "354", Act := str "Indian Penal Code",
    Description := str "Assault or criminal force to woman with intent to outrage her modesty",
    Confidence := 85, Relevance := str "high" }

/-- The second statute of the first rule of `getSuggestedLaws`. -/
def law509 : SuggestedLaw :=
  { Section := str "509", Act := str "Indian Penal Code",
    Description := str "Word, gesture or act intended to insult the modesty of a woman",
    Confidence := 78, Relevance := str "medium" }

/-- The statute appended by the second rule of `getSuggestedLaws`. -/
def law379 : SuggestedLaw :=
  { Section := str "379", Act := str "Indian Penal Code",
    Description := str "Punishment for theft",
    Confidence := 90, Relevance := str "high" }

/-- The statute appended by the third rule of `getSuggestedLaws`. -/
def law420 : SuggestedLaw :=
  { Section := str "420", Act := str "Indian Penal Code",
    Description := str "Cheating and dishonestly inducing delivery of property",
    Confidence := 88, Relevance := str "high" }

/-- The method `AIService.getSuggestedLaws`. -/
def getSuggestedLaws (tbl : Nat → Nat) (description : GoString) : List SuggestedLaw :=
  let desc := stringsToLower tbl description
  let laws : List SuggestedLaw := []
  let laws :=
    if stringsContains desc (str "woman") || stringsContains desc (str "modesty") then
      (laws ++ [law354]) ++ [law509]
    else laws
  let laws :=
    if stringsContains desc (str "theft") || stringsContains desc (str "steal") then
      laws ++ [law379]
    else laws
  let laws :=
    if stringsContains desc (str "fraud") || stringsContains desc (str "cheat") then
      laws ++ [law420]
    else laws
  laws

/-- The method `AIService.AnalyzeIncident`. -/
def AnalyzeIncident (tbl : Nat → Nat) (description : GoString) :
    AIAnalysis × List SuggestedLaw :=
  let analysis : AIAnalysis :=
    { Confidence := calculateConfidence description
      KeyEntities := extractEntities tbl description
      CrimeType := determineCrimeType tbl description
      RelevantCaseLaws :=
        [{ Title := str "State of Punjab vs Gurmit Singh"
           Court := str "Supreme Court of India"
           Year := str "1996"
           Relevance := 85 / 100
           Summary := str "Definition and scope of outraging modesty under Section 354 IPC" }]
      Recommendations :=
        [str "Ensure all witness statements are recorded accurately",
         str "Consider collecting additional evidence for stronger case",
         str "Verify jurisdiction and applicable state amendments"]
      ProcessedAt := 0 }
  let suggestedLaws := getSuggestedLaws tbl description
  (analysis, suggestedLaws)

/-! ## `backend/services/fir.go` -/

/-- The keyword scan `for _, keyword := range keywords { if utils.Contains(...) }`: whether
some keyword of the list occurs in the description. -/
def anyKeyword (description : GoString) : List GoString → Bool
  | [] => false
  | keyword :: more => if Contains description keyword then true else anyKeyword description more

/-- The list `highPriorityKeywords` of `determinePriority`. -/
def highPriorityKeywords : List GoString :=
  [str "murder", str "rape", str "kidnapping", str "terrorism", str "bomb", str "weapon",
   str "gun"]

/-- The list `mediumPriorityKeywords` of `determinePriority`. -/
def mediumPriorityKeywords : List GoString :=
  [str "assault", str "theft", str "burglary", str "fraud", str "harassment"]

/-- The method `FIRService.determinePriority`. -/
def determinePriority (tbl : Nat → Nat) (description : GoString) : GoString :=
  let description := ToLower tbl description
  if anyKeyword description highPriorityKeywords then str "high"
  else if anyKeyword description mediumPriorityKeywords then str "medium"
  else str "low"


/-! ## `backend/models/legal.go` -/

/-- A `primitive.ObjectID`, as a number. -/
abbrev ObjectID := Nat

/-- A `time.Time` instant, in nanoseconds. -/
abbrev Time := Int

/-- A Go `error` value, by its message. -/
abbrev Error := String

/-- The model `models.LegalSection`. -/
structure LegalSection where
  ID : ObjectID
  Section : GoString
  Act : GoString
  Title : GoString
  Description : GoString
  Category : GoString
  Amendments : List GoString
  RelatedSections : List GoString
  Keywords : List GoString
  Punishment : GoString
  IsBailable : Bool
  IsCognizable : Bool
  CreatedAt : Time
  UpdatedAt : Time
  deriving DecidableEq

/-- The model `models.CaseLawRecord`. -/
structure CaseLawRecord where
  ID : ObjectID
  Title : GoString
  Court : GoString
  Year : GoString
  Judges : List GoString
  Summary : GoString
  KeyPoints : List GoString
  Citations : List GoString
  Category : GoString
  Importance : GoString
  LegalIssues : List GoString
  Sections : List GoString
  FullText : GoString
  CreatedAt : Time
  UpdatedAt : Time
  deriving DecidableEq

/-- The model `models.LandmarkJudgment`. -/
structure LandmarkJudgment where
  ID : ObjectID
  Case : GoString
  Court : GoString
  Year : GoString
  Significance : GoString
  Impact : GoString
  KeyPrinciples : List GoString
  LegalDoctrine : GoString
  Precedent : GoString
  CreatedAt : Time
  UpdatedAt : Time
  deriving DecidableEq

/-! ## The document store

The MongoDB driver is not part of the repository.  A collection is the list of documents
it holds, the server's evaluation of a filter and of a sort order, and the outcome (success
or error) of every driver call a sub-search makes. -/

/-- The condition on one field in a filter: `bson.M{"$regex": pattern, "$options": options}`
or `bson.M{"$in": values}`. -/
inductive FieldCond where
  | regex (pattern options : GoString)
  | isIn (values : List GoString)
  deriving DecidableEq

/-- A one-key document `bson.M{field: cond}`, an alternative of `$or`. -/
structure Clause where
  field : GoString
  cond : FieldCond
  deriving DecidableEq

/-- A filter `bson.M` with at most the keys `"$or"` and `"category"`; `none` is an absent
key. -/
structure Filter where
  orClauses : Option (List Clause)
  category : Option GoString
  deriving DecidableEq

/-- The empty filter `bson.M{}`. -/
def Filter.empty : Filter := { orClauses := none, category := none }

/-- The driver calls of one sub-search, in program order. -/
inductive StoreCall where
  | emptinessCount
  | filteredCount
  | find
  | cursorAll
  deriving DecidableEq

/-- The options `options.Find()` with `SetSkip`, `SetLimit` and `SetSort` applied; the sort
is a field name and a direction (`1` ascending, `-1` descending). -/
structure FindOptions where
  Skip : Int
  Limit : Int
  SortBy : GoString × Int

/-- A collection of the database. -/
structure Collection (Doc : Type) where
  /-- The documents the collection holds. -/
  docs : List Doc
  /-- The server's decision whether a document matches a filter. -/
  selects : Filter → Doc → Bool
  /-- The server's ordering of a result set by a field and direction. -/
  order : GoString × Int → List Doc → List Doc
  /-- The error with which a driver call of the sub-search fails, if it fails. -/
  fault : StoreCall → Option Error
  /-- What `cursor.All` leaves in the result slice when it fails: nothing, or the
  documents received before the failure. -/
  receivedDocs : List Doc

/-- The driver's `Collection.CountDocuments`: the number of matching documents, or `0` and
the error when the call fails. -/
def Collection.CountDocuments {Doc : Type} (c : Collection Doc) (call : StoreCall)
    (filter : Filter) : Int × Option Error :=
  match c.fault call with
  | some err => (0, some err)
  | none => (((c.docs.filter (c.selects filter)).length : Int), none)

/-- The window of a sorted result set that skip and limit select: a limit of `0` is no
limit, a negative limit counts by its absolute value. -/
def window {Doc : Type} (skip limit : Int) (l : List Doc) : List Doc :=
  let rest := l.drop skip.toNat
  if limit = 0 then rest else rest.take limit.natAbs

/-- The driver's `Collection.Find`: the documents the cursor will yield, or the error when
the call fails; the server rejects a negative skip. -/
def Collection.Find {Doc : Type} (c : Collection Doc) (filter : Filter) (opts : FindOptions) :
    Except Error (List Doc) :=
  match c.fault StoreCall.find with
  | some err => Except.error err
  | none =>
    if opts.Skip < 0 then Except.error "skip must be non-negative"
    else Except.ok (window opts.Skip opts.Limit (c.order opts.SortBy (c.docs.filter (c.selects filter))))

/-- The driver's `Cursor.All` into a nil slice: the slice afterwards and the error. -/
def Collection.CursorAll {Doc : Type} (c : Collection Doc) (cursor : List Doc) :
    List Doc × Option Error :=
  match c.fault StoreCall.cursorAll with
  | some err => (c.receivedDocs, some err)
  | none => (cursor, none)

/-- The three collections `legal_sections`, `case_laws` and `landmark_judgments` that
`database.GetCollection` resolves. -/
structure Database where
  legal_sections : Collection LegalSection
  case_laws : Collection CaseLawRecord
  landmark_judgments : Collection LandmarkJudgment

/-- The values `primitive.NewObjectID()` and `time.Now()` yield during the construction of
one seed dataset: the `k`-th call returns the value at `k`. -/
structure Runtime where
  NewObjectID : Nat → ObjectID
  Now : Nat → Time

/-- Go `int` arithmetic: the value wrapped into the 64-bit two's complement range. -/
def wrapInt (x : Int) : Int := (x + 2 ^ 63) % 2 ^ 64 - 2 ^ 63

/-! ## `backend/services/legal.go` -/

/-- The method `LegalService.getMockSections`. -/
def getMockSections (rt : Runtime) : List LegalSection :=
  [{ ID := rt.NewObjectID 0
     Section := str "354"
     Act := str "Indian Penal Code"
     Title := str "Assault or criminal force to woman with intent to outrage her modesty"
     Description := str "Whoever assaults or uses criminal force to any woman, intending to outrage or knowing it to be likely that he will thereby outrage her modesty, shall be punished with imprisonment of either description for a term which may extend to two years, or with fine, or with both."
     Category := str "crimes_against_women"
     Amendments := [str "Criminal Law Amendment Act, 2013"]
     RelatedSections := [str "354A", str "354B", str "354C", str "354D"]
     Keywords := [str "assault", str "woman", str "modesty", str "criminal force"]
     Punishment := str "Imprisonment up to 2 years or fine or both"
     IsBailable := true
     IsCognizable := true
     CreatedAt := rt.Now 0
     UpdatedAt := rt.Now 1 },
   { ID := rt.NewObjectID 1
     Section := str "420"
     Act := str "Indian Penal Code"
     Title := str "Cheating and dishonestly inducing delivery of property"
     Description := str "Whoever cheats and thereby dishonestly induces the person deceived to deliver any property to any person, or to make, alter or destroy the whole or any part of a valuable security, shall be punished with imprisonment of either description for a term which may extend to seven years, and shall also be liable to fine."
     Category := str "property_crimes"
     Amendments := []
     RelatedSections := [str "415", str "417", str "418", str "419"]
     Keywords := [str "cheating", str "fraud", str "property", str "deception"]
     Punishment := str "Imprisonment up to 7 years and fine"
     IsBailable := false
     IsCognizable := true
     CreatedAt := rt.Now 2
     UpdatedAt := rt.Now 3 },
   { ID := rt.NewObjectID 2
     Section := str "498A"
     Act := str "Indian Penal Code"
     Title := str "Husband or relative of husband of a woman subjecting her to cruelty"
     Description := str "Whoever, being the husband or the relative of the husband of a woman, subjects such woman to cruelty shall be punished with imprisonment for a term which may extend to three years and shall also be liable to fine."
     Category := str "crimes_against_women"
     Amendments := [str "Criminal Law Amendment Act, 1983"]
     RelatedSections := [str "304B", str "406", str "34"]
     Keywords := [str "dowry", str "cruelty", str "husband", str "domestic violence"]
     Punishment := str "Imprisonment up to 3 years and fine"
     IsBailable := false
     IsCognizable := true
     CreatedAt := rt.Now 4
     UpdatedAt := rt.Now 5 }]

/-- The method `LegalService.getMockCaseLaws`. -/
def getMockCaseLaws (rt : Runtime) : List CaseLawRecord :=
  [{ ID := rt.NewObjectID 0
     Title := str "Vishaka & Ors vs State Of Rajasthan & Ors"
     Court := str "Supreme Court of India"
     Year := str "1997"
     Judges := [str "Justice J.S. Verma", str "Justice Sujata V. Manohar", str "Justice B.N. Kirpal"]
     Summary := str "This landmark judgment established guidelines for prevention of sexual harassment of women at workplace and the obligations of employers."
     KeyPoints := [str "Established Vishaka Guidelines", str "Sexual harassment as violation of fundamental rights", str "Employer obligations", str "Complaint procedures"]
     Citations := [str "AIR 1997 SC 3011", str "1997 (6) SCC 241"]
     Category := str "women_rights"
     Importance := str "landmark"
     LegalIssues := [str "Sexual harassment", str "Workplace safety", str "Fundamental rights"]
     Sections := [str "354", str "509"]
     FullText := str ""
     CreatedAt := rt.Now 0
     UpdatedAt := rt.Now 1 },
   { ID := rt.NewObjectID 1
     Title := str "State of Punjab vs Gurmit Singh & Ors"
     Court := str "Supreme Court of India"
     Year := str "1996"
     Judges := [str "Justice K. Ramaswamy", str "Justice S. Saghir Ahmad"]
     Summary := str "This case clarified the scope and meaning of outraging modesty under Section 354 IPC and established important precedents."
     KeyPoints := [str "Definition of outraging modesty", str "Physical contact not always necessary", str "Mens rea requirement", str "Victim testimony importance"]
     Citations := [str "AIR 1996 SC 1393", str "1996 (2) SCC 384"]
     Category := str "criminal_law"
     Importance := str "significant"
     LegalIssues := [str "Outraging modesty", str "Section 354", str "Criminal law"]
     Sections := [str "354"]
     FullText := str ""
     CreatedAt := rt.Now 2
     UpdatedAt := rt.Now 3 }]

/-- The method `LegalService.getMockJudgments`. -/
def getMockJudgments (rt : Runtime) : List LandmarkJudgment :=
  [{ ID := rt.NewObjectID 0
     Case := str "Kesavananda Bharati vs State of Kerala"
     Court := str "Supreme Court of India"
     Year := str "1973"
     Significance := str "Established the Basic Structure Doctrine of the Constitution"
     Impact := str "Fundamental principle that limits Parliament's power to amend the Constitution"
     KeyPrinciples := [str "Basic Structure Doctrine", str "Parliamentary limitations", str "Constitutional supremacy", str "Judicial review"]
     LegalDoctrine := str "Basic Structure Doctrine"
     Precedent := str "Constitutional amendments cannot alter the basic structure of the Constitution"
     CreatedAt := rt.Now 0
     UpdatedAt := rt.Now 1 },
   { ID := rt.NewObjectID 1
     Case := str "Maneka Gandhi vs Union of India"
     Court := str "Supreme Court of India"
     Year := str "1978"
     Significance := str "Expanded the scope of Article 21 (Right to Life and Personal Liberty)"
     Impact := str "Established that right to life includes right to live with dignity"
     KeyPrinciples := [str "Expanded Article 21", str "Right to dignity", str "Procedural due process", str "Interconnected rights"]
     LegalDoctrine := str "Expanded interpretation of fundamental rights"
     Precedent := str "Right to life and personal liberty includes various facets of human dignity"
     CreatedAt := rt.Now 2
     UpdatedAt := rt.Now 3 }]

/-- The options every sub-search builds: skip `(page - 1) * limit` in Go `int` arithmetic,
limit `limit`, and the given sort. -/
def findOptions (page limit : Int) (sort : GoString × Int) : FindOptions :=
  { Skip := wrapInt (wrapInt (page - 1) * limit), Limit := limit, SortBy := sort }

/-- The method `LegalService.searchSections`. -/
def searchSections (db : Database) (rt : Runtime) (filter : Filter) (page limit : Int) :
    List LegalSection × Int × Option Error :=
  let collection := db.legal_sections
  let count := (collection.CountDocuments StoreCall.emptinessCount Filter.empty).1
  if count = 0 then (getMockSections rt, 3, none)
  else
    match collection.CountDocuments StoreCall.filteredCount filter with
    | (_, some err) => ([], 0, some err)
    | (total, none) =>
      let opts := findOptions page limit (str "section", 1)
      match collection.Find filter opts with
      | Except.error err => ([], 0, some err)
      | Except.ok cursor =>
        let (sections, err) := collection.CursorAll cursor
        (sections, total, err)

/-- The method `LegalService.searchCaseLaws`. -/
def searchCaseLaws (db : Database) (rt : Runtime) (filter : Filter) (page limit : Int) :
    List CaseLawRecord × Int × Option Error :=
  let collection := db.case_laws
  let count := (collection.CountDocuments StoreCall.emptinessCount Filter.empty).1
  if count = 0 then (getMockCaseLaws rt, 2, none)
  else
    match collection.CountDocuments StoreCall.filteredCount filter with
    | (_, some err) => ([], 0, some err)
    | (total, none) =>
      let opts := findOptions page limit (str "year", -1)
      match collection.Find filter opts with
      | Except.error err => ([], 0, some err)
      | Except.ok cursor =>
        let (caseLaws, err) := collection.CursorAll cursor
        (caseLaws, total, err)

/-- The expression `filter["$or"].([]bson.M)[0]["title"].(bson.M)["$regex"]` of
`searchJudgments`: the pattern of the first alternative, which must be a regex condition on
`"title"`; `none` when the filter has another shape, where the Go expression panics or
yields no pattern. -/
def titleRegex (clauses : List Clause) : Option GoString :=
  match clauses with
  | { field := field, cond := FieldCond.regex pattern _ } :: _ =>
    if field = str "title" then some pattern else none
  | _ => none

/-- The filter `judgmentFilter` that `searchJudgments` derives from the search filter. -/
def judgmentFilter (filter : Filter) : Option Filter :=
  match filter.orClauses with
  | none => some Filter.empty
  | some clauses =>
    match titleRegex clauses with
    | none => none
    | some pattern =>
      some
        { orClauses := some [
            { field := str "case", cond := FieldCond.regex pattern (str "i") },
            { field := str "significance", cond := FieldCond.regex pattern (str "i") }]
          category := none }

/-- The method `LegalService.searchJudgments`; `none` is a run-time panic in the derivation
of the judgment filter. -/
def searchJudgments (db : Database) (rt : Runtime) (filter : Filter) (page limit : Int) :
    Option (List LandmarkJudgment × Int × Option Error) :=
  let collection := db.landmark_judgments
  let count := (collection.CountDocuments StoreCall.emptinessCount Filter.empty).1
  if count = 0 then some (getMockJudgments rt, 2, none)
  else
    match judgmentFilter filter with
    | none => none
    | some judgmentFilter =>
      match collection.CountDocuments StoreCall.filteredCount judgmentFilter with
      | (_, some err) => some ([], 0, some err)
      | (total, none) =>
        let opts := findOptions page limit (str "year", -1)
        match collection.Find judgmentFilter opts with
        | Except.error err => some ([], 0, some err)
        | Except.ok cursor =>
          let (judgments, err) := collection.CursorAll cursor
          some (judgments, total, err)

/-- One entry of the response map: `{"data": ..., "total": ...}`. -/
structure Page (Doc : Type) where
  data : List Doc
  total : Int

/-- The response map of `SearchLaws`, with its keys `sections`, `case_laws` and
`judgments`. -/
structure SearchResult where
  sections : Page LegalSection
  case_laws : Page CaseLawRecord
  judgments : Page LandmarkJudgment

/-- The filter `SearchLaws` builds from the query and the category. -/
def searchFilter (query category : GoString) : Filter :=
  let filter := Filter.empty
  let filter :=
    if query ≠ str "" then
      { filter with
        orClauses := some [
          { field := str "title", cond := FieldCond.regex query (str "i") },
          { field := str "description", cond := FieldCond.regex query (str "i") },
          { field := str "keywords", cond := FieldCond.isIn [query] }] }
    else filter
  let filter :=
    if category ≠ str "" ∧ category ≠ str "all" then { filter with category := some category }
    else filter
  filter

/-- The method `LegalService.SearchLaws`: the response map and the error; `none` is a
run-time panic.  Each sub-search has its own run-time values for the seed dataset. -/
def SearchLaws (db : Database) (rts rtc rtj : Runtime) (query category : GoString)
    (page limit : Int) : Option (SearchResult × Option Error) :=
  let filter := searchFilter query category
  let (sections, sectionsTotal, _) := searchSections db rts filter page limit
  let (caseLaws, caseLawsTotal, _) := searchCaseLaws db rtc filter page limit
  match searchJudgments db rtj filter page limit with
  | none => none
  | some (judgments, judgmentsTotal, _) =>
    some ({ sections := { data := sections, total := sectionsTotal }
            case_laws := { data := caseLaws, total := caseLawsTotal }
            judgments := { data := judgments, total := judgmentsTotal } }, none)

/-! ## Notions used in the statements -/

/-- The byte `b` is the byte `a`, or `a` is an ASCII letter and `b` is the same letter in
the other case. -/
def caseChanged (a b : Nat) : Prop :=
  a = b ∨ (0x41 ≤ a ∧ a ≤ 0x5A ∧ b = a + 0x20) ∨ (0x61 ≤ a ∧ a ≤ 0x7A ∧ a = b + 0x20)

instance (a b : Nat) : Decidable (caseChanged a b) := by
  unfold caseChanged; infer_instance

/-- The description `d'` is obtained from `d` by changing the case of ASCII letters. -/
def CaseVariant (d d' : GoString) : Prop := List.Forall₂ caseChanged d d'

instance (d d' : GoString) : Decidable (CaseVariant d d') := by
  unfold CaseVariant; infer_instance

/-- A case table that leaves every rune unchanged; a pure ASCII string never consults the
table. -/
def identityTable : Nat → Nat := fun r => r

/-- A description of 25 characters, each the two-byte character U+00E9. -/
def accentedDescription : GoString := str (String.mk (List.replicate 25 (Char.ofNat 0xE9)))

/-- A description of 100 characters, each the two-byte character U+00E9. -/
def longAccentedDescription : GoString :=
  str (String.mk (List.replicate 100 (Char.ofNat 0xE9)))

/-- A collection that holds no document and whose driver calls all succeed. -/
def emptyCollection {Doc : Type} : Collection Doc :=
  { docs := [], selects := fun _ _ => true, order := fun _ l => l, fault := fun _ => none,
    receivedDocs := [] }

/-- A database whose three collections are empty. -/
def emptyDatabase : Database :=
  { legal_sections := emptyCollection, case_laws := emptyCollection,
    landmark_judgments := emptyCollection }

/-- Run-time values that are all zero. -/
def zeroRuntime : Runtime := { NewObjectID := fun _ => 0, Now := fun _ => 0 }

/-- A collection that holds the given documents and in which exactly the given driver call
fails, with a timeout. -/
def faultyCollection {Doc : Type} (docs : List Doc) (failing : StoreCall) : Collection Doc :=
  { docs := docs, selects := fun _ _ => true, order := fun _ l => l,
    fault := fun call => if call = failing then some "context deadline exceeded" else none,
    receivedDocs := [] }

/-- A database whose statute collection holds the three seed statutes as stored documents
and whose given driver call fails; the other two collections are empty. -/
def faultyDatabase (failing : StoreCall) : Database :=
  { legal_sections := faultyCollection (getMockSections zeroRuntime) failing,
    case_laws := emptyCollection, landmark_judgments := emptyCollection }

/-- The sub-search of a collection takes the path of a non-empty store and its driver calls
succeed: the emptiness count is not 0, and the filtered count, the find and the cursor
decoding do not fail. -/
def Collection.answers {Doc : Type} (c : Collection Doc) : Prop :=
  (c.CountDocuments StoreCall.emptinessCount Filter.empty).1 ≠ 0 ∧
  c.fault StoreCall.filteredCount = none ∧ c.fault StoreCall.find = none ∧
  c.fault StoreCall.cursorAll = none

instance {Doc : Type} (c : Collection Doc) : Decidable c.answers := by
  unfold Collection.answers; infer_instance

/-- A server that evaluates the `category` key of a filter by equality with the category
field of a document, a document without that field matching no category, and that lets
every `$or` alternative hold. -/
def categoryServer {Doc : Type} (categoryOf : Doc → Option GoString) (filter : Filter)
    (d : Doc) : Bool :=
  match filter.category with
  | none => true
  | some category => decide (categoryOf d = some category)

/-- A database that holds the seed statutes, case laws and judgments as stored documents,
on a server that evaluates the `category` key, keeps the stored order and answers every
driver call; judgments have no category field. -/
def storedDatabase : Database :=
  { legal_sections :=
      Collection.mk (getMockSections zeroRuntime) (categoryServer (fun d => some d.Category))
        (fun _ l => l) (fun _ => none) []
    case_laws :=
      Collection.mk (getMockCaseLaws zeroRuntime) (categoryServer (fun d => some d.Category))
        (fun _ l => l) (fun _ => none) []
    landmark_judgments :=
      Collection.mk (getMockJudgments zeroRuntime) (categoryServer (fun _ => none))
        (fun _ l => l) (fun _ => none) [] }


/-! ## `backend/models/fir.go`: records and requests -/

/-- The model `models.FIR`; a nil `SubmittedAt` is `none`. -/
structure FIR where
  ID : ObjectID
  FIRNumber : GoString
  OfficerID : ObjectID
  ComplainantName : GoString
  ComplainantAddress : GoString
  ComplainantPhone : GoString
  IncidentDate : Time
  IncidentTime : GoString
  IncidentLocation : GoString
  IncidentDescription : GoString
  WitnessDetails : GoString
  EvidenceDetails : GoString
  OfficerRemarks : GoString
  Language : GoString
  Status : GoString
  Priority : GoString
  ApplicableSections : List GoString
  SuggestedLaws : List SuggestedLaw
  AIAnalysis : FIRGuardian.AIAnalysis
  GeneratedFIR : GoString
  CreatedAt : Time
  UpdatedAt : Time
  SubmittedAt : Option Time
  deriving DecidableEq

/-- The model `models.CreateFIRRequest`. -/
structure CreateFIRRequest where
  ComplainantName : GoString
  ComplainantAddress : GoString
  ComplainantPhone : GoString
  IncidentDate : GoString
  IncidentTime : GoString
  IncidentLocation : GoString
  IncidentDescription : GoString
  WitnessDetails : GoString
  EvidenceDetails : GoString
  OfficerRemarks : GoString
  Language : GoString

/-! ## Go library functions of the case lifecycle

Instants count from the zero `time.Time` (1 January of year 1, 00:00 UTC); the store keeps
them with the resolution of the clock readings. -/

/-- The value of a hexadecimal digit, as `encoding/hex` reads it. -/
def hexValue (c : Nat) : Option Nat :=
  if 0x30 ≤ c ∧ c ≤ 0x39 then some (c - 0x30)
  else if 0x61 ≤ c ∧ c ≤ 0x66 then some (c - 0x61 + 10)
  else if 0x41 ≤ c ∧ c ≤ 0x46 then some (c - 0x41 + 10)
  else none

/-- The digits of a hexadecimal string, `none` when a byte is not a hexadecimal digit. -/
def hexDigits : GoString → Option (List Nat)
  | [] => some []
  | c :: rest =>
    match hexValue c, hexDigits rest with
    | some v, some vs => some (v :: vs)
    | _, _ => none

/-- The driver's `primitive.ObjectIDFromHex`: a string of exactly 24 hexadecimal digits
denotes an identifier, any other string is an error. -/
def ObjectIDFromHex (s : GoString) : Except Error ObjectID :=
  if len s ≠ 24 then Except.error "the provided hex string is not a valid ObjectID"
  else
    match hexDigits s with
    | none => Except.error "encoding/hex: invalid byte"
    | some digits => Except.ok (digits.foldl (fun acc v => acc * 16 + v) 0)

/-- The lower-case hexadecimal digit of a value below 16. -/
def hexDigit (v : Nat) : Nat := if v < 10 then 0x30 + v else 0x61 + (v - 10)

/-- The driver's `ObjectID.Hex`: the 24 lower-case hexadecimal digits of the 12 bytes. -/
def Hex (id : ObjectID) : GoString :=
  (List.range 24).map (fun i => hexDigit (id / 16 ^ (23 - i) % 16))

/-- The decimal digits of a number, most significant first; `fuel` bounds the number of
digits. -/
def decimalAux : Nat → Nat → GoString → GoString
  | 0, _, acc => acc
  | fuel + 1, n, acc =>
    if n < 10 then (0x30 + n) :: acc else decimalAux fuel (n / 10) ((0x30 + n % 10) :: acc)

/-- The decimal representation of a natural number. -/
def decimal (n : Nat) : GoString := decimalAux (n + 1) n []

/-- Zero padding on the left up to a width. -/
def padZeros (width : Nat) (digits : GoString) : GoString :=
  List.replicate (width - digits.length) 0x30 ++ digits

/-- The verb `%d` of `fmt.Sprintf` on an integer. -/
def fmtD (x : Int) : GoString :=
  if x < 0 then 0x2D :: decimal x.natAbs else decimal x.natAbs

/-- The verb `%04d` of `fmt.Sprintf` on an integer: zero padding to width 4, the sign
counting towards the width. -/
def fmt04d (x : Int) : GoString :=
  if x < 0 then 0x2D :: padZeros 3 (decimal x.natAbs) else padZeros 4 (decimal x.natAbs)

/-- The function `appendInt` of package `time`: zero padding to a width that does not count
the sign. -/
def appendInt (x : Int) (width : Nat) : GoString :=
  if x < 0 then 0x2D :: padZeros width (decimal x.natAbs) else padZeros width (decimal x.natAbs)

/-- Whether a year is a leap year. -/
def isLeap (year : Int) : Bool := year % 4 = 0 && (year % 100 ≠ 0 || year % 400 = 0)

/-- The function `daysIn` of package `time`: the number of days of a month. -/
def daysIn (month : Nat) (year : Int) : Nat :=
  if month = 2 then (if isLeap year then 29 else 28)
  else if month = 4 ∨ month = 6 ∨ month = 9 ∨ month = 11 then 30
  else 31

/-- The number of days from 1 January of year 1 to the given date of the proleptic
Gregorian calendar. -/
def daysSinceZero (year : Int) (month day : Nat) : Int :=
  let y : Int := if month ≤ 2 then year - 1 else year
  let era : Int := y.fdiv 400
  let yoe : Int := y - era * 400
  let mp : Int := ((month + 9) % 12 : Nat)
  let doy : Int := (153 * mp + 2).fdiv 5 + day - 1
  let doe : Int := yoe * 365 + yoe.fdiv 4 - yoe.fdiv 100 + doy
  era * 146097 + doe - 306

/-- The number of nanoseconds of a day. -/
def nanosPerDay : Int := 86400 * 1000000000

/-- The instant `time.Date(year, month, day, 0, 0, 0, 0, time.UTC)`. -/
def dateUTC (year : Int) (month day : Nat) : Time := daysSinceZero year month day * nanosPerDay

/-- The value of a decimal digit. -/
def digitValue (c : Nat) : Option Nat := if 0x30 ≤ c ∧ c ≤ 0x39 then some (c - 0x30) else none

/-- Go's `time.Parse("2006-01-02", value)`: four digits of the year, `-`, two digits of a
month from 1 to 12, `-`, two digits of a day of that month, and nothing else; `none` is a
parse error. -/
def parseDate (value : GoString) : Option Time :=
  match value with
  | [y1, y2, y3, y4, s1, m1, m2, s2, d1, d2] =>
    match digitValue y1, digitValue y2, digitValue y3, digitValue y4, digitValue m1,
      digitValue m2, digitValue d1, digitValue d2 with
    | some a, some b, some c, some d, some e, some f, some g, some h =>
      let year : Int := ((a * 1000 + b * 100 + c * 10 + d : Nat) : Int)
      let month := e * 10 + f
      let day := g * 10 + h
      if s1 = 0x2D ∧ s2 = 0x2D ∧ 1 ≤ month ∧ month ≤ 12 ∧ 1 ≤ day ∧ day ≤ daysIn month year then
        some (dateUTC year month day)
      else none
    | _, _, _, _, _, _, _, _ => none
  | _ => none

/-- The calendar date (year, month, day) of an instant, in UTC. -/
def civil (t : Time) : Int × Nat × Nat :=
  let z : Int := t.fdiv nanosPerDay + 306
  let era : Int := z.fdiv 146097
  let doe : Int := z - era * 146097
  let yoe : Int := (doe - doe.fdiv 1460 + doe.fdiv 36524 - doe.fdiv 146096).fdiv 365
  let doy : Int := doe - (365 * yoe + yoe.fdiv 4 - yoe.fdiv 100)
  let mp : Int := (5 * doy + 2).fdiv 153
  let day : Int := doy - (153 * mp + 2).fdiv 5 + 1
  let month : Int := if mp < 10 then mp + 3 else mp - 9
  let year : Int := yoe + era * 400 + (if month ≤ 2 then 1 else 0)
  (year, month.toNat, day.toNat)

/-- Go's `t.Format("2006-01-02")` for an instant in UTC. -/
def formatDate (t : Time) : GoString :=
  let (year, month, day) := civil t
  appendInt year 4 ++ [0x2D] ++ appendInt month 2 ++ [0x2D] ++ appendInt day 2

/-! ## `backend/utils/helpers.go`: case numbers -/

/-- The function `utils.GenerateFIRNumber`, for the calendar year `year` the clock shows and
the value `intn` that `rand.Intn(9999)` draws. -/
def GenerateFIRNumber (year : Int) (intn : Nat) : GoString :=
  let sequence : Int := (intn : Int) + 1
  str "FIR/" ++ fmtD year ++ str "/" ++ fmt04d sequence

/-! ## The collection of incident records

The collection `firs` is the list of the records it holds, in insertion order, and the
outcome (success or error) of every driver call.  Filters are the two the service builds,
equalities on `_id` and `officer_id`; an update is a `$set` of the three fields the service
sets. -/

/-- The driver calls the case lifecycle makes. -/
inductive FIRCall where
  | insertOne
  | countDocuments
  | find
  | cursorAll
  | findOne
  | updateOne
  | aggregate
  | cursorNext
  deriving DecidableEq

/-- A filter `bson.M` with at most the keys `"_id"` and `"officer_id"`; `none` is an absent
key. -/
structure FIRFilter where
  _id : Option ObjectID
  officer_id : Option ObjectID
  deriving DecidableEq

/-- A document `bson.M` of fields to `$set`, with at most the keys `"status"`,
`"submitted_at"` and `"updated_at"`; `none` is an absent key. -/
structure Updates where
  status : Option GoString
  submitted_at : Option Time
  updated_at : Option Time
  deriving DecidableEq

/-- The collection `firs`. -/
structure FIRStore where
  /-- The records the collection holds, in insertion order. -/
  docs : List FIR
  /-- The error with which a driver call fails, if it fails. -/
  fault : FIRCall → Option Error

/-- Whether a record matches a filter: every key present must equal the field. -/
def FIRFilter.matches (filter : FIRFilter) (d : FIR) : Bool :=
  (match filter._id with
    | none => true
    | some id => decide (d.ID = id)) &&
  (match filter.officer_id with
    | none => true
    | some id => decide (d.OfficerID = id))

/-- The driver's `InsertOne`: the error and the collection afterwards. -/
def FIRStore.InsertOne (s : FIRStore) (fir : FIR) : Option Error × FIRStore :=
  match s.fault FIRCall.insertOne with
  | some err => (some err, s)
  | none => (none, { s with docs := s.docs ++ [fir] })

/-- The driver's `CountDocuments`: the number of matching records, or `0` and the error. -/
def FIRStore.CountDocuments (s : FIRStore) (filter : FIRFilter) : Int × Option Error :=
  match s.fault FIRCall.countDocuments with
  | some err => (0, some err)
  | none => (((s.docs.filter filter.matches).length : Int), none)

/-- The server's ordering of a result set: by creation time, descending or ascending, records
of equal creation time staying in insertion order; any other sort leaves the order. -/
def FIRStore.order (sort : GoString × Int) (l : List FIR) : List FIR :=
  if sort = (str "created_at", -1) then l.insertionSort (fun a b => b.CreatedAt ≤ a.CreatedAt)
  else if sort = (str "created_at", 1) then
    l.insertionSort (fun a b => a.CreatedAt ≤ b.CreatedAt)
  else l

/-- The driver's `Find`: the records the cursor will yield, or the error; the server rejects
a negative skip. -/
def FIRStore.Find (s : FIRStore) (filter : FIRFilter) (opts : FindOptions) :
    Except Error (List FIR) :=
  match s.fault FIRCall.find with
  | some err => Except.error err
  | none =>
    if opts.Skip < 0 then Except.error "skip must be non-negative"
    else
      Except.ok (window opts.Skip opts.Limit
        (FIRStore.order opts.SortBy (s.docs.filter filter.matches)))

/-- The driver's `Cursor.All`: the records of the cursor, or the error. -/
def FIRStore.CursorAll (s : FIRStore) (cursor : List FIR) : Except Error (List FIR) :=
  match s.fault FIRCall.cursorAll with
  | some err => Except.error err
  | none => Except.ok cursor

/-- The driver's `FindOne(...).Decode`: the first matching record, or the error, which is
`mongo.ErrNoDocuments` when no record matches. -/
def FIRStore.FindOne (s : FIRStore) (filter : FIRFilter) : Except Error FIR :=
  match s.fault FIRCall.findOne with
  | some err => Except.error err
  | none =>
    match s.docs.find? filter.matches with
    | none => Except.error "mongo: no documents in result"
    | some fir => Except.ok fir

/-- The effect of `$set` on one record. -/
def applySet (updates : Updates) (d : FIR) : FIR :=
  { d with
    Status := match updates.status with
      | none => d.Status
      | some status => status
    SubmittedAt := match updates.submitted_at with
      | none => d.SubmittedAt
      | some t => some t
    UpdatedAt := match updates.updated_at with
      | none => d.UpdatedAt
      | some t => t }

/-- The records after an update of the first record that matches. -/
def updateFirst (filter : FIRFilter) (updates : Updates) : List FIR → List FIR
  | [] => []
  | d :: rest =>
    if filter.matches d then applySet updates d :: rest
    else d :: updateFirst filter updates rest

/-- The driver's `UpdateOne` with `bson.M{"$set": updates}`: the error and the collection
afterwards; no matching record is not an error. -/
def FIRStore.UpdateOne (s : FIRStore) (filter : FIRFilter) (updates : Updates) :
    Option Error × FIRStore :=
  match s.fault FIRCall.updateOne with
  | some err => (some err, s)
  | none => (none, { s with docs := updateFirst filter updates s.docs })

/-- The driver's `Aggregate` for the pipeline `$match` on a filter, then `$group` by
`"$status"` with a count: one entry per status that occurs among the matching records. -/
def FIRStore.Aggregate (s : FIRStore) (filter : FIRFilter) :
    Except Error (List (GoString × Nat)) :=
  match s.fault FIRCall.aggregate with
  | some err => Except.error err
  | none =>
    let statuses := (s.docs.filter filter.matches).map (fun d => d.Status)
    Except.ok
      (statuses.dedup.map
        (fun status => (status, statuses.countP (fun s => decide (s = status)))))

/-- The groups a loop `for cursor.Next(ctx)` sees: all of them, or none when the iteration
fails. -/
def FIRStore.CursorNext (s : FIRStore) (cursor : List (GoString × Nat)) :
    List (GoString × Nat) :=
  match s.fault FIRCall.cursorNext with
  | some _ => []
  | none => cursor

/-- A Go `map[string]int`: its entries, with pairwise different keys. -/
abbrev StatusCounts := List (GoString × Nat)

/-- The assignment `m[key] = value`. -/
def StatusCounts.set (m : StatusCounts) (key : GoString) (value : Nat) : StatusCounts :=
  (key, value) :: m.filter (fun e => decide (e.1 ≠ key))

/-- The lookup `m[key]`, `0` for an absent key. -/
def StatusCounts.get (m : StatusCounts) (key : GoString) : Nat :=
  match m.find? (fun e => decide (e.1 = key)) with
  | none => 0
  | some e => e.2

/-! ## `backend/services/fir.go`: the case lifecycle -/

/-- The values one `CreateFIR` call reads at run time: the identifiers and clock readings of
`Runtime`, the calendar year `GenerateFIRNumber` reads off the clock and the value its
`rand.Intn(9999)` draws. -/
structure CreateRuntime extends Runtime where
  Year : Int
  Intn : Nat

/-- The loop of `CreateFIR` that appends the section of every suggested law to
`ApplicableSections`. -/
def extractSections (fir : FIR) (suggestedLaws : List SuggestedLaw) : FIR :=
  suggestedLaws.foldl
    (fun fir law => { fir with ApplicableSections := fir.ApplicableSections ++ [law.Section] })
    fir

/-- The method `FIRService.CreateFIR`: the record and the error, and the collection
afterwards.  The clock is read twice inside `GenerateFIRNumber`, then for `CreatedAt` and
for `UpdatedAt`. -/
def CreateFIR (tbl : Nat → Nat) (store : FIRStore) (rt : CreateRuntime)
    (req : CreateFIRRequest) (officerID : GoString) : (Option FIR × Option Error) × FIRStore :=
  match ObjectIDFromHex officerID with
  | Except.error err => ((none, some err), store)
  | Except.ok objectID =>
    match parseDate req.IncidentDate with
    | none => ((none, some "invalid incident date format"), store)
    | some incidentDate =>
      let firNumber := GenerateFIRNumber rt.Year rt.Intn
      let (aiAnalysis, suggestedLaws) := AnalyzeIncident tbl req.IncidentDescription
      let fir : FIR :=
        { ID := rt.NewObjectID 0
          FIRNumber := firNumber
          OfficerID := objectID
          ComplainantName := req.ComplainantName
          ComplainantAddress := req.ComplainantAddress
          ComplainantPhone := req.ComplainantPhone
          IncidentDate := incidentDate
          IncidentTime := req.IncidentTime
          IncidentLocation := req.IncidentLocation
          IncidentDescription := req.IncidentDescription
          WitnessDetails := req.WitnessDetails
          EvidenceDetails := req.EvidenceDetails
          OfficerRemarks := req.OfficerRemarks
          Language := req.Language
          Status := str "draft"
          Priority := determinePriority tbl req.IncidentDescription
          ApplicableSections := []
          SuggestedLaws := suggestedLaws
          AIAnalysis := aiAnalysis
          GeneratedFIR := str ""
          CreatedAt := rt.Now 2
          UpdatedAt := rt.Now 3
          SubmittedAt := none }
      let fir := extractSections fir suggestedLaws
      match store.InsertOne fir with
      | (some err, store) => ((none, some err), store)
      | (none, store) => ((some fir, none), store)

/-- The method `FIRService.GetFIRs`: the records, the total and the error. -/
def GetFIRs (store : FIRStore) (officerID : GoString) (page limit : Int) :
    List FIR × Int × Option Error :=
  match ObjectIDFromHex officerID with
  | Except.error err => ([], 0, some err)
  | Except.ok objectID =>
    let filter : FIRFilter := { _id := none, officer_id := some objectID }
    match store.CountDocuments filter with
    | (_, some err) => ([], 0, some err)
    | (total, none) =>
      let opts : FindOptions :=
        { SortBy := (str "created_at", -1)
          Skip := wrapInt (wrapInt (page - 1) * limit)
          Limit := limit }
      match store.Find filter opts with
      | Except.error err => ([], 0, some err)
      | Except.ok cursor =>
        match store.CursorAll cursor with
        | Except.error err => ([], 0, some err)
        | Except.ok firs => (firs, total, none)

/-- The method `FIRService.GetFIRByID`: the record and the error. -/
def GetFIRByID (store : FIRStore) (firID officerID : GoString) : Option FIR × Option Error :=
  match ObjectIDFromHex firID with
  | Except.error err => (none, some err)
  | Except.ok firObjectID =>
    match ObjectIDFromHex officerID with
    | Except.error err => (none, some err)
    | Except.ok officerObjectID =>
      match store.FindOne { _id := some firObjectID, officer_id := some officerObjectID } with
      | Except.error err => (none, some err)
      | Except.ok fir => (some fir, none)

/-- The method `FIRService.UpdateFIR`, with `now` the clock reading it takes: the error and
the collection afterwards. -/
def UpdateFIR (store : FIRStore) (now : Time) (firID officerID : GoString) (updates : Updates) :
    Option Error × FIRStore :=
  match ObjectIDFromHex firID with
  | Except.error err => (some err, store)
  | Except.ok firObjectID =>
    match ObjectIDFromHex officerID with
    | Except.error err => (some err, store)
    | Except.ok officerObjectID =>
      let updates := { updates with updated_at := some now }
      store.UpdateOne { _id := some firObjectID, officer_id := some officerObjectID } updates

/-- The method `FIRService.SubmitFIR`: the first clock reading is `now`, the second the one
`UpdateFIR` takes. -/
def SubmitFIR (store : FIRStore) (rt : Runtime) (firID officerID : GoString) :
    Option Error × FIRStore :=
  let now := rt.Now 0
  UpdateFIR store (rt.Now 1) firID officerID
    { status := some (str "submitted"), submitted_at := some now, updated_at := none }

/-- One entry of `recentCases`, with its keys `id`, `title`, `status`, `date` and
`confidence`. -/
structure RecentCase where
  id : GoString
  title : GoString
  status : GoString
  date : GoString
  confidence : Nat
  deriving DecidableEq

/-- The method `FIRService.formatRecentCases`. -/
def formatRecentCases (firs : List FIR) : List RecentCase :=
  firs.foldl
    (fun cases fir =>
      cases ++
        [{ id := Hex fir.ID
           title := fir.FIRNumber ++ str " - " ++ fir.ComplainantName
           status := fir.Status
           date := formatDate fir.CreatedAt
           confidence := fir.AIAnalysis.Confidence }])
    []

/-- The response map of `GetDashboardStats`. -/
structure DashboardStats where
  totalFIRs : Nat
  pendingFIRs : Nat
  completedFIRs : Nat
  accuracyRate : Nat
  recentCases : List RecentCase
  deriving DecidableEq

/-- The method `FIRService.GetDashboardStats`: the response map and the error. -/
def GetDashboardStats (store : FIRStore) (officerID : GoString) :
    Option DashboardStats × Option Error :=
  match ObjectIDFromHex officerID with
  | Except.error err => (none, some err)
  | Except.ok objectID =>
    match store.Aggregate { _id := none, officer_id := some objectID } with
    | Except.error err => (none, some err)
    | Except.ok cursor =>
      let statusCounts : StatusCounts :=
        (store.CursorNext cursor).foldl (fun m result => m.set result.1 result.2) []
      match GetFIRs store officerID 1 5 with
      | (_, _, some err) => (none, some err)
      | (recentCases, _, none) =>
        let total := statusCounts.foldl (fun total entry => total + entry.2) 0
        let accuracyRate := 87
        (some
          { totalFIRs := total
            pendingFIRs := statusCounts.get (str "draft") + statusCounts.get (str "submitted")
            completedFIRs := statusCounts.get (str "closed")
            accuracyRate := accuracyRate
            recentCases := formatRecentCases recentCases }, none)

/-! ## `backend/handlers/fir.go` -/

/-- A response `c.JSON(code, body)`; an error response has the body
`gin.H{"error": message}`. -/
inductive Response (Body : Type) where
  | json (code : Nat) (body : Body)
  | error (code : Nat) (message : GoString)

/-- The handler `FIRHandler.GetFIRByID`, for the path parameter `id` and the `user_id` of the
context. -/
def FIRHandler.GetFIRByID (store : FIRStore) (firID userID : GoString) :
    Response (Option FIR) :=
  match FIRGuardian.GetFIRByID store firID userID with
  | (_, some _) => Response.error 404 (str "FIR not found")
  | (fir, none) => Response.json 200 fir

/-! ## Notions and sample data of the case lifecycle statements -/

/-- The position of a status in the order draft, submitted, under_investigation, closed. -/
def statusRank (status : GoString) : Option Nat :=
  if status = str "draft" then some 0
  else if status = str "submitted" then some 1
  else if status = str "under_investigation" then some 2
  else if status = str "closed" then some 3
  else none

/-- A collection that holds the given records and whose driver calls all succeed. -/
def reliableStore (docs : List FIR) : FIRStore := { docs := docs, fault := fun _ => none }

/-- The hexadecimal identifier of a first officer. -/
def officerA : GoString := str "507f1f77bcf86cd799439011"

/-- The hexadecimal identifier of a second officer. -/
def officerB : GoString := str "507f1f77bcf86cd799439012"

/-- The identifier that `officerA` denotes. -/
def officerAID : ObjectID := 0x507f1f77bcf86cd799439011

/-- The identifier that `officerB` denotes. -/
def officerBID : ObjectID := 0x507f1f77bcf86cd799439012

/-- A record with the given identifier, owner, status and creation time, every other field
being the zero value. -/
def sampleRecord (id officer : ObjectID) (status : GoString) (createdAt : Time) : FIR :=
  { ID := id, FIRNumber := [], OfficerID := officer, ComplainantName := [],
    ComplainantAddress := [], ComplainantPhone := [], IncidentDate := 0, IncidentTime := [],
    IncidentLocation := [], IncidentDescription := [], WitnessDetails := [],
    EvidenceDetails := [], OfficerRemarks := [], Language := [], Status := status,
    Priority := [], ApplicableSections := [], SuggestedLaws := [],
    AIAnalysis :=
      { Confidence := 0, KeyEntities := [], CrimeType := [], RelevantCaseLaws := [],
        Recommendations := [], ProcessedAt := 0 },
    GeneratedFIR := [], CreatedAt := createdAt, UpdatedAt := createdAt, SubmittedAt := none }

/-- A run whose clock readings start at `t` and advance by one per reading. -/
def clockAt (t : Time) : Runtime := { NewObjectID := fun _ => 0, Now := fun k => t + k }

/-- A creation run in the year 2024 whose random draw is 41. -/
def sampleRuntime : CreateRuntime :=
  { NewObjectID := fun _ => 1, Now := fun k => 1000 + k, Year := 2024, Intn := 41 }

/-- A creation request with the given incident date. -/
def sampleRequest (incidentDate : GoString) : CreateFIRRequest :=
  { ComplainantName := str "Asha", ComplainantAddress := str "12 MG Road",
    ComplainantPhone := str "9800000000", IncidentDate := incidentDate,
    IncidentTime := str "10:30", IncidentLocation := str "Pune",
    IncidentDescription := str "A woman reported the theft of her phone",
    WitnessDetails := [], EvidenceDetails := [], OfficerRemarks := [], Language := str "en" }

/-- A collection with one draft record, of officer A, with identifier 1. -/
def draftStore : FIRStore := reliableStore [sampleRecord 1 officerAID (str "draft") 10]

/-- A collection with one closed record, of officer A, with identifier 1. -/
def closedStore : FIRStore := reliableStore [sampleRecord 1 officerAID (str "closed") 10]

/-- A collection with 2 draft, 3 submitted and 1 closed record of officer A and one draft
record of officer B. -/
def dashboardStore : FIRStore :=
  reliableStore
    [sampleRecord 1 officerAID (str "draft") 10, sampleRecord 2 officerAID (str "submitted") 20,
     sampleRecord 3 officerBID (str "draft") 30, sampleRecord 4 officerAID (str "closed") 40,
     sampleRecord 5 officerAID (str "submitted") 50, sampleRecord 6 officerAID (str "draft") 60,
     sampleRecord 7 officerAID (str "submitted") 70]


/-! ## Go library functions of the document generator -/

/-- The table `asciiSpace` of package `strings`. -/
def asciiSpace (c : Nat) : Bool :=
  c = 0x09 ∨ c = 0x0A ∨ c = 0x0B ∨ c = 0x0C ∨ c = 0x0D ∨ c = 0x20

/-- Go's `unicode.IsSpace`. -/
def unicodeIsSpace (r : Nat) : Bool :=
  if r ≤ 0xFF then
    r = 0x09 ∨ r = 0x0A ∨ r = 0x0B ∨ r = 0x0C ∨ r = 0x0D ∨ r = 0x20 ∨ r = 0x85 ∨ r = 0xA0
  else
    r = 0x1680 ∨ (0x2000 ≤ r ∧ r ≤ 0x200A) ∨ r = 0x2028 ∨ r = 0x2029 ∨ r = 0x202F ∨
      r = 0x205F ∨ r = 0x3000

/-- Go's `utf8.RuneStart`: the byte is not a continuation byte. -/
def RuneStart (b : Nat) : Bool := b &&& 0xC0 ≠ 0x80

/-- The backward search of `utf8.DecodeLastRuneInString` for the start of the last rune:
the candidate below `next` is tried while it is at least `lim`. -/
def searchStart (s : GoString) (lim : Nat) : Nat → Nat
  | 0 => 0
  | k + 1 =>
    if k < lim then k
    else if RuneStart (s.getD k 0) then k
    else searchStart s lim k

/-- Go's `utf8.DecodeLastRuneInString`: the last rune of `s` and its width in bytes. -/
def DecodeLastRuneInString (s : GoString) : Nat × Nat :=
  match s.getLast? with
  | none => (RuneError, 0)
  | some last =>
    if last < 0x80 then (last, 1)
    else
      let start := searchStart s (s.length - 4) (s.length - 1)
      let d := DecodeRuneInString (s.drop start)
      if start + d.2 ≠ s.length then (RuneError, 1) else d

/-- The loop of `strings.TrimLeftFunc(s, unicode.IsSpace)`; `fuel` bounds the number of runes
looked at. -/
def trimLeftAux : Nat → GoString → GoString
  | 0, s => s
  | _, [] => []
  | fuel + 1, b :: rest =>
    let d := DecodeRuneInString (b :: rest)
    if unicodeIsSpace d.1 then trimLeftAux fuel ((b :: rest).drop d.2) else b :: rest

/-- The loop of `strings.TrimRightFunc(s, unicode.IsSpace)`; `fuel` bounds the number of
runes looked at. -/
def trimRightAux : Nat → GoString → GoString
  | 0, s => s
  | fuel + 1, s =>
    let d := DecodeLastRuneInString s
    if d.2 = 0 then s
    else if unicodeIsSpace d.1 then trimRightAux fuel (s.take (s.length - d.2)) else s

/-- Go's `strings.TrimRightFunc(s, unicode.IsSpace)`. -/
def TrimRightSpace (s : GoString) : GoString := trimRightAux s.length s

/-- Go's `strings.TrimFunc(s, unicode.IsSpace)`. -/
def TrimFuncSpace (s : GoString) : GoString := TrimRightSpace (trimLeftAux s.length s)

/-- The second loop of `strings.TrimSpace`, on the reversed string: trailing ASCII space is
dropped; a non-ASCII byte hands over to `TrimRightFunc`. -/
def trimSpaceEnd : GoString → GoString
  | [] => []
  | c :: rest =>
    if 0x80 ≤ c then TrimRightSpace (c :: rest).reverse
    else if asciiSpace c then trimSpaceEnd rest
    else (c :: rest).reverse

/-- Go's `strings.TrimSpace`: leading ASCII space is dropped, then trailing; a non-ASCII byte
hands over to `TrimFunc`. -/
def TrimSpace : GoString → GoString
  | [] => []
  | c :: rest =>
    if 0x80 ≤ c then TrimFuncSpace (c :: rest)
    else if asciiSpace c then TrimSpace rest
    else trimSpaceEnd (c :: rest).reverse

/-- Go's `fmt.Sprintf` for a format whose verbs are all `%s`, applied to string operands: a
verb is replaced by the next operand, a verb without operand by `%!s(MISSING)`. -/
def Sprintf : GoString → List GoString → GoString
  | [], _ => []
  | [c], _ => [c]
  | c :: d :: rest, args =>
    if c = 0x25 ∧ d = 0x73 then
      match args with
      | [] => str "%!s(MISSING)" ++ Sprintf rest []
      | a :: more => a ++ Sprintf rest more
    else c :: Sprintf (d :: rest) args

/-! ## `backend/models/fir.go`: the generation request -/

/-- The model `models.GenerateFIRRequest`. -/
structure GenerateFIRRequest where
  IncidentDescription : GoString
  ComplainantName : GoString
  IncidentLocation : GoString
  IncidentDate : GoString

/-! ## `backend/services/ai.go`: the document generator -/

/-- The variable `template` of `GenerateFIRDocument`. -/
def template : GoString :=
  str ("\nFIRST INFORMATION REPORT\n(Under Section 154 of the Code of Criminal Procedure, 1973)\n" ++
    "\nPolice Station: %s\nDate: %s\n" ++
    "\nCOMPLAINANT DETAILS:\nName: %s\n" ++
    "\nINCIDENT DETAILS:\nDate of Incident: %s\nDescription: %s\n" ++
    "\nAPPLICABLE SECTIONS:\n" ++
    "Based on AI analysis, the following sections may be applicable:\n" ++
    "- Section 354 of Indian Penal Code\n- Section 509 of Indian Penal Code\n" ++
    "\nThis FIR has been generated with AI assistance and should be reviewed by the investigating officer.\n\t")

/-- The method `AIService.GenerateFIRDocument`: the text and the error. -/
def GenerateFIRDocument (req : GenerateFIRRequest) : GoString × Option Error :=
  let generatedFIR := Sprintf template
    [req.IncidentLocation, req.IncidentDate, req.ComplainantName, req.IncidentDate,
     req.IncidentDescription]
  (TrimSpace generatedFIR, none)

/-- The method `FIRService.GenerateFIR`. -/
def GenerateFIR (req : GenerateFIRRequest) : GoString × Option Error := GenerateFIRDocument req

/-! ## `backend/utils/helpers.go`: pagination -/

/-- The function `utils.Paginate`, in Go `int` arithmetic. -/
def Paginate (page limit : Int) : Int × Int :=
  let page := if page < 1 then 1 else page
  let limit := if limit < 1 then 10 else limit
  let limit := if limit > 100 then 100 else limit
  let offset := wrapInt (wrapInt (page - 1) * limit)
  (offset, limit)

/-! ## `backend/handlers/fir.go`: submission -/

/-- The handler `FIRHandler.SubmitFIR`, for the path parameter `id` and the `user_id` of the
context: the response and the collection afterwards. -/
def FIRHandler.SubmitFIR (store : FIRStore) (rt : Runtime) (firID userID : GoString) :
    Response GoString × FIRStore :=
  match FIRGuardian.SubmitFIR store rt firID userID with
  | (some err, store) => (Response.error 500 (str err), store)
  | (none, store) => (Response.json 200 (str "FIR submitted successfully"), store)

/-! ## Notions of the document and frame statements -/

/-- The document the template gives for a request, without the surrounding white space. -/
def documentText (req : GenerateFIRRequest) : GoString :=
  str "FIRST INFORMATION REPORT\n(Under Section 154 of the Code of Criminal Procedure, 1973)\n\nPolice Station: " ++
    req.IncidentLocation ++ str "\nDate: " ++ req.IncidentDate ++
    str "\n\nCOMPLAINANT DETAILS:\nName: " ++ req.ComplainantName ++
    str "\n\nINCIDENT DETAILS:\nDate of Incident: " ++ req.IncidentDate ++
    str "\nDescription: " ++ req.IncidentDescription ++
    str ("\n\nAPPLICABLE SECTIONS:\n" ++
      "Based on AI analysis, the following sections may be applicable:\n" ++
      "- Section 354 of Indian Penal Code\n- Section 509 of Indian Penal Code\n" ++
      "\nThis FIR has been generated with AI assistance and should be reviewed by the investigating officer.")

/-- A generation request with the given description. -/
def sampleGenerateRequest (description : GoString) : GenerateFIRRequest :=
  { IncidentDescription := description, ComplainantName := str "Asha",
    IncidentLocation := str "Pune", IncidentDate := str "2024-02-29" }
/-! ## Lemmas -/

/-! ### Substring search and UTF-8 decoding -/


theorem HasPrefix_iff (s p : GoString) : HasPrefix s p = true ↔ p <+: s := by
  induction p generalizing s with
  | nil => simp [HasPrefix]
  | cons x ps ih =>
    cases s with
    | nil => simp [HasPrefix]
    | cons c s =>
      simp only [HasPrefix, Bool.and_eq_true, decide_eq_true_eq, ih, List.cons_prefix_cons]
      constructor
      · rintro ⟨h1, h2⟩; exact ⟨h1.symm, h2⟩
      · rintro ⟨h1, h2⟩; exact ⟨h1.symm, h2⟩

theorem stringsContains_iff (s substr : GoString) :
    stringsContains s substr = true ↔ substr <:+: s := by
  induction s with
  | nil => simp [stringsContains, HasPrefix_iff, List.prefix_nil]
  | cons c s ih =>
    simp [stringsContains, HasPrefix_iff, ih, List.infix_cons_iff]

theorem first_spec {s0 sz lo hi : Nat} (h : first s0 = some (sz, lo, hi)) :
    0x80 ≤ s0 ∧ 2 ≤ sz ∧ sz ≤ 4 ∧ 0x80 ≤ lo := by
  unfold first at h
  split_ifs at h <;> simp at h <;> omega

theorem decode_ascii {c : Nat} (rest : GoString) (hc : c < 0x80) :
    DecodeRuneInString (c :: rest) = (c, 1) := by
  simp [DecodeRuneInString, hc]

theorem decode_width_le (s : GoString) : (DecodeRuneInString s).2 ≤ s.length := by
  rcases s with _ | ⟨b, rest⟩
  · simp [DecodeRuneInString]
  · rcases rest with _ | ⟨s1, _ | ⟨s2, _ | ⟨s3, r3⟩⟩⟩ <;>
      cases hf : first b <;>
      simp only [DecodeRuneInString, hf] <;> split_ifs <;> simp

theorem decode_width_pos (b : Nat) (rest : GoString) :
    1 ≤ (DecodeRuneInString (b :: rest)).2 := by
  rcases rest with _ | ⟨s1, _ | ⟨s2, _ | ⟨s3, r3⟩⟩⟩ <;>
    cases hf : first b <;>
    simp only [DecodeRuneInString, hf] <;> split_ifs <;> simp

theorem decode_width_le_four (s : GoString) : (DecodeRuneInString s).2 ≤ 4 := by
  rcases s with _ | ⟨b, rest⟩
  · simp [DecodeRuneInString]
  · rcases rest with _ | ⟨s1, _ | ⟨s2, _ | ⟨s3, r3⟩⟩⟩ <;>
      cases hf : first b <;>
      simp only [DecodeRuneInString, hf] <;> split_ifs <;> simp

theorem decode_single (b : Nat) (hb : ¬ b < 0x80) :
    DecodeRuneInString [b] = (RuneError, 1) := by
  cases hf : first b with
  | none => simp [DecodeRuneInString, hb, hf]
  | some t =>
    obtain ⟨sz, lo, hi⟩ := t
    obtain ⟨-, h2, h4, hlo⟩ := first_spec hf
    simp [DecodeRuneInString, hf, hb]

theorem decode_bad_second (b s1 : Nat) (r1 : GoString) (hb : ¬ b < 0x80) (h1 : s1 < 0x80) :
    DecodeRuneInString (b :: s1 :: r1) = (RuneError, 1) := by
  cases hf : first b with
  | none => simp [DecodeRuneInString, hb, hf]
  | some t =>
    obtain ⟨sz, lo, hi⟩ := t
    obtain ⟨-, h2, h4, hlo⟩ := first_spec hf
    have : s1 < lo := by omega
    simp [DecodeRuneInString, hf, hb, this]

theorem decode_bad_third (b s1 s2 : Nat) (r2 : GoString) (hb : ¬ b < 0x80) (h2 : s2 < 0x80) :
    DecodeRuneInString (b :: s1 :: s2 :: r2) = DecodeRuneInString [b, s1] := by
  cases hf : first b with
  | none => simp [DecodeRuneInString, hb, hf]
  | some t =>
    obtain ⟨sz, lo, hi⟩ := t
    obtain ⟨-, hsz2, hsz4, hlo⟩ := first_spec hf
    simp only [DecodeRuneInString, hf, hb, if_false, List.length_cons, List.length_nil]
    split_ifs <;> first | rfl | omega

theorem decode_bad_fourth (b s1 s2 s3 : Nat) (r3 : GoString) (hb : ¬ b < 0x80)
    (h3 : s3 < 0x80) :
    DecodeRuneInString (b :: s1 :: s2 :: s3 :: r3) = DecodeRuneInString [b, s1, s2] := by
  cases hf : first b with
  | none => simp [DecodeRuneInString, hb, hf]
  | some t =>
    obtain ⟨sz, lo, hi⟩ := t
    obtain ⟨-, hsz2, hsz4, hlo⟩ := first_spec hf
    simp only [DecodeRuneInString, hf, hb, if_false, List.length_cons, List.length_nil]
    split_ifs <;> first | rfl | omega

theorem decode_four (b s1 s2 s3 : Nat) (r3 : GoString) :
    DecodeRuneInString (b :: s1 :: s2 :: s3 :: r3) = DecodeRuneInString [b, s1, s2, s3] := by
  cases hf : first b with
  | none => simp [DecodeRuneInString, hf]
  | some t =>
    obtain ⟨sz, lo, hi⟩ := t
    obtain ⟨-, hsz2, hsz4, hlo⟩ := first_spec hf
    simp only [DecodeRuneInString, hf, List.length_cons, List.length_nil]
    split_ifs <;> first | rfl | omega

/-- Decoding looks past the first byte only as long as the bytes are at least `0x80`. -/
theorem decode_takeWhile (b : Nat) (rest : GoString) :
    DecodeRuneInString (b :: rest)
      = DecodeRuneInString (b :: rest.takeWhile (fun c => decide (0x80 ≤ c))) := by
  by_cases hb : b < 0x80
  · rw [decode_ascii _ hb, decode_ascii _ hb]
  rcases rest with _ | ⟨s1, r1⟩
  · rfl
  by_cases h1 : s1 < 0x80
  · have : ¬ (0x80 ≤ s1) := by omega
    simp only [List.takeWhile_cons, this, decide_False]
    rw [decode_bad_second b s1 r1 hb h1]; exact (decode_single b hb).symm
  have h1' : 0x80 ≤ s1 := by omega
  simp only [List.takeWhile_cons, h1', decide_True, if_true]
  rcases r1 with _ | ⟨s2, r2⟩
  · rfl
  by_cases h2 : s2 < 0x80
  · have : ¬ (0x80 ≤ s2) := by omega
    simp only [List.takeWhile_cons, this, decide_False]
    exact decode_bad_third b s1 s2 r2 hb h2
  have h2' : 0x80 ≤ s2 := by omega
  simp only [List.takeWhile_cons, h2', decide_True, if_true]
  rcases r2 with _ | ⟨s3, r3⟩
  · rfl
  by_cases h3 : s3 < 0x80
  · have : ¬ (0x80 ≤ s3) := by omega
    simp only [List.takeWhile_cons, this, decide_False]
    exact decode_bad_fourth b s1 s2 s3 r3 hb h3
  have h3' : 0x80 ≤ s3 := by omega
  simp only [List.takeWhile_cons, h3', decide_True, if_true]
  rw [decode_four b s1 s2 s3 r3, decode_four b s1 s2 s3 (List.takeWhile _ r3)]


/-! ### Runes and `strings.Map` -/

theorem runesAux_nil (n : Nat) : runesAux n [] = [] := by
  cases n <;> rfl

theorem runesAux_fuel (n : Nat) : ∀ (m : Nat) (l : GoString), l.length ≤ n → l.length ≤ m →
    runesAux n l = runesAux m l := by
  induction n with
  | zero =>
    intro m l hn _
    have : l = [] := List.length_eq_zero.mp (Nat.le_zero.mp hn)
    subst this
    rw [runesAux_nil, runesAux_nil]
  | succ n ih =>
    intro m l hn hm
    rcases l with _ | ⟨b, rest⟩
    · rw [runesAux_nil, runesAux_nil]
    · rcases m with _ | m
      · simp at hm
      · have hpos := decode_width_pos b rest
        have hlen : ((b :: rest).drop (DecodeRuneInString (b :: rest)).2).length ≤ rest.length := by
          simp only [List.length_drop, List.length_cons]; omega
        simp only [List.length_cons, Nat.add_le_add_iff_right] at hn hm
        simp only [runesAux]
        rw [ih m _ (le_trans hlen hn) (le_trans hlen hm)]

theorem runes_nil : runes [] = [] := rfl

theorem runes_cons (b : Nat) (rest : GoString) :
    runes (b :: rest) = (DecodeRuneInString (b :: rest)).1
      :: runes ((b :: rest).drop (DecodeRuneInString (b :: rest)).2) := by
  have hpos := decode_width_pos b rest
  have hlen : ((b :: rest).drop (DecodeRuneInString (b :: rest)).2).length ≤ rest.length := by
    simp only [List.length_drop, List.length_cons]; omega
  simp only [runes, List.length_cons, runesAux]
  rw [runesAux_fuel rest.length _ _ hlen le_rfl]

theorem runes_length_le (n : Nat) : ∀ (l : GoString), l.length ≤ n →
    (runes l).length ≤ l.length := by
  induction n with
  | zero =>
    intro l hn
    have : l = [] := List.length_eq_zero.mp (Nat.le_zero.mp hn)
    subst this; simp [runes_nil]
  | succ n ih =>
    intro l hn
    rcases l with _ | ⟨b, rest⟩
    · simp [runes_nil]
    · have hpos := decode_width_pos b rest
      have hlen : ((b :: rest).drop (DecodeRuneInString (b :: rest)).2).length
          ≤ rest.length := by
        simp only [List.length_drop, List.length_cons]; omega
      simp only [List.length_cons, Nat.add_le_add_iff_right] at hn
      rw [runes_cons]
      have := ih _ (le_trans hlen hn)
      simp only [List.length_cons]
      omega


theorem len_le_four_runes (n : Nat) : ∀ (l : GoString), l.length ≤ n →
    l.length ≤ 4 * (runes l).length := by
  induction n with
  | zero =>
    intro l hn
    have : l = [] := List.length_eq_zero.mp (Nat.le_zero.mp hn)
    subst this; simp [runes_nil]
  | succ n ih =>
    intro l hn
    rcases l with _ | ⟨b, rest⟩
    · simp [runes_nil]
    · have hpos := decode_width_pos b rest
      have hfour := decode_width_le_four (b :: rest)
      have hlen : ((b :: rest).drop (DecodeRuneInString (b :: rest)).2).length
          ≤ rest.length := by
        simp only [List.length_drop, List.length_cons]; omega
      simp only [List.length_cons, Nat.add_le_add_iff_right] at hn
      rw [runes_cons]
      have := ih _ (le_trans hlen hn)
      simp only [List.length_drop, List.length_cons] at this ⊢
      omega

theorem runes_ascii (l : GoString) (h : ∀ c ∈ l, c < 0x80) : runes l = l := by
  induction l with
  | nil => rfl
  | cons b rest ih =>
    have hb : b < 0x80 := h b (List.mem_cons_self _ _)
    rw [runes_cons, decode_ascii rest hb]
    simp only [List.drop_succ_cons, List.drop_zero]
    rw [ih (fun c hc => h c (List.mem_cons_of_mem _ hc))]

theorem Map_nil (f : Nat → Nat) : Map f [] = [] := rfl

theorem Map_cons (f : Nat → Nat) (b : Nat) (rest : GoString) :
    Map f (b :: rest) = encodeRune (f (DecodeRuneInString (b :: rest)).1)
      ++ Map f ((b :: rest).drop (DecodeRuneInString (b :: rest)).2) := by
  simp only [Map, runes_cons, List.flatMap_cons]

theorem Map_ascii_cons (f : Nat → Nat) {b : Nat} (rest : GoString) (hb : b < 0x80) :
    Map f (b :: rest) = encodeRune (f b) ++ Map f rest := by
  rw [Map_cons, decode_ascii rest hb]
  simp

theorem unicodeToLower_ascii (tbl : Nat → Nat) {b : Nat} (hb : b < 0x80) :
    encodeRune (unicodeToLower tbl b) = [lowerByte b] := by
  have h1 : b ≤ 0x7F := by omega
  unfold unicodeToLower lowerByte encodeRune
  simp only [h1, if_true]
  split_ifs <;> first | rfl | omega

/-! ### `strings.ToLower` and ASCII case -/

theorem caseChanged_spec {a b : Nat} (h : caseChanged a b) :
    lowerByte a = lowerByte b ∧ (a < 0x80 ↔ b < 0x80) ∧ (0x80 ≤ a → a = b) := by
  unfold caseChanged at h
  unfold lowerByte
  rcases h with h | ⟨h1, h2, h3⟩ | ⟨h1, h2, h3⟩
  · subst h; exact ⟨rfl, Iff.rfl, fun _ => rfl⟩
  · refine ⟨?_, ?_, ?_⟩
    · split_ifs <;> omega
    · omega
    · omega
  · refine ⟨?_, ?_, ?_⟩
    · split_ifs <;> omega
    · omega
    · omega

theorem CaseVariant_length {d d' : GoString} (h : CaseVariant d d') : d.length = d'.length :=
  List.Forall₂.length_eq h

theorem CaseVariant_all {d d' : GoString} (h : CaseVariant d d') :
    d.all (fun c => decide (c < 0x80)) = d'.all (fun c => decide (c < 0x80)) := by
  induction h with
  | nil => rfl
  | cons hab _ ih =>
    simp only [List.all_cons, ih]
    rw [decide_eq_decide.mpr (caseChanged_spec hab).2.1]

theorem CaseVariant_map {d d' : GoString} (h : CaseVariant d d') :
    d.map lowerByte = d'.map lowerByte := by
  induction h with
  | nil => rfl
  | cons hab _ ih => simp only [List.map_cons, ih, (caseChanged_spec hab).1]

theorem CaseVariant_takeWhile {d d' : GoString} (h : CaseVariant d d') :
    d.takeWhile (fun c => decide (0x80 ≤ c)) = d'.takeWhile (fun c => decide (0x80 ≤ c)) := by
  induction h with
  | nil => rfl
  | @cons a b l l' hab _ ih =>
    obtain ⟨-, h2, h3⟩ := caseChanged_spec hab
    by_cases ha : 0x80 ≤ a
    · have hb : a = b := h3 ha
      subst hb
      simp only [List.takeWhile_cons, ih]
    · have hb : ¬ (0x80 ≤ b) := by omega
      simp only [List.takeWhile_cons, ha, hb, decide_False]
      rfl

theorem CaseVariant_Map (tbl : Nat → Nat) (n : Nat) : ∀ (d d' : GoString), d.length ≤ n →
    CaseVariant d d' → Map (unicodeToLower tbl) d = Map (unicodeToLower tbl) d' := by
  induction n with
  | zero =>
    intro d d' hn h
    have hd : d = [] := List.length_eq_zero.mp (Nat.le_zero.mp hn)
    subst hd
    cases h
    rfl
  | succ n ih =>
    intro d d' hn h
    cases h with
    | nil => rfl
    | @cons a b l l' hab hl =>
      simp only [List.length_cons, Nat.add_le_add_iff_right] at hn
      obtain ⟨h1, h2, h3⟩ := caseChanged_spec hab
      by_cases ha : a < 0x80
      · have hb : b < 0x80 := h2.mp ha
        rw [Map_ascii_cons _ l ha, Map_ascii_cons _ l' hb, unicodeToLower_ascii tbl ha,
          unicodeToLower_ascii tbl hb, h1, ih l l' hn hl]
      · have hb : a = b := h3 (by omega)
        subst hb
        have hdec : DecodeRuneInString (a :: l) = DecodeRuneInString (a :: l') := by
          rw [decode_takeWhile a l, decode_takeWhile a l', CaseVariant_takeWhile hl]
        have hpos := decode_width_pos a l
        have hdrop : CaseVariant ((a :: l).drop (DecodeRuneInString (a :: l)).2)
            ((a :: l').drop (DecodeRuneInString (a :: l)).2) :=
          List.forall₂_drop _ (List.Forall₂.cons hab hl)
        have hlen : ((a :: l).drop (DecodeRuneInString (a :: l)).2).length ≤ n := by
          simp only [List.length_drop, List.length_cons]; omega
        rw [Map_cons, Map_cons, ← hdec, ih _ _ hlen hdrop]

theorem CaseVariant_ToLower (tbl : Nat → Nat) {d d' : GoString} (h : CaseVariant d d') :
    stringsToLower tbl d = stringsToLower tbl d' := by
  unfold stringsToLower
  rw [CaseVariant_all h, CaseVariant_map h, CaseVariant_Map tbl d.length d d' le_rfl h]

/-! ### ASCII substrings survive lowering -/

theorem takeWhile_append_ascii (s : GoString) {a : Nat} (u : GoString) (ha : a < 0x80) :
    (s ++ a :: u).takeWhile (fun c => decide (0x80 ≤ c))
      = s.takeWhile (fun c => decide (0x80 ≤ c)) := by
  induction s with
  | nil =>
    have : ¬ (0x80 ≤ a) := by omega
    simp [List.takeWhile_cons, this]
  | cons b rest ih =>
    simp only [List.cons_append, List.takeWhile_cons, ih]

theorem decode_append_ascii (b : Nat) (s : GoString) {a : Nat} (u : GoString) (ha : a < 0x80) :
    DecodeRuneInString (b :: s ++ a :: u) = DecodeRuneInString (b :: s) := by
  rw [List.cons_append, decode_takeWhile b (s ++ a :: u), takeWhile_append_ascii s u ha,
    ← decode_takeWhile b s]

theorem Map_ascii_append (tbl : Nat → Nat) (sub t : GoString) (h : ∀ c ∈ sub, c < 0x80) :
    Map (unicodeToLower tbl) (sub ++ t) = sub.map lowerByte ++ Map (unicodeToLower tbl) t := by
  induction sub with
  | nil => rfl
  | cons c rest ih =>
    have hc : c < 0x80 := h c (List.mem_cons_self _ _)
    rw [List.cons_append, Map_ascii_cons _ _ hc, unicodeToLower_ascii tbl hc,
      ih (fun x hx => h x (List.mem_cons_of_mem _ hx))]
    rfl

theorem Map_infix (tbl : Nat → Nat) (sub t : GoString) (h : ∀ c ∈ sub, c < 0x80) (n : Nat) :
    ∀ s : GoString, s.length ≤ n →
      sub.map lowerByte <:+: Map (unicodeToLower tbl) (s ++ (sub ++ t)) := by
  induction n with
  | zero =>
    intro s hn
    have hs : s = [] := List.length_eq_zero.mp (Nat.le_zero.mp hn)
    subst hs
    rw [List.nil_append, Map_ascii_append tbl sub t h]
    exact List.infix_append' [] _ _
  | succ n ih =>
    intro s hn
    rcases s with _ | ⟨b, s⟩
    · rw [List.nil_append, Map_ascii_append tbl sub t h]
      exact List.infix_append' [] _ _
    · rcases sub with _ | ⟨a, sub⟩
      · exact List.nil_infix
      · have ha : a < 0x80 := h a (List.mem_cons_self _ _)
        simp only [List.length_cons, Nat.add_le_add_iff_right] at hn
        have hdec : DecodeRuneInString (b :: s ++ (a :: sub ++ t)) = DecodeRuneInString (b :: s) :=
          decode_append_ascii b s (sub ++ t) ha
        have hpos := decode_width_pos b s
        have hle := decode_width_le (b :: s)
        rw [List.cons_append, Map_cons, ← List.cons_append, hdec,
          List.drop_append_of_le_length hle]
        have hlen : ((b :: s).drop (DecodeRuneInString (b :: s)).2).length ≤ n := by
          simp only [List.length_drop, List.length_cons]; omega
        obtain ⟨x, y, hxy⟩ := ih _ hlen
        exact ⟨encodeRune (unicodeToLower tbl (DecodeRuneInString (b :: s)).1) ++ x, y, by
          rw [← hxy]; simp⟩

/-- An ASCII substring of a description occurs, lower-cased, in the lower-cased
description. -/
theorem ToLower_infix (tbl : Nat → Nat) (sub d : GoString) (h : ∀ c ∈ sub, c < 0x80)
    (hsub : sub <:+: d) : sub.map lowerByte <:+: stringsToLower tbl d := by
  unfold stringsToLower
  split_ifs
  · exact List.IsInfix.map lowerByte hsub
  · obtain ⟨s, t, rfl⟩ := hsub
    rw [List.append_assoc]
    exact Map_infix tbl sub t h s.length s le_rfl

/-! ### Keyword scans -/

/-- C1: `calculateConfidence` is 65 exactly when the byte length is below 50, 80 exactly
when it is at least 50 and below 200, and 90 exactly when it is 200 or more; these are the
only values, and `AnalyzeIncident` reports that value as the confidence. -/
theorem C1_confidence_buckets (tbl : Nat → Nat) (d : GoString) :
    (calculateConfidence d = 65 ↔ len d < 50) ∧
    (calculateConfidence d = 80 ↔ 50 ≤ len d ∧ len d < 200) ∧
    (calculateConfidence d = 90 ↔ 200 ≤ len d) ∧
    (calculateConfidence d = 65 ∨ calculateConfidence d = 80 ∨ calculateConfidence d = 90) ∧
    (AnalyzeIncident tbl d).1.Confidence = calculateConfidence d := by
  refine ⟨?_, ?_, ?_, ?_, rfl⟩ <;> unfold calculateConfidence <;> split_ifs <;> omega

set_option maxRecDepth 100000 in
/-- C2 (refuted as stated): a description of 25 two-byte characters has fewer than 50
characters, yet its confidence is 80 and not 65, and a description of 100 two-byte
characters has fewer than 200 characters, yet its confidence is 90 and not at most 80,
because the bucket is selected by the byte lengths 50 and 200. -/
theorem C2_counterexample :
    ¬ (RuneCountInString accentedDescription < 50 →
        calculateConfidence accentedDescription = 65) ∧
    ¬ (RuneCountInString longAccentedDescription < 200 →
        calculateConfidence longAccentedDescription ≤ 80) := by
  decide

set_option maxRecDepth 100000 in
/-- C2 (amended): the bucket is selected by the number of bytes: the confidence is 65
exactly when the description has fewer than 50 bytes and at most 80 exactly when it has
fewer than 200 bytes; a description never has more characters than bytes and never more
than 4 bytes per character, and for a description of ASCII characters only the two counts
agree; a description of fewer than 50 characters has confidence 65 or 80, never 90, and 80
for 25 two-byte characters; a description of fewer than 200 characters can have confidence
90, as 100 two-byte characters do. -/
theorem C2_bytes_select_bucket (d : GoString) :
    (calculateConfidence d = 65 ↔ len d < 50) ∧
    (calculateConfidence d ≤ 80 ↔ len d < 200) ∧
    RuneCountInString d ≤ len d ∧
    ((∀ c ∈ d, c < 0x80) → RuneCountInString d = len d) ∧
    len d ≤ 4 * RuneCountInString d ∧
    (RuneCountInString d < 50 → calculateConfidence d = 65 ∨ calculateConfidence d = 80) ∧
    (RuneCountInString accentedDescription = 25 ∧ len accentedDescription = 50 ∧
      calculateConfidence accentedDescription = 80) ∧
    (RuneCountInString longAccentedDescription = 100 ∧ len longAccentedDescription = 200 ∧
      calculateConfidence longAccentedDescription = 90) := by
  have hfour : len d ≤ 4 * RuneCountInString d := len_le_four_runes d.length d le_rfl
  refine ⟨?_, ?_, ?_, ?_, hfour, ?_, by decide, by decide⟩
  · unfold calculateConfidence; split_ifs <;> omega
  · unfold calculateConfidence; split_ifs <;> omega
  · exact runes_length_le d.length d le_rfl
  · intro h
    unfold RuneCountInString len
    rw [runes_ascii d h]
  · intro h
    unfold calculateConfidence
    split_ifs <;> omega

/-- C2 (amended), at the ASCII description "stolen phone": 12 characters, 12 bytes. -/
theorem C2_bytes_select_bucket_witness :
    RuneCountInString (str "stolen phone") = len (str "stolen phone") :=
  (C2_bytes_select_bucket (str "stolen phone")).2.2.2.1 (by decide)

/-- C3: with `L` the lower-cased description, the crime type is "assault" if `L` contains
"assault" or "attack", otherwise "theft" if `L` contains "theft" or "steal", otherwise
"fraud" if `L` contains "fraud" or "cheat", otherwise "miscellaneous". -/
theorem C3_crime_type_first_match (tbl : Nat → Nat) (d : GoString) :
    determineCrimeType tbl d =
      if str "assault" <:+: stringsToLower tbl d ∨ str "attack" <:+: stringsToLower tbl d then
        str "assault"
      else if str "theft" <:+: stringsToLower tbl d ∨ str "steal" <:+: stringsToLower tbl d then
        str "theft"
      else if str "fraud" <:+: stringsToLower tbl d ∨ str "cheat" <:+: stringsToLower tbl d then
        str "fraud"
      else str "miscellaneous" := by
  unfold determineCrimeType
  simp only [Bool.or_eq_true, stringsContains_iff]

/-- C5 (refuted as stated): the description "woman theft fraud" contains both "woman" and
"theft", yet four statutes are suggested, not three: the fraud rule fires as well. -/
theorem C5_counterexample :
    ¬ (str "woman" <:+: str "woman theft fraud" ∧ str "theft" <:+: str "woman theft fraud" →
        (getSuggestedLaws identityTable (str "woman theft fraud")).length = 3) := by
  decide

/-- C5 (amended): for every description that contains both "woman" and "theft", the
suggested statutes are section 354 (85, high), section 509 (78, medium) and section 379
(90, high), in this order, followed by section 420 (88, high) exactly when the lower-cased
description contains "fraud" or "cheat"; so there are exactly 3 when it contains
neither. -/
theorem C5_woman_and_theft (tbl : Nat → Nat) (d : GoString)
    (hw : str "woman" <:+: d) (ht : str "theft" <:+: d) :
    getSuggestedLaws tbl d =
      [law354, law509, law379] ++
        (if str "fraud" <:+: stringsToLower tbl d ∨ str "cheat" <:+: stringsToLower tbl d then
          [law420] else []) ∧
    [law354, law509, law379, law420].map (fun l => (l.Section, l.Confidence, l.Relevance)) =
      [(str "354", 85, str "high"), (str "509", 78, str "medium"), (str "379", 90, str "high"),
       (str "420", 88, str "high")] ∧
    (¬ (str "fraud" <:+: stringsToLower tbl d ∨ str "cheat" <:+: stringsToLower tbl d) →
      (getSuggestedLaws tbl d).length = 3) := by
  have hw' : str "woman" <:+: stringsToLower tbl d :=
    ToLower_infix tbl (str "woman") d (by decide) hw
  have ht' : str "theft" <:+: stringsToLower tbl d :=
    ToLower_infix tbl (str "theft") d (by decide) ht
  have hlaws : getSuggestedLaws tbl d =
      [law354, law509, law379] ++
        (if str "fraud" <:+: stringsToLower tbl d ∨ str "cheat" <:+: stringsToLower tbl d then
          [law420] else []) := by
    unfold getSuggestedLaws
    simp only [Bool.or_eq_true, stringsContains_iff, hw', ht', true_or, if_true]
    split_ifs <;> rfl
  refine ⟨hlaws, by decide, ?_⟩
  intro hf
  rw [hlaws, if_neg hf]
  rfl

/-- C5 (amended), at the description "a woman reported the theft of her bag". -/
theorem C5_woman_and_theft_witness :
    (getSuggestedLaws identityTable (str "a woman reported the theft of her bag")).length = 3 :=
  (C5_woman_and_theft identityTable (str "a woman reported the theft of her bag")
    (by decide) (by decide)).2.2 (by decide)

/-- C6: with `L` the lower-cased description, the suggested statutes are the concatenation
of [354 (85, high), 509 (78, medium)] if `L` contains "woman" or "modesty", [379 (90, high)]
if `L` contains "theft" or "steal", and [420 (88, high)] if `L` contains "fraud" or "cheat";
the list has `2*w + t + f` entries, at most 4, its sections are pairwise distinct, and it
is empty exactly when no rule matches. -/
theorem C6_all_rules_fire (tbl : Nat → Nat) (d : GoString) :
    getSuggestedLaws tbl d =
      (if str "woman" <:+: stringsToLower tbl d ∨ str "modesty" <:+: stringsToLower tbl d then
        [law354, law509] else []) ++
      (if str "theft" <:+: stringsToLower tbl d ∨ str "steal" <:+: stringsToLower tbl d then
        [law379] else []) ++
      (if str "fraud" <:+: stringsToLower tbl d ∨ str "cheat" <:+: stringsToLower tbl d then
        [law420] else []) ∧
    [law354, law509, law379, law420].map (fun l => (l.Section, l.Confidence, l.Relevance)) =
      [(str "354", 85, str "high"), (str "509", 78, str "medium"), (str "379", 90, str "high"),
       (str "420", 88, str "high")] ∧
    (getSuggestedLaws tbl d).length =
      2 * (if str "woman" <:+: stringsToLower tbl d ∨ str "modesty" <:+: stringsToLower tbl d
            then 1 else 0) +
      (if str "theft" <:+: stringsToLower tbl d ∨ str "steal" <:+: stringsToLower tbl d
        then 1 else 0) +
      (if str "fraud" <:+: stringsToLower tbl d ∨ str "cheat" <:+: stringsToLower tbl d
        then 1 else 0) ∧
    (getSuggestedLaws tbl d).length ≤ 4 ∧
    ((getSuggestedLaws tbl d).map (fun l => l.Section)).Nodup ∧
    (getSuggestedLaws tbl d = [] ↔
      ¬ (str "woman" <:+: stringsToLower tbl d ∨ str "modesty" <:+: stringsToLower tbl d) ∧
      ¬ (str "theft" <:+: stringsToLower tbl d ∨ str "steal" <:+: stringsToLower tbl d) ∧
      ¬ (str "fraud" <:+: stringsToLower tbl d ∨ str "cheat" <:+: stringsToLower tbl d)) := by
  have hlaws : getSuggestedLaws tbl d =
      (if str "woman" <:+: stringsToLower tbl d ∨ str "modesty" <:+: stringsToLower tbl d then
        [law354, law509] else []) ++
      (if str "theft" <:+: stringsToLower tbl d ∨ str "steal" <:+: stringsToLower tbl d then
        [law379] else []) ++
      (if str "fraud" <:+: stringsToLower tbl d ∨ str "cheat" <:+: stringsToLower tbl d then
        [law420] else []) := by
    unfold getSuggestedLaws
    simp only [Bool.or_eq_true, stringsContains_iff]
    split_ifs <;> rfl
  refine ⟨hlaws, by decide, ?_, ?_, ?_, ?_⟩
  · rw [hlaws]; split_ifs <;> rfl
  · rw [hlaws]; split_ifs <;> decide
  · rw [hlaws]; split_ifs <;> decide
  · rw [hlaws]; split_ifs <;> simp [*]

/-- C7: with `L` the lower-cased description, the entities are "person", "location",
"incident", followed by "female victim" exactly when `L` contains "woman" or "girl",
followed by "electronic device" exactly when `L` contains "phone" or "mobile"; the list has
between 3 and 5 entries and no duplicates. -/
theorem C7_entities (tbl : Nat → Nat) (d : GoString) :
    extractEntities tbl d =
      [str "person", str "location", str "incident"] ++
      (if str "woman" <:+: stringsToLower tbl d ∨ str "girl" <:+: stringsToLower tbl d then
        [str "female victim"] else []) ++
      (if str "phone" <:+: stringsToLower tbl d ∨ str "mobile" <:+: stringsToLower tbl d then
        [str "electronic device"] else []) ∧
    (str "female victim" ∈ extractEntities tbl d ↔
      (str "woman" <:+: stringsToLower tbl d ∨ str "girl" <:+: stringsToLower tbl d)) ∧
    (str "electronic device" ∈ extractEntities tbl d ↔
      (str "phone" <:+: stringsToLower tbl d ∨ str "mobile" <:+: stringsToLower tbl d)) ∧
    3 ≤ (extractEntities tbl d).length ∧ (extractEntities tbl d).length ≤ 5 ∧
    (extractEntities tbl d).Nodup := by
  have hent : extractEntities tbl d =
      [str "person", str "location", str "incident"] ++
      (if str "woman" <:+: stringsToLower tbl d ∨ str "girl" <:+: stringsToLower tbl d then
        [str "female victim"] else []) ++
      (if str "phone" <:+: stringsToLower tbl d ∨ str "mobile" <:+: stringsToLower tbl d then
        [str "electronic device"] else []) := by
    unfold extractEntities
    simp only [Bool.or_eq_true, stringsContains_iff]
    split_ifs <;> rfl
  refine ⟨hent, ?_, ?_, ?_, ?_, ?_⟩
  · rw [hent]; split_ifs with h1 h2 h2 <;> simp only [h1, iff_true, iff_false] <;> decide
  · rw [hent]; split_ifs with h1 h2 h2 <;> simp only [h2, iff_true, iff_false] <;> decide
  · rw [hent]; split_ifs <;> decide
  · rw [hent]; split_ifs <;> decide
  · rw [hent]; split_ifs <;> decide

/-- C8: classification is case-insensitive: when `d'` is obtained from `d` by changing the
case of ASCII letters, `AnalyzeIncident` returns the same result for both (confidence,
entities, crime type and suggested statutes included) and `determinePriority` the same
priority. -/
theorem C8_case_insensitive (tbl : Nat → Nat) (d d' : GoString) (h : CaseVariant d d') :
    AnalyzeIncident tbl d = AnalyzeIncident tbl d' ∧
    (AnalyzeIncident tbl d).1.Confidence = (AnalyzeIncident tbl d').1.Confidence ∧
    (AnalyzeIncident tbl d).1.KeyEntities = (AnalyzeIncident tbl d').1.KeyEntities ∧
    (AnalyzeIncident tbl d).1.CrimeType = (AnalyzeIncident tbl d').1.CrimeType ∧
    (AnalyzeIncident tbl d).2 = (AnalyzeIncident tbl d').2 ∧
    determinePriority tbl d = determinePriority tbl d' := by
  have hlow := CaseVariant_ToLower tbl h
  have hlen : len d = len d' := CaseVariant_length h
  have hA : AnalyzeIncident tbl d = AnalyzeIncident tbl d' := by
    simp only [AnalyzeIncident, calculateConfidence, extractEntities, determineCrimeType,
      getSuggestedLaws, hlow, hlen]
  refine ⟨hA, by rw [hA], by rw [hA], by rw [hA], by rw [hA], ?_⟩
  simp only [determinePriority, ToLower, hlow]

/-- C8, at the descriptions "Woman THEFT" and "wOMAN theft". -/
theorem C8_case_insensitive_witness :
    CaseVariant (str "Woman THEFT") (str "wOMAN theft") ∧
    determinePriority identityTable (str "Woman THEFT")
      = determinePriority identityTable (str "wOMAN theft") :=
  ⟨by decide, (C8_case_insensitive identityTable (str "Woman THEFT") (str "wOMAN theft")
    (by decide)).2.2.2.2.2⟩

/-! ### Federated search -/

theorem count_of_no_docs {Doc : Type} (c : Collection Doc) (call : StoreCall) (filter : Filter)
    (h : c.docs = []) : (c.CountDocuments call filter).1 = 0 := by
  unfold Collection.CountDocuments
  cases c.fault call <;> simp [h]

theorem count_of_fault {Doc : Type} (c : Collection Doc) (call : StoreCall) (filter : Filter)
    (h : c.fault call ≠ none) : (c.CountDocuments call filter).1 = 0 := by
  unfold Collection.CountDocuments
  cases hf : c.fault call with
  | none => exact absurd hf h
  | some err => rfl

theorem count_fault_snd {Doc : Type} (c : Collection Doc) (call : StoreCall) (filter : Filter)
    (h : c.fault call ≠ none) : ∃ err, c.CountDocuments call filter = (0, some err) := by
  unfold Collection.CountDocuments
  cases hf : c.fault call with
  | none => exact absurd hf h
  | some err => exact ⟨err, rfl⟩

theorem count_cases {Doc : Type} (c : Collection Doc) (call : StoreCall) (filter : Filter) :
    (∃ err, c.CountDocuments call filter = (0, some err)) ∨
    (∃ total, c.CountDocuments call filter = (total, none)) := by
  unfold Collection.CountDocuments
  cases c.fault call with
  | none => exact Or.inr ⟨_, rfl⟩
  | some err => exact Or.inl ⟨err, rfl⟩

theorem find_fault {Doc : Type} (c : Collection Doc) (filter : Filter) (opts : FindOptions)
    (h : c.fault StoreCall.find ≠ none) : ∃ err, c.Find filter opts = Except.error err := by
  unfold Collection.Find
  cases hf : c.fault StoreCall.find with
  | none => exact absurd hf h
  | some err => exact ⟨err, rfl⟩

theorem searchSections_seed (db : Database) (rt : Runtime) (filter : Filter) (page limit : Int)
    (h : (db.legal_sections.CountDocuments StoreCall.emptinessCount Filter.empty).1 = 0) :
    searchSections db rt filter page limit = (getMockSections rt, 3, none) := by
  simp [searchSections, h]

theorem searchSections_fail (db : Database) (rt : Runtime) (filter : Filter) (page limit : Int)
    (h0 : (db.legal_sections.CountDocuments StoreCall.emptinessCount Filter.empty).1 ≠ 0)
    (hf : db.legal_sections.fault StoreCall.filteredCount ≠ none ∨
      db.legal_sections.fault StoreCall.find ≠ none) :
    (searchSections db rt filter page limit).1 = [] ∧
    (searchSections db rt filter page limit).2.1 = 0 := by
  unfold searchSections
  simp only [h0, if_false]
  rcases count_cases db.legal_sections StoreCall.filteredCount filter with ⟨e, he⟩ | ⟨t, ht⟩
  · rw [he]; exact ⟨rfl, rfl⟩
  · rw [ht]
    rcases hf with hf | hf
    · obtain ⟨e, he⟩ := count_fault_snd db.legal_sections StoreCall.filteredCount filter hf
      rw [he] at ht; cases ht
    · obtain ⟨e, he⟩ := find_fault db.legal_sections filter
        (findOptions page limit (str "section", 1)) hf
      simp [he]

theorem searchCaseLaws_seed (db : Database) (rt : Runtime) (filter : Filter) (page limit : Int)
    (h : (db.case_laws.CountDocuments StoreCall.emptinessCount Filter.empty).1 = 0) :
    searchCaseLaws db rt filter page limit = (getMockCaseLaws rt, 2, none) := by
  simp [searchCaseLaws, h]

theorem searchCaseLaws_fail (db : Database) (rt : Runtime) (filter : Filter) (page limit : Int)
    (h0 : (db.case_laws.CountDocuments StoreCall.emptinessCount Filter.empty).1 ≠ 0)
    (hf : db.case_laws.fault StoreCall.filteredCount ≠ none ∨
      db.case_laws.fault StoreCall.find ≠ none) :
    (searchCaseLaws db rt filter page limit).1 = [] ∧
    (searchCaseLaws db rt filter page limit).2.1 = 0 := by
  unfold searchCaseLaws
  simp only [h0, if_false]
  rcases count_cases db.case_laws StoreCall.filteredCount filter with ⟨e, he⟩ | ⟨t, ht⟩
  · rw [he]; exact ⟨rfl, rfl⟩
  · rw [ht]
    rcases hf with hf | hf
    · obtain ⟨e, he⟩ := count_fault_snd db.case_laws StoreCall.filteredCount filter hf
      rw [he] at ht; cases ht
    · obtain ⟨e, he⟩ := find_fault db.case_laws filter
        (findOptions page limit (str "year", -1)) hf
      simp [he]

theorem judgmentFilter_searchFilter (query category : GoString) :
    ∃ f, judgmentFilter (searchFilter query category) = some f := by
  unfold searchFilter judgmentFilter
  by_cases hq : query = str "" <;>
    by_cases hc : category ≠ str "" ∧ category ≠ str "all" <;>
    simp [hq, hc, Filter.empty, titleRegex]

theorem searchJudgments_seed (db : Database) (rt : Runtime) (filter : Filter) (page limit : Int)
    (h : (db.landmark_judgments.CountDocuments StoreCall.emptinessCount Filter.empty).1 = 0) :
    searchJudgments db rt filter page limit = some (getMockJudgments rt, 2, none) := by
  simp [searchJudgments, h]

theorem searchJudgments_total (db : Database) (rt : Runtime) (query category : GoString)
    (page limit : Int) :
    ∃ j, searchJudgments db rt (searchFilter query category) page limit = some j := by
  obtain ⟨f, hf⟩ := judgmentFilter_searchFilter query category
  unfold searchJudgments
  simp only [hf]
  split_ifs
  · exact ⟨_, rfl⟩
  · rcases count_cases db.landmark_judgments StoreCall.filteredCount f with ⟨e, he⟩ | ⟨t, ht⟩
    · rw [he]; exact ⟨_, rfl⟩
    · rw [ht]
      cases hfind : db.landmark_judgments.Find f (findOptions page limit (str "year", -1)) with
      | error err => exact ⟨_, rfl⟩
      | ok cursor => exact ⟨_, rfl⟩

theorem searchJudgments_fail (db : Database) (rt : Runtime) (filter : Filter) (page limit : Int)
    (j : List LandmarkJudgment × Int × Option Error)
    (hj : searchJudgments db rt filter page limit = some j)
    (h0 : (db.landmark_judgments.CountDocuments StoreCall.emptinessCount Filter.empty).1 ≠ 0)
    (hf : db.landmark_judgments.fault StoreCall.filteredCount ≠ none ∨
      db.landmark_judgments.fault StoreCall.find ≠ none) :
    j.1 = [] ∧ j.2.1 = 0 := by
  unfold searchJudgments at hj
  simp only [h0, if_false] at hj
  cases hjf : judgmentFilter filter with
  | none => rw [hjf] at hj; cases hj
  | some f =>
    rw [hjf] at hj
    simp only at hj
    rcases count_cases db.landmark_judgments StoreCall.filteredCount f with ⟨e, he⟩ | ⟨t, ht⟩
    · rw [he] at hj; cases hj; exact ⟨rfl, rfl⟩
    · rw [ht] at hj
      rcases hf with hf | hf
      · obtain ⟨e, he⟩ := count_fault_snd db.landmark_judgments StoreCall.filteredCount f hf
        rw [he] at ht; cases ht
      · obtain ⟨e, he⟩ := find_fault db.landmark_judgments f
          (findOptions page limit (str "year", -1)) hf
        simp only [he] at hj
        cases hj; exact ⟨rfl, rfl⟩

theorem SearchLaws_eq (db : Database) (rts rtc rtj : Runtime) (query category : GoString)
    (page limit : Int) (j : List LandmarkJudgment × Int × Option Error)
    (hj : searchJudgments db rtj (searchFilter query category) page limit = some j) :
    SearchLaws db rts rtc rtj query category page limit =
      some ({ sections :=
                { data := (searchSections db rts (searchFilter query category) page limit).1
                  total := (searchSections db rts (searchFilter query category) page limit).2.1 }
              case_laws :=
                { data := (searchCaseLaws db rtc (searchFilter query category) page limit).1
                  total := (searchCaseLaws db rtc (searchFilter query category) page limit).2.1 }
              judgments := { data := j.1, total := j.2.1 } }, none) := by
  unfold SearchLaws
  simp only [hj]

theorem searchSections_congr (db db' : Database) (rt : Runtime) (filter : Filter)
    (page limit : Int) (h : db'.legal_sections = db.legal_sections) :
    searchSections db' rt filter page limit = searchSections db rt filter page limit := by
  unfold searchSections; rw [h]

theorem searchCaseLaws_congr (db db' : Database) (rt : Runtime) (filter : Filter)
    (page limit : Int) (h : db'.case_laws = db.case_laws) :
    searchCaseLaws db' rt filter page limit = searchCaseLaws db rt filter page limit := by
  unfold searchCaseLaws; rw [h]

theorem searchJudgments_congr (db db' : Database) (rt : Runtime) (filter : Filter)
    (page limit : Int) (h : db'.landmark_judgments = db.landmark_judgments) :
    searchJudgments db' rt filter page limit = searchJudgments db rt filter page limit := by
  unfold searchJudgments; rw [h]

/-- C9: when the three collections hold no document, `SearchLaws` returns the three seed
datasets in full, whatever the query, category, page and limit are (and whether or not the
emptiness counts succeed): 3 statutes, sections 354, 420 and 498A, with total 3, 2 case
laws with total 2 and 2 judgments with total 2, and no error. -/
theorem C9_seed_fallback (db : Database) (rts rtc rtj : Runtime) (query category : GoString)
    (page limit : Int) (hs : db.legal_sections.docs = []) (hc : db.case_laws.docs = [])
    (hj : db.landmark_judgments.docs = []) :
    SearchLaws db rts rtc rtj query category page limit =
      some ({ sections := { data := getMockSections rts, total := 3 }
              case_laws := { data := getMockCaseLaws rtc, total := 2 }
              judgments := { data := getMockJudgments rtj, total := 2 } }, none) ∧
    (getMockSections rts).map (fun s => s.Section) = [str "354", str "420", str "498A"] ∧
    (getMockSections rts).length = 3 ∧ (getMockCaseLaws rtc).length = 2 ∧
    (getMockJudgments rtj).length = 2 := by
  refine ⟨?_, rfl, rfl, rfl, rfl⟩
  rw [SearchLaws_eq db rts rtc rtj query category page limit _
      (searchJudgments_seed db rtj _ page limit (count_of_no_docs _ _ _ hj)),
    searchSections_seed db rts _ page limit (count_of_no_docs _ _ _ hs),
    searchCaseLaws_seed db rtc _ page limit (count_of_no_docs _ _ _ hc)]

/-- C9, at the empty database with query "xyz", page 1 and limit 1: the statute page holds
all 3 seed statutes although the limit is 1. -/
theorem C9_seed_fallback_witness :
    SearchLaws emptyDatabase zeroRuntime zeroRuntime zeroRuntime (str "xyz") (str "") 1 1 =
      some ({ sections := { data := getMockSections zeroRuntime, total := 3 }
              case_laws := { data := getMockCaseLaws zeroRuntime, total := 2 }
              judgments := { data := getMockJudgments zeroRuntime, total := 2 } }, none) :=
  (C9_seed_fallback emptyDatabase zeroRuntime zeroRuntime zeroRuntime (str "xyz") (str "") 1 1
    rfl rfl rfl).1

/-- The paths of `SearchLaws` on which a failing driver call gives an empty page: the
response always comes with a nil error; a corpus whose filtered count or find fails has
empty data and total 0; and the page of a corpus depends on the collection of that corpus
only. -/
theorem SearchLaws_failures (db : Database) (rts rtc rtj : Runtime) (query category : GoString)
    (page limit : Int) :
    ∃ r : SearchResult, SearchLaws db rts rtc rtj query category page limit = some (r, none) ∧
      (((db.legal_sections.CountDocuments StoreCall.emptinessCount Filter.empty).1 ≠ 0 ∧
          (db.legal_sections.fault StoreCall.filteredCount ≠ none ∨
            db.legal_sections.fault StoreCall.find ≠ none)) →
        r.sections.data = [] ∧ r.sections.total = 0) ∧
      (((db.case_laws.CountDocuments StoreCall.emptinessCount Filter.empty).1 ≠ 0 ∧
          (db.case_laws.fault StoreCall.filteredCount ≠ none ∨
            db.case_laws.fault StoreCall.find ≠ none)) →
        r.case_laws.data = [] ∧ r.case_laws.total = 0) ∧
      (((db.landmark_judgments.CountDocuments StoreCall.emptinessCount Filter.empty).1 ≠ 0 ∧
          (db.landmark_judgments.fault StoreCall.filteredCount ≠ none ∨
            db.landmark_judgments.fault StoreCall.find ≠ none)) →
        r.judgments.data = [] ∧ r.judgments.total = 0) ∧
      (∀ db' : Database, db'.legal_sections = db.legal_sections →
        ∃ r' : SearchResult,
          SearchLaws db' rts rtc rtj query category page limit = some (r', none) ∧
          r'.sections.data = r.sections.data ∧ r'.sections.total = r.sections.total) ∧
      (∀ db' : Database, db'.case_laws = db.case_laws →
        ∃ r' : SearchResult,
          SearchLaws db' rts rtc rtj query category page limit = some (r', none) ∧
          r'.case_laws.data = r.case_laws.data ∧ r'.case_laws.total = r.case_laws.total) ∧
      (∀ db' : Database, db'.landmark_judgments = db.landmark_judgments →
        ∃ r' : SearchResult,
          SearchLaws db' rts rtc rtj query category page limit = some (r', none) ∧
          r'.judgments.data = r.judgments.data ∧ r'.judgments.total = r.judgments.total) := by
  obtain ⟨j, hj⟩ := searchJudgments_total db rtj query category page limit
  refine ⟨_, SearchLaws_eq db rts rtc rtj query category page limit j hj, ?_, ?_, ?_, ?_, ?_,
    ?_⟩
  · rintro ⟨h0, hf⟩
    exact searchSections_fail db rts _ page limit h0 hf
  · rintro ⟨h0, hf⟩
    exact searchCaseLaws_fail db rtc _ page limit h0 hf
  · rintro ⟨h0, hf⟩
    exact searchJudgments_fail db rtj _ page limit j hj h0 hf
  · intro db' h
    obtain ⟨j', hj'⟩ := searchJudgments_total db' rtj query category page limit
    refine ⟨_, SearchLaws_eq db' rts rtc rtj query category page limit j' hj', ?_, ?_⟩ <;>
      simp only [searchSections_congr db db' rts _ page limit h]
  · intro db' h
    obtain ⟨j', hj'⟩ := searchJudgments_total db' rtj query category page limit
    refine ⟨_, SearchLaws_eq db' rts rtc rtj query category page limit j' hj', ?_, ?_⟩ <;>
      simp only [searchCaseLaws_congr db db' rtc _ page limit h]
  · intro db' h
    obtain ⟨j', hj'⟩ := searchJudgments_total db' rtj query category page limit
    rw [searchJudgments_congr db db' rtj _ page limit h, hj] at hj'
    cases hj'
    exact ⟨_, SearchLaws_eq db' rts rtc rtj query category page limit j
      (by rw [searchJudgments_congr db db' rtj _ page limit h, hj]), rfl, rfl⟩

/-- C10 (code defect): the statute collection holds three documents and its emptiness count
fails with a timeout.  `searchSections` discards the error of that count, reads the count
as 0 and returns the seed statutes, so the statute page of `SearchLaws` carries the sections
354, 420 and 498A with total 3, where the claim, the comment "Get mock data if collection is empty" and the
sibling calls, which return `nil, 0, err`, give an empty page with total 0.  When it is the
cursor decoding that fails, the page has no data but keeps the filtered total 3. -/
theorem C10_emptiness_count_failure :
    (faultyDatabase StoreCall.emptinessCount).legal_sections.docs.length = 3 ∧
    (faultyDatabase StoreCall.emptinessCount).legal_sections.fault StoreCall.emptinessCount =
      some "context deadline exceeded" ∧
    (SearchLaws (faultyDatabase StoreCall.emptinessCount) zeroRuntime zeroRuntime zeroRuntime
      (str "xyz") (str "") 1 10).map
        (fun r => (r.1.sections.data.map (fun d => d.Section), r.1.sections.total, r.2)) =
      some ([str "354", str "420", str "498A"], 3, none) ∧
    (SearchLaws (faultyDatabase StoreCall.cursorAll) zeroRuntime zeroRuntime zeroRuntime
      (str "xyz") (str "") 1 10).map
        (fun r => (r.1.sections.data, r.1.sections.total, r.2)) = some ([], 3, none) := by
  decide


/-! ### Filters of the federated search -/

theorem mem_window {Doc : Type} (skip limit : Int) (l : List Doc) (r : Doc)
    (h : r ∈ window skip limit l) : r ∈ l := by
  unfold window at h
  simp only at h
  split_ifs at h
  · exact List.mem_of_mem_drop h
  · exact List.mem_of_mem_drop (List.mem_of_mem_take h)

theorem searchFilter_category (query category : GoString) :
    (searchFilter query category).category =
      if category ≠ str "" ∧ category ≠ str "all" then some category else none := by
  unfold searchFilter
  by_cases hq : query = str "" <;>
    by_cases hc : category ≠ str "" ∧ category ≠ str "all" <;>
    simp [hq, hc, Filter.empty]

theorem searchFilter_orClauses (query category : GoString) :
    (searchFilter query category).orClauses =
      if query ≠ str "" then
        some [{ field := str "title", cond := FieldCond.regex query (str "i") },
              { field := str "description", cond := FieldCond.regex query (str "i") },
              { field := str "keywords", cond := FieldCond.isIn [query] }]
      else none := by
  unfold searchFilter
  by_cases hq : query = str "" <;>
    by_cases hc : category ≠ str "" ∧ category ≠ str "all" <;>
    simp [hq, hc, Filter.empty]

theorem judgmentFilter_of_search (query category : GoString) :
    judgmentFilter (searchFilter query category) =
      some { orClauses :=
               if query ≠ str "" then
                 some [{ field := str "case", cond := FieldCond.regex query (str "i") },
                       { field := str "significance", cond := FieldCond.regex query (str "i") }]
               else none
             category := none } := by
  unfold judgmentFilter
  rw [searchFilter_orClauses]
  by_cases hq : query = str ""
  · simp [hq, Filter.empty]
  · simp [hq, titleRegex]

theorem searchJudgments_category (db : Database) (rt : Runtime) (query category : GoString)
    (page limit : Int) :
    searchJudgments db rt (searchFilter query category) page limit =
      searchJudgments db rt (searchFilter query (str "")) page limit := by
  unfold searchJudgments
  rw [judgmentFilter_of_search, judgmentFilter_of_search]

theorem searchSections_page (db : Database) (rt : Runtime) (filter : Filter) (page limit : Int)
    (h : db.legal_sections.answers) (hskip : 0 ≤ wrapInt (wrapInt (page - 1) * limit)) :
    searchSections db rt filter page limit =
      (window (wrapInt (wrapInt (page - 1) * limit)) limit
        (db.legal_sections.order (str "section", 1)
          (db.legal_sections.docs.filter (db.legal_sections.selects filter))),
       ((db.legal_sections.docs.filter (db.legal_sections.selects filter)).length : Int),
       none) := by
  obtain ⟨h0, hc, hf, ha⟩ := h
  unfold searchSections
  simp only [h0, if_false]
  simp only [Collection.CountDocuments, hc, Collection.Find, hf, findOptions,
    not_lt.mpr hskip, if_false, Collection.CursorAll, ha]

theorem searchCaseLaws_page (db : Database) (rt : Runtime) (filter : Filter) (page limit : Int)
    (h : db.case_laws.answers) (hskip : 0 ≤ wrapInt (wrapInt (page - 1) * limit)) :
    searchCaseLaws db rt filter page limit =
      (window (wrapInt (wrapInt (page - 1) * limit)) limit
        (db.case_laws.order (str "year", -1)
          (db.case_laws.docs.filter (db.case_laws.selects filter))),
       ((db.case_laws.docs.filter (db.case_laws.selects filter)).length : Int), none) := by
  obtain ⟨h0, hc, hf, ha⟩ := h
  unfold searchCaseLaws
  simp only [h0, if_false]
  simp only [Collection.CountDocuments, hc, Collection.Find, hf, findOptions,
    not_lt.mpr hskip, if_false, Collection.CursorAll, ha]

theorem searchJudgments_page (db : Database) (rt : Runtime) (filter jf : Filter)
    (page limit : Int) (hjf : judgmentFilter filter = some jf)
    (h : db.landmark_judgments.answers) (hskip : 0 ≤ wrapInt (wrapInt (page - 1) * limit)) :
    searchJudgments db rt filter page limit =
      some (window (wrapInt (wrapInt (page - 1) * limit)) limit
        (db.landmark_judgments.order (str "year", -1)
          (db.landmark_judgments.docs.filter (db.landmark_judgments.selects jf))),
       ((db.landmark_judgments.docs.filter (db.landmark_judgments.selects jf)).length : Int),
       none) := by
  obtain ⟨h0, hc, hf, ha⟩ := h
  unfold searchJudgments
  simp only [h0, if_false, hjf]
  simp only [Collection.CountDocuments, hc, Collection.Find, hf, findOptions,
    not_lt.mpr hskip, if_false, Collection.CursorAll, ha]

/-- C11 (refuted as stated): for the query "bail" and the category "criminal_law" the filter
applied to the judgments has no category restriction; and on a stored database whose server
evaluates the category key, the search filter for the category "criminal_law" selects none
of the judgments, yet the judgment page of `SearchLaws` for that category carries both
stored judgments. -/
theorem C11_counterexample :
    (judgmentFilter (searchFilter (str "bail") (str "criminal_law"))).map
      (fun f => f.category) = some none ∧
    (storedDatabase.landmark_judgments.docs.filter
      (storedDatabase.landmark_judgments.selects
        (searchFilter (str "") (str "criminal_law")))).length = 0 ∧
    (SearchLaws storedDatabase zeroRuntime zeroRuntime zeroRuntime (str "")
      (str "criminal_law") 1 10).map
        (fun r => (r.1.judgments.data.length, r.1.judgments.total)) = some (2, 2) := by
  decide

/-- C11 (amended): the filter applied to the statutes and to the case laws restricts to the
category exactly when the category is neither empty nor "all"; for a non-empty query the
statute filter asks for a case-insensitive match of the query in `title` or `description` or
for the query among the `keywords`.  The filter applied to the judgments never restricts to
the category (the judgment page is the same for every category); for a non-empty query it
asks for a case-insensitive match of the query in `case` or `significance`, and it is empty
for an empty query.  For an empty query and a category that is empty or "all" the filter of
every corpus is empty.  These filters are the ones applied: on the path of a non-empty
store, when the driver calls succeed and the skip is not negative, the page of `SearchLaws`
for a corpus is the window of the server's ordering of the documents the server selects
under the filter of that corpus, the search filter for statutes and case laws and the
judgment filter for judgments, and the total is the number of documents so selected; every
document of the page is a stored document the server selects under that filter, so on a
server that honours the `category` key every statute and case law of the page has the
category. -/
theorem C11_filters (db : Database) (rts rtc rtj : Runtime) (query category : GoString)
    (page limit : Int) :
    (category ≠ str "" ∧ category ≠ str "all" →
      (searchFilter query category).category = some category) ∧
    (category = str "" ∨ category = str "all" →
      (searchFilter query category).category = none) ∧
    (query ≠ str "" →
      (searchFilter query category).orClauses =
        some [{ field := str "title", cond := FieldCond.regex query (str "i") },
              { field := str "description", cond := FieldCond.regex query (str "i") },
              { field := str "keywords", cond := FieldCond.isIn [query] }] ∧
      judgmentFilter (searchFilter query category) =
        some { orClauses := some
                 [{ field := str "case", cond := FieldCond.regex query (str "i") },
                  { field := str "significance", cond := FieldCond.regex query (str "i") }]
               category := none }) ∧
    (query = str "" →
      (searchFilter query category).orClauses = none ∧
      judgmentFilter (searchFilter query category) = some Filter.empty) ∧
    searchJudgments db rtj (searchFilter query category) page limit =
      searchJudgments db rtj (searchFilter query (str "")) page limit ∧
    (query = str "" → (category = str "" ∨ category = str "all") →
      searchFilter query category = Filter.empty) ∧
    (db.legal_sections.answers → 0 ≤ wrapInt (wrapInt (page - 1) * limit) →
      (SearchLaws db rts rtc rtj query category page limit).map
          (fun r => (r.1.sections.data, r.1.sections.total)) =
        some (window (wrapInt (wrapInt (page - 1) * limit)) limit
          (db.legal_sections.order (str "section", 1)
            (db.legal_sections.docs.filter
              (db.legal_sections.selects (searchFilter query category)))),
          ((db.legal_sections.docs.filter
            (db.legal_sections.selects (searchFilter query category))).length : Int))) ∧
    (db.case_laws.answers → 0 ≤ wrapInt (wrapInt (page - 1) * limit) →
      (SearchLaws db rts rtc rtj query category page limit).map
          (fun r => (r.1.case_laws.data, r.1.case_laws.total)) =
        some (window (wrapInt (wrapInt (page - 1) * limit)) limit
          (db.case_laws.order (str "year", -1)
            (db.case_laws.docs.filter (db.case_laws.selects (searchFilter query category)))),
          ((db.case_laws.docs.filter
            (db.case_laws.selects (searchFilter query category))).length : Int))) ∧
    (db.landmark_judgments.answers → 0 ≤ wrapInt (wrapInt (page - 1) * limit) →
      ∀ jf : Filter, judgmentFilter (searchFilter query category) = some jf →
      (SearchLaws db rts rtc rtj query category page limit).map
          (fun r => (r.1.judgments.data, r.1.judgments.total)) =
        some (window (wrapInt (wrapInt (page - 1) * limit)) limit
          (db.landmark_judgments.order (str "year", -1)
            (db.landmark_judgments.docs.filter (db.landmark_judgments.selects jf))),
          ((db.landmark_judgments.docs.filter
            (db.landmark_judgments.selects jf)).length : Int))) ∧
    (SearchLaws db rts rtc rtj query category page limit).map
        (fun r => (r.1.judgments.data, r.1.judgments.total)) =
      (SearchLaws db rts rtc rtj query (str "") page limit).map
        (fun r => (r.1.judgments.data, r.1.judgments.total)) ∧
    (db.legal_sections.answers → 0 ≤ wrapInt (wrapInt (page - 1) * limit) →
      (∀ (key : GoString × Int) (l : List LegalSection), ∀ d ∈ db.legal_sections.order key l,
        d ∈ l) →
      ∀ r, SearchLaws db rts rtc rtj query category page limit = some r →
      ∀ d ∈ r.1.sections.data,
        d ∈ db.legal_sections.docs ∧
        db.legal_sections.selects (searchFilter query category) d = true ∧
        ((∀ (f : Filter) (x : LegalSection) (cat : GoString),
            db.legal_sections.selects f x = true → f.category = some cat →
            x.Category = cat) →
          category ≠ str "" ∧ category ≠ str "all" → d.Category = category)) ∧
    (db.case_laws.answers → 0 ≤ wrapInt (wrapInt (page - 1) * limit) →
      (∀ (key : GoString × Int) (l : List CaseLawRecord), ∀ d ∈ db.case_laws.order key l,
        d ∈ l) →
      ∀ r, SearchLaws db rts rtc rtj query category page limit = some r →
      ∀ d ∈ r.1.case_laws.data,
        d ∈ db.case_laws.docs ∧
        db.case_laws.selects (searchFilter query category) d = true ∧
        ((∀ (f : Filter) (x : CaseLawRecord) (cat : GoString),
            db.case_laws.selects f x = true → f.category = some cat → x.Category = cat) →
          category ≠ str "" ∧ category ≠ str "all" → d.Category = category)) ∧
    (db.landmark_judgments.answers → 0 ≤ wrapInt (wrapInt (page - 1) * limit) →
      (∀ (key : GoString × Int) (l : List LandmarkJudgment),
        ∀ d ∈ db.landmark_judgments.order key l, d ∈ l) →
      ∀ jf : Filter, judgmentFilter (searchFilter query category) = some jf →
      ∀ r, SearchLaws db rts rtc rtj query category page limit = some r →
      ∀ d ∈ r.1.judgments.data,
        d ∈ db.landmark_judgments.docs ∧ db.landmark_judgments.selects jf d = true) := by
  obtain ⟨j, hj⟩ := searchJudgments_total db rtj query category page limit
  have hS := SearchLaws_eq db rts rtc rtj query category page limit j hj
  have hj0 : searchJudgments db rtj (searchFilter query (str "")) page limit = some j := by
    rw [← searchJudgments_category db rtj query category page limit, hj]
  have hS0 := SearchLaws_eq db rts rtc rtj query (str "") page limit j hj0
  have hcat : category ≠ str "" ∧ category ≠ str "all" →
      (searchFilter query category).category = some category := by
    intro hc
    rw [searchFilter_category, if_pos hc]
  refine ⟨hcat, ?_, ?_, ?_, searchJudgments_category db rtj query category page limit, ?_,
    ?_, ?_, ?_, ?_, ?_, ?_, ?_⟩
  · intro hc
    have : ¬ (category ≠ str "" ∧ category ≠ str "all") := by
      rcases hc with hc | hc <;> simp [hc]
    rw [searchFilter_category, if_neg this]
  · intro hq
    rw [searchFilter_orClauses, judgmentFilter_of_search]
    simp [hq]
  · intro hq
    rw [searchFilter_orClauses, judgmentFilter_of_search]
    simp [hq, Filter.empty]
  · intro hq hc
    have h1 : ¬ (query ≠ str "") := by simp [hq]
    have h2 : ¬ (category ≠ str "" ∧ category ≠ str "all") := by
      rcases hc with hc | hc <;> simp [hc]
    have ho := searchFilter_orClauses query category
    have hcat := searchFilter_category query category
    rw [if_neg h1] at ho
    rw [if_neg h2] at hcat
    cases hsf : searchFilter query category with
    | mk o c =>
      rw [hsf] at ho hcat
      simp only at ho hcat
      rw [ho, hcat]
      rfl
  · intro h hskip
    rw [hS, Option.map_some', searchSections_page db rts _ page limit h hskip]
  · intro h hskip
    rw [hS, Option.map_some', searchCaseLaws_page db rtc _ page limit h hskip]
  · intro h hskip jf hjf
    have hpage := searchJudgments_page db rtj _ jf page limit hjf h hskip
    rw [hj, Option.some.injEq] at hpage
    rw [hS, Option.map_some', hpage]
  · rw [hS, hS0, Option.map_some', Option.map_some']
  · intro h hskip hord r hr d hd
    rw [hS, Option.some.injEq] at hr
    rw [← hr] at hd
    simp only [searchSections_page db rts _ page limit h hskip] at hd
    have hmem := List.mem_filter.mp (hord _ _ d (mem_window _ _ _ d hd))
    exact ⟨hmem.1, hmem.2, fun hsem hc => hsem _ d category hmem.2 (hcat hc)⟩
  · intro h hskip hord r hr d hd
    rw [hS, Option.some.injEq] at hr
    rw [← hr] at hd
    simp only [searchCaseLaws_page db rtc _ page limit h hskip] at hd
    have hmem := List.mem_filter.mp (hord _ _ d (mem_window _ _ _ d hd))
    exact ⟨hmem.1, hmem.2, fun hsem hc => hsem _ d category hmem.2 (hcat hc)⟩
  · intro h hskip hord jf hjf r hr d hd
    have hpage := searchJudgments_page db rtj _ jf page limit hjf h hskip
    rw [hj, Option.some.injEq] at hpage
    rw [hS, Option.some.injEq] at hr
    rw [← hr] at hd
    simp only [hpage] at hd
    exact List.mem_filter.mp (hord _ _ d (mem_window _ _ _ d hd))

/-- C11 (amended), at the stored seed statutes, an empty query and the category
"property_crimes": the statute page is the one statute of that category, section 420, with
total 1. -/
theorem C11_filters_witness :
    (SearchLaws storedDatabase zeroRuntime zeroRuntime zeroRuntime (str "")
      (str "property_crimes") 1 10).map
        (fun r => (r.1.sections.data.map (fun d => d.Section), r.1.sections.total)) =
      some ([str "420"], 1) := by
  have h := (C11_filters storedDatabase zeroRuntime zeroRuntime zeroRuntime (str "")
    (str "property_crimes") 1 10).2.2.2.2.2.2.1 (by decide) (by decide)
  rw [Option.map_eq_some'] at h ⊢
  obtain ⟨r, hr, hpage⟩ := h
  refine ⟨r, hr, ?_⟩
  rw [Prod.mk.injEq] at hpage
  rw [hpage.1, hpage.2]
  decide

/-! ### Decimal formatting -/

theorem decimalAux_succ (fuel n : Nat) (acc : GoString) :
    decimalAux (fuel + 1) n acc =
      if n < 10 then (0x30 + n) :: acc else decimalAux fuel (n / 10) ((0x30 + n % 10) :: acc) :=
  rfl

theorem decimal_four (n : Nat) (h1 : 1 ≤ n) (h2 : n ≤ 9999) :
    padZeros 4 (decimal n) =
      [0x30 + n / 1000, 0x30 + n / 100 % 10, 0x30 + n / 10 % 10, 0x30 + n % 10] := by
  unfold decimal
  rw [decimalAux_succ]
  by_cases c1 : n < 10
  · rw [if_pos c1]
    have e1 : n / 1000 = 0 := by omega
    have e2 : n / 100 % 10 = 0 := by omega
    have e3 : n / 10 % 10 = 0 := by omega
    have e4 : n % 10 = n := by omega
    rw [e1, e2, e3, e4]
    rfl
  rw [if_neg c1]
  obtain ⟨m, rfl⟩ : ∃ m, n = m + 1 := ⟨n - 1, by omega⟩
  rw [decimalAux_succ]
  by_cases c2 : (m + 1) / 10 < 10
  · rw [if_pos c2]
    have e1 : (m + 1) / 1000 = 0 := by omega
    have e2 : (m + 1) / 100 % 10 = 0 := by omega
    have e3 : (m + 1) / 10 % 10 = (m + 1) / 10 := by omega
    rw [e1, e2, e3]
    rfl
  rw [if_neg c2]
  obtain ⟨k, rfl⟩ : ∃ k, m = k + 1 := ⟨m - 1, by omega⟩
  rw [decimalAux_succ]
  by_cases c3 : (k + 1 + 1) / 10 / 10 < 10
  · rw [if_pos c3]
    have e1 : (k + 1 + 1) / 1000 = 0 := by omega
    have e2 : (k + 1 + 1) / 100 % 10 = (k + 1 + 1) / 10 / 10 := by omega
    have e3 : (k + 1 + 1) / 10 % 10 = (k + 1 + 1) / 10 % 10 := rfl
    rw [e1, e2]
    rfl
  rw [if_neg c3]
  obtain ⟨j, rfl⟩ : ∃ j, k = j + 1 := ⟨k - 1, by omega⟩
  rw [decimalAux_succ]
  have c4 : (j + 1 + 1 + 1) / 10 / 10 / 10 < 10 := by omega
  rw [if_pos c4]
  have e1 : (j + 1 + 1 + 1) / 1000 = (j + 1 + 1 + 1) / 10 / 10 / 10 := by omega
  have e2 : (j + 1 + 1 + 1) / 100 % 10 = (j + 1 + 1 + 1) / 10 / 10 % 10 := by omega
  rw [e1, e2]
  rfl

theorem fmt04d_sequence (r : Nat) (hr : r < 9999) :
    fmt04d ((r : Int) + 1) =
      [0x30 + (r + 1) / 1000, 0x30 + (r + 1) / 100 % 10, 0x30 + (r + 1) / 10 % 10,
       0x30 + (r + 1) % 10] := by
  have hneg : ¬ ((r : Int) + 1 < 0) := by omega
  have habs : ((r : Int) + 1).natAbs = r + 1 := by omega
  unfold fmt04d
  rw [if_neg hneg, habs]
  exact decimal_four (r + 1) (by omega) (by omega)

/-! ### Creation of a record -/

theorem extractSections_eq (laws : List SuggestedLaw) : ∀ fir : FIR,
    extractSections fir laws =
      { fir with ApplicableSections := fir.ApplicableSections ++ laws.map (fun l => l.Section) } := by
  induction laws with
  | nil => intro fir; simp [extractSections]
  | cons law rest ih =>
    intro fir
    have := ih { fir with ApplicableSections := fir.ApplicableSections ++ [law.Section] }
    simp only [extractSections, List.foldl_cons] at this ⊢
    rw [this]
    simp

/-- C12: for a valid officer id and a well-formed incident date, `CreateFIR` builds a record
with status "draft", no submission timestamp, the priority `determinePriority` gives, the
suggestions of the classifier, and as applicable sections the sections of those suggestions,
in order; it returns this record and appends it to the collection when the insert succeeds,
and returns the error of the insert otherwise. -/
theorem C12_created_record (tbl : Nat → Nat) (store : FIRStore) (rt : CreateRuntime)
    (req : CreateFIRRequest) (officerID : GoString) (objectID : ObjectID) (incidentDate : Time)
    (hid : ObjectIDFromHex officerID = Except.ok objectID)
    (hdate : parseDate req.IncidentDate = some incidentDate) :
    ∃ fir : FIR,
      fir.Status = str "draft" ∧ fir.SubmittedAt = none ∧
      fir.Priority = determinePriority tbl req.IncidentDescription ∧
      fir.SuggestedLaws = (AnalyzeIncident tbl req.IncidentDescription).2 ∧
      fir.SuggestedLaws = getSuggestedLaws tbl req.IncidentDescription ∧
      fir.ApplicableSections = fir.SuggestedLaws.map (fun l => l.Section) ∧
      fir.ApplicableSections.length = fir.SuggestedLaws.length ∧
      (fir.SuggestedLaws = [] → fir.ApplicableSections = []) ∧
      fir.OfficerID = objectID ∧ fir.IncidentDate = incidentDate ∧
      (store.fault FIRCall.insertOne = none →
        CreateFIR tbl store rt req officerID =
          ((some fir, none), { store with docs := store.docs ++ [fir] })) ∧
      (∀ err, store.fault FIRCall.insertOne = some err →
        CreateFIR tbl store rt req officerID = ((none, some err), store)) := by
  refine ⟨extractSections
    { ID := rt.NewObjectID 0
      FIRNumber := GenerateFIRNumber rt.Year rt.Intn
      OfficerID := objectID
      ComplainantName := req.ComplainantName
      ComplainantAddress := req.ComplainantAddress
      ComplainantPhone := req.ComplainantPhone
      IncidentDate := incidentDate
      IncidentTime := req.IncidentTime
      IncidentLocation := req.IncidentLocation
      IncidentDescription := req.IncidentDescription
      WitnessDetails := req.WitnessDetails
      EvidenceDetails := req.EvidenceDetails
      OfficerRemarks := req.OfficerRemarks
      Language := req.Language
      Status := str "draft"
      Priority := determinePriority tbl req.IncidentDescription
      ApplicableSections := []
      SuggestedLaws := (AnalyzeIncident tbl req.IncidentDescription).2
      AIAnalysis := (AnalyzeIncident tbl req.IncidentDescription).1
      GeneratedFIR := str ""
      CreatedAt := rt.Now 2
      UpdatedAt := rt.Now 3
      SubmittedAt := none }
    (AnalyzeIncident tbl req.IncidentDescription).2, ?_⟩
  rw [extractSections_eq]
  refine ⟨rfl, rfl, rfl, rfl, rfl, by simp, by simp, ?_, rfl, rfl, ?_, ?_⟩
  · intro h
    simp only at h
    simp [h]
  · intro hins
    simp only [CreateFIR, hid, hdate, FIRStore.InsertOne, hins, extractSections_eq]
  · intro err hins
    simp only [CreateFIR, hid, hdate, FIRStore.InsertOne, hins, extractSections_eq]

/-- C12, at the sample request with officer A and the date 2024-02-29: the record returned
has status "draft" and the applicable sections 354, 509 and 379. -/
theorem C12_created_record_witness :
    (CreateFIR identityTable (reliableStore []) sampleRuntime (sampleRequest (str "2024-02-29"))
      officerA).1.1.map (fun fir => (fir.Status, fir.ApplicableSections)) =
      some (str "draft", [str "354", str "509", str "379"]) :=
  match C12_created_record identityTable (reliableStore []) sampleRuntime
      (sampleRequest (str "2024-02-29")) officerA officerAID (dateUTC 2024 2 29)
      rfl (by decide) with
  | ⟨fir, h1, _, _, _, h5, h6, _, _, _, _, h11, _⟩ => by
    rw [h11 rfl, Option.map_some', h1, h6, h5]
    decide

/-- C13: when the incident date does not parse, `CreateFIR` returns no record and an error,
which is "invalid incident date format" for a valid officer id, and the collection is
unchanged; when the officer id is not a valid identifier, it returns no record and the error
of the identifier, and the collection is unchanged. -/
theorem C13_rejected_request (tbl : Nat → Nat) (store : FIRStore) (rt : CreateRuntime)
    (req : CreateFIRRequest) (officerID : GoString) :
    (parseDate req.IncidentDate = none →
      (CreateFIR tbl store rt req officerID).1.1 = none ∧
      (CreateFIR tbl store rt req officerID).1.2 ≠ none ∧
      (CreateFIR tbl store rt req officerID).2 = store ∧
      (∀ objectID, ObjectIDFromHex officerID = Except.ok objectID →
        CreateFIR tbl store rt req officerID =
          ((none, some "invalid incident date format"), store))) ∧
    (∀ err, ObjectIDFromHex officerID = Except.error err →
      CreateFIR tbl store rt req officerID = ((none, some err), store)) := by
  constructor
  · intro hdate
    cases hid : ObjectIDFromHex officerID with
    | error err => simp [CreateFIR, hid]
    | ok objectID => simp [CreateFIR, hid, hdate]
  · intro err hid
    simp [CreateFIR, hid]

/-- C13, at the sample request with the date "29/02/2024" and officer A. -/
theorem C13_rejected_request_witness :
    CreateFIR identityTable draftStore sampleRuntime (sampleRequest (str "29/02/2024")) officerA =
      ((none, some "invalid incident date format"), draftStore) :=
  ((C13_rejected_request identityTable draftStore sampleRuntime
    (sampleRequest (str "29/02/2024")) officerA).1 (by decide)).2.2.2 officerAID rfl

/-- C14: for every year and every draw `r` below 9999 the case number is "FIR/", the decimal
year, "/", and the four decimal digits of `r + 1`, which lies between 1 and 9999; the
sequence part is never "0000" and always has 4 bytes. -/
theorem C14_case_number (year : Int) (r : Nat) (hr : r < 9999) :
    GenerateFIRNumber year r =
      str "FIR/" ++ fmtD year ++ str "/" ++
        [0x30 + (r + 1) / 1000, 0x30 + (r + 1) / 100 % 10, 0x30 + (r + 1) / 10 % 10,
         0x30 + (r + 1) % 10] ∧
    (r + 1) / 1000 < 10 ∧ (r + 1) / 100 % 10 < 10 ∧ (r + 1) / 10 % 10 < 10 ∧
    (r + 1) % 10 < 10 ∧
    1000 * ((r + 1) / 1000) + 100 * ((r + 1) / 100 % 10) + 10 * ((r + 1) / 10 % 10) +
      (r + 1) % 10 = r + 1 ∧
    1 ≤ r + 1 ∧ r + 1 ≤ 9999 ∧
    fmt04d ((r : Int) + 1) ≠ str "0000" ∧ (fmt04d ((r : Int) + 1)).length = 4 := by
  have hseq := fmt04d_sequence r hr
  refine ⟨?_, by omega, by omega, by omega, by omega, by omega, by omega, by omega, ?_, ?_⟩
  · simp only [GenerateFIRNumber, hseq]
  · rw [hseq]
    intro h
    have h0 : str "0000" = [0x30, 0x30, 0x30, 0x30] := by decide
    rw [h0] at h
    simp only [List.cons.injEq, and_true] at h
    omega
  · rw [hseq]; rfl

/-- C14, at the year 2024 and the draw 41: the case number is "FIR/2024/0042". -/
theorem C14_case_number_witness : GenerateFIRNumber 2024 41 = str "FIR/2024/0042" :=
  ((C14_case_number 2024 41 (by decide)).1).trans (by decide)

/-! ### Submission -/

theorem matches_applySet (filter : FIRFilter) (updates : Updates) (d : FIR) :
    filter.matches (applySet updates d) = filter.matches d := rfl

theorem find_updateFirst (filter : FIRFilter) (updates : Updates) (docs : List FIR) :
    (updateFirst filter updates docs).find? filter.matches =
      (docs.find? filter.matches).map (applySet updates) := by
  induction docs with
  | nil => rfl
  | cons d rest ih =>
    by_cases hd : filter.matches d = true
    · simp [updateFirst, hd, List.find?_cons, matches_applySet]
    · simp [updateFirst, hd, List.find?_cons, ih]

theorem GetFIRByID_some {store : FIRStore} {firID officerID : GoString} {r : FIR}
    (hget : GetFIRByID store firID officerID = (some r, none)) :
    ∃ fid oid, ObjectIDFromHex firID = Except.ok fid ∧ ObjectIDFromHex officerID = Except.ok oid ∧
      store.fault FIRCall.findOne = none ∧
      store.docs.find? (FIRFilter.matches { _id := some fid, officer_id := some oid }) = some r := by
  unfold GetFIRByID at hget
  cases hf : ObjectIDFromHex firID with
  | error err => rw [hf] at hget; simp at hget
  | ok fid =>
    cases ho : ObjectIDFromHex officerID with
    | error err => rw [hf, ho] at hget; simp at hget
    | ok oid =>
      rw [hf, ho] at hget
      simp only [FIRStore.FindOne] at hget
      cases hfault : store.fault FIRCall.findOne with
      | some err => rw [hfault] at hget; simp at hget
      | none =>
        rw [hfault] at hget
        cases hfind : store.docs.find? (FIRFilter.matches { _id := some fid, officer_id := some oid }) with
        | none => rw [hfind] at hget; simp at hget
        | some r' =>
          rw [hfind] at hget
          simp only [Prod.mk.injEq, Option.some.injEq, and_true] at hget
          exact ⟨fid, oid, rfl, rfl, rfl, by rw [hfind, hget]⟩

/-- After `SubmitFIR` the record a caller could read carries the status "submitted", the
first clock reading as submission time and the second as update time, whatever its status
was before. -/
theorem SubmitFIR_get (store : FIRStore) (rt : Runtime) (firID officerID : GoString) (r : FIR)
    (hu : store.fault FIRCall.updateOne = none)
    (hget : GetFIRByID store firID officerID = (some r, none)) :
    (SubmitFIR store rt firID officerID).1 = none ∧
    (SubmitFIR store rt firID officerID).2.fault = store.fault ∧
    GetFIRByID (SubmitFIR store rt firID officerID).2 firID officerID =
      (some { r with Status := str "submitted", SubmittedAt := some (rt.Now 0),
                     UpdatedAt := rt.Now 1 }, none) := by
  obtain ⟨fid, oid, hf, ho, hfault, hfind⟩ := GetFIRByID_some hget
  have hsub : SubmitFIR store rt firID officerID =
      (none, FIRStore.mk
        (updateFirst ⟨some fid, some oid⟩
          ⟨some (str "submitted"), some (rt.Now 0), some (rt.Now 1)⟩ store.docs)
        store.fault) := by
    simp only [SubmitFIR, UpdateFIR, hf, ho, FIRStore.UpdateOne, hu]
  rw [hsub]
  refine ⟨rfl, rfl, ?_⟩
  simp only [GetFIRByID, hf, ho, FIRStore.FindOne, hfault, find_updateFirst, hfind,
    Option.map_some']
  rfl

/-- C15 (refuted as stated): a draft record is submitted at clock time 100 and again at
clock time 200; the second call does not keep the submission time 100 of the first but
stamps 200. -/
theorem C15_counterexample :
    (GetFIRByID (SubmitFIR draftStore (clockAt 100) (Hex 1) officerA).2 (Hex 1) officerA).1.map
        (fun r => (r.Status, r.SubmittedAt)) = some (str "submitted", some 100) ∧
    (GetFIRByID
      (SubmitFIR (SubmitFIR draftStore (clockAt 100) (Hex 1) officerA).2 (clockAt 200) (Hex 1)
        officerA).2 (Hex 1) officerA).1.map
        (fun r => (r.Status, r.SubmittedAt)) = some (str "submitted", some 200) := by
  decide

/-- C15 (amended): when the update succeeds, `SubmitFIR` on a record the caller owns sets
its status to "submitted" and its submission time to the clock reading of the call, which is
not nil; this holds for a draft record and for any other status, so a further `SubmitFIR`
call stamps the submission time again, with the clock reading of that later call. -/
theorem C15_submit_stamps (store : FIRStore) (rt : Runtime) (firID officerID : GoString)
    (r : FIR) (hu : store.fault FIRCall.updateOne = none)
    (hget : GetFIRByID store firID officerID = (some r, none)) :
    (SubmitFIR store rt firID officerID).1 = none ∧
    GetFIRByID (SubmitFIR store rt firID officerID).2 firID officerID =
      (some { r with Status := str "submitted", SubmittedAt := some (rt.Now 0),
                     UpdatedAt := rt.Now 1 }, none) ∧
    (∀ rt' : Runtime,
      GetFIRByID (SubmitFIR (SubmitFIR store rt firID officerID).2 rt' firID officerID).2
        firID officerID =
        (some { r with Status := str "submitted", SubmittedAt := some (rt'.Now 0),
                       UpdatedAt := rt'.Now 1 }, none)) := by
  obtain ⟨h1, h2, h3⟩ := SubmitFIR_get store rt firID officerID r hu hget
  refine ⟨h1, h3, ?_⟩
  intro rt'
  have hu' : (SubmitFIR store rt firID officerID).2.fault FIRCall.updateOne = none := by
    rw [h2]; exact hu
  exact (SubmitFIR_get _ rt' firID officerID _ hu' h3).2.2

/-- C15 (amended), at the collection with one draft record, submitted at clock time 100. -/
theorem C15_submit_stamps_witness :
    (GetFIRByID (SubmitFIR draftStore (clockAt 100) (Hex 1) officerA).2 (Hex 1) officerA).1.map
      (fun r => (r.Status, r.SubmittedAt)) = some (str "submitted", some 100) := by
  rw [(C15_submit_stamps draftStore (clockAt 100) (Hex 1) officerA
    (sampleRecord 1 officerAID (str "draft") 10) rfl (by decide)).2.1]
  decide

/-- C16 (refuted as stated): a closed record of the caller (rank 3) has the status
"submitted" (rank 1) after `SubmitFIR`. -/
theorem C16_counterexample :
    (GetFIRByID closedStore (Hex 1) officerA).1.bind (fun r => statusRank r.Status) = some 3 ∧
    (GetFIRByID (SubmitFIR closedStore (clockAt 100) (Hex 1) officerA).2 (Hex 1) officerA).1.bind
      (fun r => statusRank r.Status) = some 1 := by
  decide

/-- C16 (amended): when the update succeeds, the status of a record of the caller after
`SubmitFIR` is "submitted" whatever it was before: for a record in status draft or submitted
the status does not move backward in the order draft, submitted, under_investigation,
closed; a record in status under_investigation or closed moves back to submitted. -/
theorem C16_submit_status (store : FIRStore) (rt : Runtime) (firID officerID : GoString)
    (r : FIR) (hu : store.fault FIRCall.updateOne = none)
    (hget : GetFIRByID store firID officerID = (some r, none)) :
    ∃ r' : FIR,
      GetFIRByID (SubmitFIR store rt firID officerID).2 firID officerID = (some r', none) ∧
      r'.Status = str "submitted" ∧ statusRank r'.Status = some 1 ∧
      (r.Status = str "draft" ∨ r.Status = str "submitted" →
        ∃ a, statusRank r.Status = some a ∧ a ≤ 1) ∧
      (r.Status = str "under_investigation" ∨ r.Status = str "closed" →
        ∃ a, statusRank r.Status = some a ∧ 1 < a) := by
  refine ⟨_, (SubmitFIR_get store rt firID officerID r hu hget).2.2, rfl,
    (by decide : statusRank (str "submitted") = some 1), ?_, ?_⟩
  · rintro (h | h) <;> rw [h]
    · exact ⟨0, by decide, by decide⟩
    · exact ⟨1, by decide, by decide⟩
  · rintro (h | h) <;> rw [h]
    · exact ⟨2, by decide, by decide⟩
    · exact ⟨3, by decide, by decide⟩

/-- C16 (amended), at the collection with one draft record: the status after `SubmitFIR` is
"submitted". -/
theorem C16_submit_status_witness :
    (GetFIRByID (SubmitFIR draftStore (clockAt 100) (Hex 1) officerA).2 (Hex 1) officerA).1.map
      (fun r => r.Status) = some (str "submitted") :=
  match C16_submit_status draftStore (clockAt 100) (Hex 1) officerA
      (sampleRecord 1 officerAID (str "draft") 10) rfl (by decide) with
  | ⟨r', h1, h2, _⟩ => by rw [h1, Option.map_some', h2]

/-! ### Listing -/

theorem order_perm (sort : GoString × Int) (l : List FIR) : (FIRStore.order sort l).Perm l := by
  unfold FIRStore.order
  split_ifs
  · exact List.perm_insertionSort _ l
  · exact List.perm_insertionSort _ l
  · exact List.Perm.refl l

theorem order_sorted (l : List FIR) :
    (FIRStore.order (str "created_at", -1) l).Sorted (fun a b => b.CreatedAt ≤ a.CreatedAt) := by
  haveI : IsTotal FIR (fun a b => b.CreatedAt ≤ a.CreatedAt) :=
    ⟨fun a b => le_total b.CreatedAt a.CreatedAt⟩
  haveI : IsTrans FIR (fun a b => b.CreatedAt ≤ a.CreatedAt) :=
    ⟨fun _ _ _ hab hbc => le_trans hbc hab⟩
  unfold FIRStore.order
  rw [if_pos rfl]
  exact List.sorted_insertionSort _ l

theorem matches_officer (oid : ObjectID) :
    FIRFilter.matches { _id := none, officer_id := some oid } =
      fun d => decide (d.OfficerID = oid) := by
  funext d
  simp [FIRFilter.matches]

theorem matches_both (fid oid : ObjectID) (d : FIR) :
    FIRFilter.matches { _id := some fid, officer_id := some oid } d = true ↔
      d.ID = fid ∧ d.OfficerID = oid := by
  simp [FIRFilter.matches]

theorem wrapInt_of_range (x : Int) (h0 : 0 ≤ x) (h1 : x < 2 ^ 63) : wrapInt x = x := by
  unfold wrapInt
  omega

theorem GetFIRs_mem (store : FIRStore) (officerID : GoString) (page limit : Int) (r : FIR)
    (h : r ∈ (GetFIRs store officerID page limit).1) :
    ObjectIDFromHex officerID = Except.ok r.OfficerID := by
  unfold GetFIRs at h
  cases hid : ObjectIDFromHex officerID with
  | error err => rw [hid] at h; simp at h
  | ok oid =>
    rw [hid] at h
    simp only [FIRStore.CountDocuments, FIRStore.Find, FIRStore.CursorAll] at h
    cases hc : store.fault FIRCall.countDocuments with
    | some err => rw [hc] at h; simp at h
    | none =>
      rw [hc] at h
      cases hf : store.fault FIRCall.find with
      | some err => rw [hf] at h; simp at h
      | none =>
        rw [hf] at h
        simp only at h
        split_ifs at h with hskip
        · simp at h
        · cases hcur : store.fault FIRCall.cursorAll with
          | some err => rw [hcur] at h; simp at h
          | none =>
            rw [hcur] at h
            simp only at h
            have hmem := (order_perm _ _).mem_iff.mp (mem_window _ _ _ _ h)
            rw [matches_officer, List.mem_filter] at hmem
            have : r.OfficerID = oid := by simpa using hmem.2
            rw [this]

theorem GetFIRs_insert_other (store : FIRStore) (officerID : GoString) (page limit : Int)
    (fir : FIR) (h : ObjectIDFromHex officerID ≠ Except.ok fir.OfficerID) :
    GetFIRs (store.InsertOne fir).2 officerID page limit = GetFIRs store officerID page limit := by
  unfold FIRStore.InsertOne
  cases hins : store.fault FIRCall.insertOne with
  | some err => rfl
  | none =>
    simp only
    unfold GetFIRs
    cases hid : ObjectIDFromHex officerID with
    | error err => rfl
    | ok oid =>
      have hne : ¬ (fir.OfficerID = oid) := by
        intro hEq; apply h; rw [hid, hEq]
      have hfilter : (store.docs ++ [fir]).filter (fun d => decide (d.OfficerID = oid)) =
          store.docs.filter (fun d => decide (d.OfficerID = oid)) := by
        simp [List.filter_append, hne]
      simp only [FIRStore.CountDocuments, FIRStore.Find, FIRStore.CursorAll, matches_officer,
        hfilter]

/-- The page `GetFIRs` returns when the driver calls succeed and the skip does not
overflow. -/
theorem GetFIRs_page (store : FIRStore) (officerID : GoString) (oid : ObjectID)
    (page limit : Int) (hid : ObjectIDFromHex officerID = Except.ok oid)
    (hok : ∀ call, store.fault call = none) (hpage : 1 ≤ page) (hlimit : 1 ≤ limit)
    (hskip : (page - 1) * limit < 2 ^ 63) :
    GetFIRs store officerID page limit =
      (((FIRStore.order (str "created_at", -1)
          (store.docs.filter (fun d => decide (d.OfficerID = oid)))).drop
            ((page - 1) * limit).toNat).take limit.toNat,
        ((store.docs.filter (fun d => decide (d.OfficerID = oid))).length : Int), none) := by
  have h0 : 0 ≤ page - 1 := by omega
  have h1 : page - 1 ≤ (page - 1) * limit := le_mul_of_one_le_right h0 hlimit
  have h2 : 0 ≤ (page - 1) * limit := le_trans h0 h1
  have hw1 : wrapInt (page - 1) = page - 1 := wrapInt_of_range _ h0 (by omega)
  have hw2 : wrapInt ((page - 1) * limit) = (page - 1) * limit := wrapInt_of_range _ h2 hskip
  have hneg : ¬ ((page - 1) * limit < 0) := by omega
  have hl0 : ¬ (limit = 0) := by omega
  have hlabs : limit.natAbs = limit.toNat := by omega
  simp only [GetFIRs, hid, FIRStore.CountDocuments, FIRStore.Find, FIRStore.CursorAll, hok,
    hw1, hw2, hneg, if_false, window, hl0, matches_officer, hlabs]

/-- C17: every record `GetFIRs` returns for an officer is owned by that officer, and
inserting a record owned by another officer changes neither the records nor the total nor
the error that `GetFIRs` returns for the officer. -/
theorem C17_listing_is_scoped (store : FIRStore) (officerID : GoString) (page limit : Int) :
    (∀ r ∈ (GetFIRs store officerID page limit).1,
      ObjectIDFromHex officerID = Except.ok r.OfficerID) ∧
    (∀ fir : FIR, ObjectIDFromHex officerID ≠ Except.ok fir.OfficerID →
      GetFIRs (store.InsertOne fir).2 officerID page limit =
        GetFIRs store officerID page limit) :=
  ⟨fun r hr => GetFIRs_mem store officerID page limit r hr,
   fun fir h => GetFIRs_insert_other store officerID page limit fir h⟩

/-- C17, at the collection with one record of officer A, into which a record of officer B is
inserted. -/
theorem C17_listing_is_scoped_witness :
    GetFIRs (draftStore.InsertOne (sampleRecord 2 officerBID (str "draft") 20)).2 officerA 1 10 =
      GetFIRs draftStore officerA 1 10 :=
  (C17_listing_is_scoped draftStore officerA 1 10).2
    (sampleRecord 2 officerBID (str "draft") 20)
    (fun h => absurd (Except.ok.inj ((rfl : ObjectIDFromHex officerA = Except.ok officerAID).symm.trans h))
      (by decide))

/-- C18 (refuted as stated): with page 4611686018427387905 and limit 4 the skip
`(page - 1) * limit` is 2^64 and wraps to 0 in Go `int` arithmetic, so the one record of the
officer is returned, where the claim gives an empty list. -/
theorem C18_counterexample :
    ((GetFIRs draftStore officerA 4611686018427387905 4).1.length : Int) = 1 ∧
    min (4 : Int) (max 0 (1 - (4611686018427387905 - 1) * 4)) = 0 := by
  decide

/-- C18 (amended): when the driver calls succeed, `page ≥ 1`, `limit ≥ 1` and the skip
`(page - 1) * limit` does not overflow the Go `int`, `GetFIRs` returns as total the number
`n` of records of the officer and as records the positions `(page - 1) * limit` up to
`page * limit - 1` of an arrangement of the officer's records by creation time descending;
the returned list is sorted by creation time non-increasing and has length
`min(limit, n - (page - 1) * limit)`, the difference cut off at 0. -/
theorem C18_page_of_listing (store : FIRStore) (officerID : GoString) (oid : ObjectID)
    (page limit : Int) (hid : ObjectIDFromHex officerID = Except.ok oid)
    (hok : ∀ call, store.fault call = none) (hpage : 1 ≤ page) (hlimit : 1 ≤ limit)
    (hskip : (page - 1) * limit < 2 ^ 63) :
    ∃ ordered : List FIR,
      ordered.Perm (store.docs.filter (fun d => decide (d.OfficerID = oid))) ∧
      ordered.Sorted (fun a b => b.CreatedAt ≤ a.CreatedAt) ∧
      GetFIRs store officerID page limit =
        ((ordered.drop ((page - 1) * limit).toNat).take limit.toNat,
          ((store.docs.filter (fun d => decide (d.OfficerID = oid))).length : Int), none) ∧
      ((GetFIRs store officerID page limit).1).Sorted (fun a b => b.CreatedAt ≤ a.CreatedAt) ∧
      (GetFIRs store officerID page limit).1.length =
        min limit.toNat
          ((store.docs.filter (fun d => decide (d.OfficerID = oid))).length -
            ((page - 1) * limit).toNat) := by
  have hpg := GetFIRs_page store officerID oid page limit hid hok hpage hlimit hskip
  refine ⟨_, order_perm _ _, order_sorted _, hpg, ?_, ?_⟩
  · rw [hpg]
    exact ((order_sorted _).sublist
      ((List.take_sublist _ _).trans (List.drop_sublist _ _)))
  · rw [hpg]
    simp only [List.length_take, List.length_drop, (order_perm _ _).length_eq]

/-- C18 (amended), at the dashboard collection, officer A, page 2 and limit 4: of the 6
records of the officer the last 2 are returned, and the total is 6. -/
theorem C18_page_of_listing_witness :
    (GetFIRs dashboardStore officerA 2 4).1.length = 2 ∧
    (GetFIRs dashboardStore officerA 2 4).2.1 = 6 :=
  match C18_page_of_listing dashboardStore officerA officerAID 2 4 rfl (fun _ => rfl)
      (by decide) (by decide) (by decide) with
  | ⟨_, _, _, h3, _, h5⟩ =>
    ⟨by rw [h5]; decide, by
      rw [h3]
      exact (by decide :
        ((dashboardStore.docs.filter (fun d => decide (d.OfficerID = officerAID))).length : Int)
          = 6)⟩

/-- C19: for well-formed identifiers, when the lookup reaches the collection, `GetFIRByID`
returns a record exactly when the collection holds a record with that id owned by that
officer, and the record returned is such a record; otherwise it fails with the driver's
"no documents" error, the same whether the id is absent or the record is owned by another
officer.  The handler answers 404 "FIR not found" for that failure, as for every other. -/
theorem C19_lookup_by_owner (store : FIRStore) (firID officerID : GoString) (fid oid : ObjectID)
    (hf : ObjectIDFromHex firID = Except.ok fid)
    (ho : ObjectIDFromHex officerID = Except.ok oid) :
    (store.fault FIRCall.findOne = none → (∃ d ∈ store.docs, d.ID = fid ∧ d.OfficerID = oid) →
      ∃ r : FIR, r ∈ store.docs ∧ r.ID = fid ∧ r.OfficerID = oid ∧
        GetFIRByID store firID officerID = (some r, none) ∧
        FIRHandler.GetFIRByID store firID officerID = Response.json 200 (some r)) ∧
    (store.fault FIRCall.findOne = none →
      (¬ ∃ d ∈ store.docs, d.ID = fid ∧ d.OfficerID = oid) →
      GetFIRByID store firID officerID = (none, some "mongo: no documents in result") ∧
      FIRHandler.GetFIRByID store firID officerID =
        Response.error 404 (str "FIR not found")) ∧
    (∀ r : FIR, GetFIRByID store firID officerID = (some r, none) →
      r ∈ store.docs ∧ r.ID = fid ∧ r.OfficerID = oid) ∧
    (∀ err, (GetFIRByID store firID officerID).2 = some err →
      FIRHandler.GetFIRByID store firID officerID =
        Response.error 404 (str "FIR not found")) := by
  refine ⟨?_, ?_, ?_, ?_⟩
  · rintro hfault ⟨d, hd, hdid, hdo⟩
    cases hfind : store.docs.find? (FIRFilter.matches { _id := some fid, officer_id := some oid }) with
    | none =>
      have := List.find?_eq_none.mp hfind d hd
      exact absurd ((matches_both fid oid d).mpr ⟨hdid, hdo⟩) this
    | some r =>
      have hm := (matches_both fid oid r).mp (List.find?_some hfind)
      have hget : GetFIRByID store firID officerID = (some r, none) := by
        simp only [GetFIRByID, hf, ho, FIRStore.FindOne, hfault, hfind]
      refine ⟨r, List.mem_of_find?_eq_some hfind, hm.1, hm.2, hget, ?_⟩
      simp only [FIRHandler.GetFIRByID, hget]
  · intro hfault hno
    have hfind : store.docs.find? (FIRFilter.matches { _id := some fid, officer_id := some oid })
        = none := by
      rw [List.find?_eq_none]
      intro d hd hmatch
      exact hno ⟨d, hd, (matches_both fid oid d).mp hmatch⟩
    have hget : GetFIRByID store firID officerID =
        (none, some "mongo: no documents in result") := by
      simp only [GetFIRByID, hf, ho, FIRStore.FindOne, hfault, hfind]
    refine ⟨hget, ?_⟩
    simp only [FIRHandler.GetFIRByID, hget]
  · intro r hget
    obtain ⟨fid', oid', hf', ho', _, hfind⟩ := GetFIRByID_some hget
    rw [hf] at hf'
    rw [ho] at ho'
    cases hf'
    cases ho'
    have hm := (matches_both fid oid r).mp (List.find?_some hfind)
    exact ⟨List.mem_of_find?_eq_some hfind, hm.1, hm.2⟩
  · intro err herr
    unfold FIRHandler.GetFIRByID
    cases hres : GetFIRByID store firID officerID with
    | mk fir e =>
      rw [hres] at herr
      simp only at herr
      rw [herr]

/-- C19, at the dashboard collection: record 3 is owned by officer B, so officer A gets the
"no documents" error and the handler answers 404. -/
theorem C19_lookup_by_owner_witness :
    GetFIRByID dashboardStore (Hex 3) officerA = (none, some "mongo: no documents in result") ∧
    FIRHandler.GetFIRByID dashboardStore (Hex 3) officerA =
      Response.error 404 (str "FIR not found") :=
  (C19_lookup_by_owner dashboardStore (Hex 3) officerA 3 officerAID rfl rfl).2.1 rfl
    (by decide)

/-! ### Dashboard counts -/

theorem set_fresh (m : StatusCounts) (key : GoString) (value : Nat)
    (h : ∀ e ∈ m, e.1 ≠ key) : m.set key value = (key, value) :: m := by
  unfold StatusCounts.set
  rw [List.filter_eq_self.mpr]
  intro e he
  simpa using h e he

theorem foldl_set (l : List (GoString × Nat)) : ∀ m : StatusCounts,
    (l.map Prod.fst).Nodup → (∀ g ∈ l, ∀ e ∈ m, e.1 ≠ g.1) →
    l.foldl (fun m result => StatusCounts.set m result.1 result.2) m = l.reverse ++ m := by
  induction l with
  | nil => intro m _ _; rfl
  | cons g rest ih =>
    intro m hnd hdis
    rw [List.map_cons, List.nodup_cons] at hnd
    rw [List.foldl_cons, set_fresh m g.1 g.2 (hdis g (List.mem_cons_self _ _))]
    rw [ih ((g.1, g.2) :: m) hnd.2]
    · simp
    · intro g' hg' e he
      rcases List.mem_cons.mp he with he | he
      · rw [he]
        intro hEq
        exact hnd.1 (List.mem_map.mpr ⟨g', hg', hEq.symm⟩)
      · exact hdis g' (List.mem_cons_of_mem _ hg') e he

theorem foldl_total (m : StatusCounts) : ∀ init : Nat,
    m.foldl (fun total entry => total + entry.2) init = init + (m.map Prod.snd).sum := by
  induction m with
  | nil => intro init; simp
  | cons e rest ih =>
    intro init
    rw [List.foldl_cons, ih]
    simp only [List.map_cons, List.sum_cons]
    omega

theorem get_of_keys (f : GoString → Nat) (key : GoString) :
    ∀ keys : List GoString,
      StatusCounts.get (keys.map (fun k => (k, f k))) key = if key ∈ keys then f key else 0 := by
  intro keys
  induction keys with
  | nil => rfl
  | cons k rest ih =>
    unfold StatusCounts.get at ih ⊢
    by_cases hk : k = key
    · subst hk
      simp [List.find?_cons]
    · have hk' : ¬ (key = k) := fun h => hk h.symm
      simp only [List.map_cons, List.find?_cons, hk, decide_False, List.mem_cons, hk', false_or]
      exact ih

theorem count_map_status (docs : List FIR) (status : GoString) :
    (docs.map (fun d => d.Status)).countP (fun s => decide (s = status)) =
      (docs.filter (fun d => decide (d.Status = status))).length := by
  induction docs with
  | nil => rfl
  | cons d rest ih =>
    by_cases hd : d.Status = status
    · simp [List.countP_cons, List.filter_cons, hd, ih]
    · simp [List.countP_cons, List.filter_cons, hd, ih]

theorem sum_countP_dedup (l : List GoString) :
    (l.dedup.map (fun a => l.countP (fun s => decide (s = a)))).sum = l.length :=
  List.sum_map_count_dedup_eq_length l

/-- The three numbers of the dashboard, when every driver call succeeds. -/
theorem dashboard_numbers (store : FIRStore) (officerID : GoString) (oid : ObjectID)
    (hid : ObjectIDFromHex officerID = Except.ok oid) (hok : ∀ call, store.fault call = none) :
    ∃ stats : DashboardStats,
      GetDashboardStats store officerID = (some stats, none) ∧
      stats.totalFIRs = (store.docs.filter (fun d => decide (d.OfficerID = oid))).length ∧
      stats.pendingFIRs =
        ((store.docs.filter (fun d => decide (d.OfficerID = oid))).filter
          (fun d => decide (d.Status = str "draft"))).length +
        ((store.docs.filter (fun d => decide (d.OfficerID = oid))).filter
          (fun d => decide (d.Status = str "submitted"))).length ∧
      stats.completedFIRs =
        ((store.docs.filter (fun d => decide (d.OfficerID = oid))).filter
          (fun d => decide (d.Status = str "closed"))).length := by
  have hpg := GetFIRs_page store officerID oid 1 5 hid hok (by decide) (by decide) (by decide)
  generalize hst : (store.docs.filter (fun d => decide (d.OfficerID = oid))).map
    (fun d => d.Status) = statuses
  have hfold : (statuses.dedup.map (fun status => (status, statuses.countP (fun s => decide (s = status))))).foldl
      (fun m result => StatusCounts.set m result.1 result.2) [] =
      (statuses.dedup.reverse.map (fun status => (status, statuses.countP (fun s => decide (s = status))))) := by
    rw [foldl_set _ [] (by simpa [List.map_map, Function.comp_def] using List.nodup_dedup statuses)
      (by intro _ _ e he; cases he)]
    simp [List.map_reverse]
  have hget : ∀ key, StatusCounts.get
      (statuses.dedup.reverse.map (fun status => (status, statuses.countP (fun s => decide (s = status))))) key =
      statuses.countP (fun s => decide (s = key)) := by
    intro key
    rw [get_of_keys (fun status => statuses.countP (fun s => decide (s = status))) key]
    split_ifs with hmem
    · rfl
    · have hnot : key ∉ statuses := by simpa using hmem
      symm
      rw [List.countP_eq_zero]
      intro s hs hEq
      exact hnot (by rw [← of_decide_eq_true hEq]; exact hs)
  have htotal : (statuses.dedup.reverse.map (fun status => (status, statuses.countP (fun s => decide (s = status))))).foldl
      (fun total entry => total + entry.2) 0 = statuses.length := by
    have hcomp : (Prod.snd ∘ fun status => (status, List.countP (fun s => decide (s = status)) statuses)) =
        fun status => List.countP (fun s => decide (s = status)) statuses := rfl
    rw [foldl_total, List.map_map, hcomp, List.map_reverse, List.sum_reverse, Nat.zero_add]
    exact sum_countP_dedup statuses
  have hstats : GetDashboardStats store officerID =
      (some
        { totalFIRs := statuses.length
          pendingFIRs := statuses.countP (fun s => decide (s = str "draft")) +
            statuses.countP (fun s => decide (s = str "submitted"))
          completedFIRs := statuses.countP (fun s => decide (s = str "closed"))
          accuracyRate := 87
          recentCases := formatRecentCases
            (((FIRStore.order (str "created_at", -1)
              (store.docs.filter (fun d => decide (d.OfficerID = oid)))).drop
                ((1 - 1) * 5 : Int).toNat).take (5 : Int).toNat) }, none) := by
    simp only [GetDashboardStats, hid, FIRStore.Aggregate, hok, FIRStore.CursorNext,
      matches_officer, hst, hfold, hpg, htotal, hget]
  refine ⟨_, hstats, ?_, ?_, ?_⟩
  · rw [← hst, List.length_map]
  · simp only
    rw [← hst, count_map_status, count_map_status]
  · simp only
    rw [← hst, count_map_status]

/-- C20: when every driver call succeeds, `GetDashboardStats` returns as `totalFIRs` the
number of records of the officer, as `pendingFIRs` the number of them in status draft plus
the number in status submitted, and as `completedFIRs` the number in status closed, a status
without record counting as 0; inserting a record of another officer changes none of the
three numbers. -/
theorem C20_dashboard_counts (store : FIRStore) (officerID : GoString) (oid : ObjectID)
    (hid : ObjectIDFromHex officerID = Except.ok oid) (hok : ∀ call, store.fault call = none) :
    ∃ stats : DashboardStats,
      GetDashboardStats store officerID = (some stats, none) ∧
      stats.totalFIRs = (store.docs.filter (fun d => decide (d.OfficerID = oid))).length ∧
      stats.pendingFIRs =
        (store.docs.filter
          (fun d => decide (d.OfficerID = oid) && decide (d.Status = str "draft"))).length +
        (store.docs.filter
          (fun d => decide (d.OfficerID = oid) && decide (d.Status = str "submitted"))).length ∧
      stats.completedFIRs =
        (store.docs.filter
          (fun d => decide (d.OfficerID = oid) && decide (d.Status = str "closed"))).length ∧
      (∀ fir : FIR, fir.OfficerID ≠ oid →
        ∃ stats' : DashboardStats,
          GetDashboardStats (store.InsertOne fir).2 officerID = (some stats', none) ∧
          stats'.totalFIRs = stats.totalFIRs ∧ stats'.pendingFIRs = stats.pendingFIRs ∧
          stats'.completedFIRs = stats.completedFIRs) := by
  obtain ⟨stats, h0, h1, h2, h3⟩ := dashboard_numbers store officerID oid hid hok
  refine ⟨stats, h0, h1, ?_, ?_, ?_⟩
  · rw [h2]; simp only [List.filter_filter, Bool.and_comm]
  · rw [h3]; simp only [List.filter_filter, Bool.and_comm]
  · intro fir hne
    have hstore : (store.InsertOne fir).2 = { store with docs := store.docs ++ [fir] } := by
      simp only [FIRStore.InsertOne, hok]
    have hfilter : (store.docs ++ [fir]).filter (fun d => decide (d.OfficerID = oid)) =
        store.docs.filter (fun d => decide (d.OfficerID = oid)) := by
      simp [List.filter_append, hne]
    obtain ⟨stats', g0, g1, g2, g3⟩ :=
      dashboard_numbers { store with docs := store.docs ++ [fir] } officerID oid hid hok
    simp only [hfilter] at g1 g2 g3
    rw [hstore]
    exact ⟨stats', g0, by rw [g1, h1], by rw [g2, h2], by rw [g3, h3]⟩

/-- C20, at the dashboard collection: officer A has 2 draft, 3 submitted and 1 closed record
(and officer B one record), and the three numbers are 6, 5 and 1. -/
theorem C20_dashboard_counts_witness :
    (GetDashboardStats dashboardStore officerA).1.map
      (fun stats => (stats.totalFIRs, stats.pendingFIRs, stats.completedFIRs)) = some (6, 5, 1) :=
  match C20_dashboard_counts dashboardStore officerA officerAID rfl (fun _ => rfl) with
  | ⟨stats, h0, h1, h2, h3, _⟩ => by
    rw [h0, Option.map_some', h1, h2, h3]
    decide


/-! ## Recent cases, document text, statutes, frame of a submission, pagination -/

/-! ### Recent cases -/

theorem foldl_append_map {α β : Type} (f : α → β) (l : List α) : ∀ acc : List β,
    l.foldl (fun cases x => cases ++ [f x]) acc = acc ++ l.map f := by
  induction l with
  | nil => intro acc; simp
  | cons x rest ih => intro acc; simp [List.foldl_cons, ih]

theorem formatRecentCases_eq (firs : List FIR) :
    formatRecentCases firs =
      firs.map (fun fir =>
        { id := Hex fir.ID
          title := fir.FIRNumber ++ str " - " ++ fir.ComplainantName
          status := fir.Status
          date := formatDate fir.CreatedAt
          confidence := fir.AIAnalysis.Confidence }) := by
  unfold formatRecentCases
  rw [foldl_append_map]
  rfl

theorem dashboard_recent (store : FIRStore) (officerID : GoString) (oid : ObjectID)
    (hid : ObjectIDFromHex officerID = Except.ok oid) (hok : ∀ call, store.fault call = none) :
    (GetDashboardStats store officerID).1.map (fun stats => stats.recentCases) =
      some (formatRecentCases
        ((FIRStore.order (str "created_at", -1)
          (store.docs.filter (fun d => decide (d.OfficerID = oid)))).take 5)) := by
  have hpg := GetFIRs_page store officerID oid 1 5 hid hok (by decide) (by decide) (by decide)
  have h0 : ((1 - 1) * 5 : Int).toNat = 0 := by decide
  have h5 : (5 : Int).toNat = 5 := by decide
  rw [h0, h5, List.drop_zero] at hpg
  simp only [GetDashboardStats, hid, FIRStore.Aggregate, hok, hpg, Option.map_some']

/-- C21: when every driver call succeeds, `GetDashboardStats` returns no error and its
`recentCases` are the first 5 records of the officer's records arranged by creation time
descending, one entry per record in that order, so `min(5, n)` entries; the title of an
entry is the case number, " - " and the complainant name, and status and confidence are
copied from the record; `formatRecentCases` maps its input entry by entry, keeping length
and order. -/
theorem C21_recent_cases (store : FIRStore) (officerID : GoString) (oid : ObjectID)
    (hid : ObjectIDFromHex officerID = Except.ok oid) (hok : ∀ call, store.fault call = none) :
    (GetDashboardStats store officerID).2 = none ∧
    (GetDashboardStats store officerID).1.map (fun stats => stats.recentCases) =
      some (((FIRStore.order (str "created_at", -1)
          (store.docs.filter (fun d => decide (d.OfficerID = oid)))).take 5).map (fun fir =>
        { id := Hex fir.ID
          title := fir.FIRNumber ++ str " - " ++ fir.ComplainantName
          status := fir.Status
          date := formatDate fir.CreatedAt
          confidence := fir.AIAnalysis.Confidence })) ∧
    (FIRStore.order (str "created_at", -1)
      (store.docs.filter (fun d => decide (d.OfficerID = oid)))).Perm
        (store.docs.filter (fun d => decide (d.OfficerID = oid))) ∧
    (FIRStore.order (str "created_at", -1)
      (store.docs.filter (fun d => decide (d.OfficerID = oid)))).Sorted
        (fun a b => b.CreatedAt ≤ a.CreatedAt) ∧
    (GetDashboardStats store officerID).1.map (fun stats => stats.recentCases.length) =
      some (min 5 (store.docs.filter (fun d => decide (d.OfficerID = oid))).length) ∧
    (∀ firs : List FIR,
      formatRecentCases firs =
        firs.map (fun fir =>
          { id := Hex fir.ID
            title := fir.FIRNumber ++ str " - " ++ fir.ComplainantName
            status := fir.Status
            date := formatDate fir.CreatedAt
            confidence := fir.AIAnalysis.Confidence })) ∧
    (∀ firs : List FIR, (formatRecentCases firs).length = firs.length) := by
  obtain ⟨stats, h0, -, -, -⟩ := dashboard_numbers store officerID oid hid hok
  have hrec := dashboard_recent store officerID oid hid hok
  rw [formatRecentCases_eq] at hrec
  have hstats := hrec
  rw [h0, Option.map_some', Option.some.injEq] at hstats
  refine ⟨by rw [h0], hrec, order_perm _ _, order_sorted _, ?_, formatRecentCases_eq, ?_⟩
  · rw [h0, Option.map_some', hstats, List.length_map, List.length_take,
      (order_perm _ _).length_eq]
  · intro firs
    rw [formatRecentCases_eq, List.length_map]

/-- C21, at the dashboard collection: officer A has 6 records, so there are 5 recent
cases. -/
theorem C21_recent_cases_witness :
    (GetDashboardStats dashboardStore officerA).1.map
      (fun stats => stats.recentCases.length) = some 5 :=
  (C21_recent_cases dashboardStore officerA officerAID rfl (fun _ => rfl)).2.2.2.2.1


set_option maxRecDepth 100000 in
theorem Sprintf_template (req : GenerateFIRRequest) :
    Sprintf template
      [req.IncidentLocation, req.IncidentDate, req.ComplainantName, req.IncidentDate,
       req.IncidentDescription] = 0x0A :: (documentText req ++ [0x0A, 0x09]) := by
  simp only [documentText, List.append_assoc]
  rfl

theorem trimSpaceEnd_spec (body : GoString) (c : Nat) (hc : c < 0x80)
    (hs : asciiSpace c = false) : ∀ ws : GoString,
    (∀ b ∈ ws, asciiSpace b = true) →
    trimSpaceEnd (ws ++ c :: body) = (c :: body).reverse := by
  intro ws
  induction ws with
  | nil =>
    intro _
    have h1 : ¬ 0x80 ≤ c := by omega
    simp [trimSpaceEnd, h1, hs]
  | cons b rest ih =>
    intro hws
    have hb : asciiSpace b = true := hws b (List.mem_cons_self _ _)
    have hb1 : ¬ 0x80 ≤ b := by
      unfold asciiSpace at hb
      simp only [decide_eq_true_eq] at hb
      omega
    rw [List.cons_append, trimSpaceEnd, if_neg hb1, if_pos hb]
    exact ih (fun x hx => hws x (List.mem_cons_of_mem _ hx))

theorem TrimSpace_core (s : GoString) (c e : Nat) (hhead : s.head? = some c)
    (hlast : s.getLast? = some e) (hc : c < 0x80) (hcs : asciiSpace c = false)
    (he : e < 0x80) (hes : asciiSpace e = false) (post : GoString)
    (hpost : ∀ b ∈ post, asciiSpace b = true) : ∀ pre : GoString,
    (∀ b ∈ pre, asciiSpace b = true) → TrimSpace (pre ++ s ++ post) = s := by
  intro pre
  induction pre with
  | nil =>
    intro _
    obtain ⟨t, rfl⟩ : ∃ t, s = c :: t := by
      cases s with
      | nil => simp at hhead
      | cons a t =>
        simp only [List.head?_cons, Option.some.injEq] at hhead
        exact ⟨t, by rw [hhead]⟩
    have h1 : ¬ 0x80 ≤ c := by omega
    obtain ⟨body, hbody⟩ : ∃ body, (c :: t).reverse = e :: body := by
      have h := hlast
      rw [← List.head?_reverse] at h
      cases hr : (c :: t).reverse with
      | nil => rw [hr] at h; simp at h
      | cons a body =>
        rw [hr] at h
        simp only [List.head?_cons, Option.some.injEq] at h
        exact ⟨body, by rw [h]⟩
    rw [List.nil_append, List.cons_append, TrimSpace, if_neg h1]
    simp only [hcs, Bool.false_eq_true, if_false]
    rw [← List.cons_append, List.reverse_append, hbody,
      trimSpaceEnd_spec body e he hes post.reverse
        (fun b hb => hpost b (List.mem_reverse.mp hb)), ← hbody, List.reverse_reverse]
  | cons b rest ih =>
    intro hpre
    have hb : asciiSpace b = true := hpre b (List.mem_cons_self _ _)
    have hb1 : ¬ 0x80 ≤ b := by
      unfold asciiSpace at hb
      simp only [decide_eq_true_eq] at hb
      omega
    rw [List.cons_append, List.cons_append, TrimSpace, if_neg hb1, if_pos hb]
    exact ih (fun x hx => hpre x (List.mem_cons_of_mem _ hx))

theorem documentText_head (req : GenerateFIRRequest) :
    (documentText req).head? = some 0x46 := by
  rfl

theorem documentText_last (req : GenerateFIRRequest) :
    (documentText req).getLast? = some 0x2E := by
  unfold documentText
  rw [List.getLast?_append]
  rfl

theorem GenerateFIRDocument_eq (req : GenerateFIRRequest) :
    GenerateFIRDocument req = (documentText req, none) := by
  unfold GenerateFIRDocument
  simp only [Sprintf_template]
  have h := TrimSpace_core (documentText req) 0x46 0x2E (documentText_head req)
    (documentText_last req) (by decide) (by decide) (by decide) (by decide) [0x0A, 0x09]
    (by decide) [0x0A] (by decide)
  rw [List.append_assoc] at h
  rw [show (0x0A :: (documentText req ++ [0x0A, 0x09]) : GoString) =
    [0x0A] ++ (documentText req ++ [0x0A, 0x09]) from rfl, h]

theorem infix_append_right {l m : GoString} (n : GoString) (h : l <:+: m) : l <:+: m ++ n :=
  h.trans (List.prefix_append m n).isInfix

set_option maxRecDepth 100000 in
/-- C22: for every request `GenerateFIRDocument` returns a nil error and the text of the
template with the fields filled in; the text starts with the letter F and ends with a full
stop, so it has no leading or trailing white space and trimming it again changes nothing;
it begins with "FIRST INFORMATION REPORT", contains the complainant name, the incident
location and the incident description, contains the incident date at two separate places,
and contains "Section 354 of Indian Penal Code" and "Section 509 of Indian Penal Code"
whatever the description is; `GenerateFIR` returns the same. -/
theorem C22_generated_document (req : GenerateFIRRequest) :
    (GenerateFIRDocument req).2 = none ∧
    (GenerateFIRDocument req).1 = documentText req ∧
    GenerateFIR req = GenerateFIRDocument req ∧
    (GenerateFIRDocument req).1.head? = some 0x46 ∧
    (GenerateFIRDocument req).1.getLast? = some 0x2E ∧
    unicodeIsSpace 0x46 = false ∧ unicodeIsSpace 0x2E = false ∧
    TrimSpace (GenerateFIRDocument req).1 = (GenerateFIRDocument req).1 ∧
    HasPrefix (GenerateFIRDocument req).1 (str "FIRST INFORMATION REPORT") = true ∧
    req.ComplainantName <:+: (GenerateFIRDocument req).1 ∧
    req.IncidentLocation <:+: (GenerateFIRDocument req).1 ∧
    req.IncidentDescription <:+: (GenerateFIRDocument req).1 ∧
    (∃ a b c : GoString,
      (GenerateFIRDocument req).1 = a ++ req.IncidentDate ++ b ++ req.IncidentDate ++ c) ∧
    str "Section 354 of Indian Penal Code" <:+: (GenerateFIRDocument req).1 ∧
    str "Section 509 of Indian Penal Code" <:+: (GenerateFIRDocument req).1 := by
  have h := GenerateFIRDocument_eq req
  have htrim : TrimSpace (documentText req) = documentText req := by
    have h1 := TrimSpace_core (documentText req) 0x46 0x2E (documentText_head req)
      (documentText_last req) (by decide) (by decide) (by decide) (by decide) []
      (by simp) [] (by simp)
    rwa [List.nil_append, List.append_nil] at h1
  have hname : req.ComplainantName <:+: documentText req := by
    unfold documentText
    exact infix_append_right _ (infix_append_right _ (infix_append_right _
      (infix_append_right _ (infix_append_right _ (List.suffix_append _ _).isInfix))))
  have hloc : req.IncidentLocation <:+: documentText req := by
    unfold documentText
    exact infix_append_right _ (infix_append_right _ (infix_append_right _
      (infix_append_right _ (infix_append_right _ (infix_append_right _
      (infix_append_right _ (infix_append_right _ (infix_append_right _
      (List.suffix_append _ _).isInfix))))))))
  have hdesc : req.IncidentDescription <:+: documentText req := by
    unfold documentText
    exact infix_append_right _ (List.suffix_append _ _).isInfix
  have hdate : ∃ a b c : GoString,
      documentText req = a ++ req.IncidentDate ++ b ++ req.IncidentDate ++ c := by
    refine ⟨str ("FIRST INFORMATION REPORT\n" ++
        "(Under Section 154 of the Code of Criminal Procedure, 1973)\n\nPolice Station: ") ++
        req.IncidentLocation ++ str "\nDate: ",
      str "\n\nCOMPLAINANT DETAILS:\nName: " ++ req.ComplainantName ++
        str "\n\nINCIDENT DETAILS:\nDate of Incident: ",
      str "\nDescription: " ++ req.IncidentDescription ++
        str ("\n\nAPPLICABLE SECTIONS:\n" ++
          "Based on AI analysis, the following sections may be applicable:\n" ++
          "- Section 354 of Indian Penal Code\n- Section 509 of Indian Penal Code\n" ++
          "\nThis FIR has been generated with AI assistance and should be reviewed by " ++
          "the investigating officer."), ?_⟩
    simp only [documentText, List.append_assoc]
    rfl
  have h354 : str "Section 354 of Indian Penal Code" <:+: documentText req := by
    unfold documentText
    exact (by decide : str "Section 354 of Indian Penal Code" <:+: _).trans
      (List.suffix_append _ _).isInfix
  have h509 : str "Section 509 of Indian Penal Code" <:+: documentText req := by
    unfold documentText
    exact (by decide : str "Section 509 of Indian Penal Code" <:+: _).trans
      (List.suffix_append _ _).isInfix
  have hgen : GenerateFIR req = GenerateFIRDocument req := rfl
  rw [h] at hgen ⊢
  exact ⟨rfl, rfl, hgen, documentText_head req, documentText_last req, by decide, by decide,
    htrim, rfl, hname, hloc, hdesc, hdate, h354, h509⟩

/-! ### Crime type and suggested statutes -/

theorem crimeType_eq (tbl : Nat → Nat) (d : GoString) :
    determineCrimeType tbl d =
      if str "assault" <:+: stringsToLower tbl d ∨ str "attack" <:+: stringsToLower tbl d then
        str "assault"
      else if str "theft" <:+: stringsToLower tbl d ∨ str "steal" <:+: stringsToLower tbl d then
        str "theft"
      else if str "fraud" <:+: stringsToLower tbl d ∨ str "cheat" <:+: stringsToLower tbl d then
        str "fraud"
      else str "miscellaneous" := by
  unfold determineCrimeType
  simp only [Bool.or_eq_true, stringsContains_iff]

theorem suggestedLaws_eq (tbl : Nat → Nat) (d : GoString) :
    getSuggestedLaws tbl d =
      (if str "woman" <:+: stringsToLower tbl d ∨ str "modesty" <:+: stringsToLower tbl d then
        [law354, law509] else []) ++
      (if str "theft" <:+: stringsToLower tbl d ∨ str "steal" <:+: stringsToLower tbl d then
        [law379] else []) ++
      (if str "fraud" <:+: stringsToLower tbl d ∨ str "cheat" <:+: stringsToLower tbl d then
        [law420] else []) := by
  unfold getSuggestedLaws
  simp only [Bool.or_eq_true, stringsContains_iff]
  split_ifs <;> rfl

theorem lower_assault_and_theft (tbl : Nat → Nat) :
    stringsToLower tbl (str "assault and theft") = str "assault and theft" := by
  rfl

/-- C23: if the crime type is "theft" the suggestions contain section 379; if it is "fraud"
they contain section 420; if it is "miscellaneous" they contain neither and are empty or
exactly the sections 354 and 509.  The converse fails: the description "assault and theft"
gets the crime type "assault" while its suggestions contain section 379. -/
theorem C23_type_and_statutes (tbl : Nat → Nat) (d : GoString) :
    (determineCrimeType tbl d = str "theft" →
      str "379" ∈ (getSuggestedLaws tbl d).map (fun l => l.Section)) ∧
    (determineCrimeType tbl d = str "fraud" →
      str "420" ∈ (getSuggestedLaws tbl d).map (fun l => l.Section)) ∧
    (determineCrimeType tbl d = str "miscellaneous" →
      str "379" ∉ (getSuggestedLaws tbl d).map (fun l => l.Section) ∧
      str "420" ∉ (getSuggestedLaws tbl d).map (fun l => l.Section) ∧
      (getSuggestedLaws tbl d = [] ∨ getSuggestedLaws tbl d = [law354, law509])) ∧
    (str "379" ∈ (getSuggestedLaws tbl (str "assault and theft")).map (fun l => l.Section) ∧
      determineCrimeType tbl (str "assault and theft") = str "assault") := by
  have hc := crimeType_eq tbl d
  have hs := suggestedLaws_eq tbl d
  have n1 : str "assault" ≠ str "theft" := by decide
  have n2 : str "assault" ≠ str "fraud" := by decide
  have n3 : str "assault" ≠ str "miscellaneous" := by decide
  have n4 : str "theft" ≠ str "fraud" := by decide
  have n5 : str "theft" ≠ str "miscellaneous" := by decide
  have n6 : str "fraud" ≠ str "miscellaneous" := by decide
  have m1 : str "379" ∈ [law379].map (fun l => l.Section) := by decide
  have m2 : str "420" ∈ [law420].map (fun l => l.Section) := by decide
  have m3 : str "379" ∉ [law354, law509].map (fun l => l.Section) := by decide
  have m4 : str "420" ∉ [law354, law509].map (fun l => l.Section) := by decide
  refine ⟨?_, ?_, ?_, ?_, ?_⟩
  · intro h
    rw [hc] at h
    rw [hs]
    split_ifs at h with hA hT hF
    · exact absurd h n1
    · rw [if_pos hT]
      simp only [List.map_append, List.mem_append]
      exact Or.inl (Or.inr m1)
    · exact absurd h.symm n4
    · exact absurd h.symm n5
  · intro h
    rw [hc] at h
    rw [hs]
    split_ifs at h with hA hT hF
    · exact absurd h n2
    · exact absurd h n4
    · rw [if_pos hF]
      simp only [List.map_append, List.mem_append]
      exact Or.inr m2
    · exact absurd h.symm n6
  · intro h
    rw [hc] at h
    rw [hs]
    split_ifs at h with hA hT hF
    · exact absurd h n3
    · exact absurd h n5
    · exact absurd h n6
    · rw [if_neg hT, if_neg hF]
      simp only [List.append_nil]
      split_ifs
      · exact ⟨m3, m4, Or.inr rfl⟩
      · exact ⟨by simp, by simp, Or.inl rfl⟩
  · rw [suggestedLaws_eq, lower_assault_and_theft]
    decide
  · rw [crimeType_eq, lower_assault_and_theft]
    decide

/-- C23, at the description "theft of a bag": the crime type is "theft" and section 379 is
suggested. -/
theorem C23_type_and_statutes_witness :
    str "379" ∈ (getSuggestedLaws identityTable (str "theft of a bag")).map (fun l => l.Section) :=
  (C23_type_and_statutes identityTable (str "theft of a bag")).1 (by decide)


/-! ### Frame of a submission -/

theorem updateFirst_none (filter : FIRFilter) (updates : Updates) (docs : List FIR)
    (h : ∀ d ∈ docs, filter.matches d = false) : updateFirst filter updates docs = docs := by
  induction docs with
  | nil => rfl
  | cons d rest ih =>
    have hd : filter.matches d = false := h d (List.mem_cons_self _ _)
    simp only [updateFirst, hd, Bool.false_eq_true, if_false]
    rw [ih (fun x hx => h x (List.mem_cons_of_mem _ hx))]

theorem updateFirst_split (filter : FIRFilter) (updates : Updates) (d : FIR)
    (post : List FIR) (hd : filter.matches d = true) : ∀ pre : List FIR,
    (∀ x ∈ pre, filter.matches x = false) →
    updateFirst filter updates (pre ++ d :: post) = pre ++ applySet updates d :: post := by
  intro pre
  induction pre with
  | nil =>
    intro _
    simp only [List.nil_append, updateFirst, hd, if_true]
  | cons x rest ih =>
    intro h
    have hx : filter.matches x = false := h x (List.mem_cons_self _ _)
    have ih1 := ih (fun y hy => h y (List.mem_cons_of_mem _ hy))
    rw [List.cons_append, List.cons_append, updateFirst, hx, ih1]
    simp

theorem updateFirst_frame (filter : FIRFilter) (updates : Updates) (docs : List FIR) :
    List.Forall₂ (fun d d' => d' = d ∨ (filter.matches d = true ∧ d' = applySet updates d))
      docs (updateFirst filter updates docs) := by
  induction docs with
  | nil => exact List.Forall₂.nil
  | cons d rest ih =>
    by_cases hd : filter.matches d = true
    · simp only [updateFirst, hd, if_true]
      exact List.Forall₂.cons (Or.inr ⟨hd, rfl⟩)
        (List.forall₂_same.mpr (fun x _ => Or.inl rfl))
    · simp only [updateFirst, hd, if_false]
      exact List.Forall₂.cons (Or.inl rfl) ih

theorem matches_both_false (fid oid : ObjectID) (d : FIR) :
    FIRFilter.matches { _id := some fid, officer_id := some oid } d = false ↔
      ¬ (d.ID = fid ∧ d.OfficerID = oid) := by
  rw [← matches_both, Bool.not_eq_true]

theorem SubmitFIR_eq (store : FIRStore) (rt : Runtime) (firID officerID : GoString)
    (fid oid : ObjectID) (hf : ObjectIDFromHex firID = Except.ok fid)
    (ho : ObjectIDFromHex officerID = Except.ok oid)
    (hu : store.fault FIRCall.updateOne = none) :
    SubmitFIR store rt firID officerID =
      (none, FIRStore.mk
        (updateFirst ⟨some fid, some oid⟩
          ⟨some (str "submitted"), some (rt.Now 0), some (rt.Now 1)⟩ store.docs)
        store.fault) := by
  simp only [SubmitFIR, UpdateFIR, hf, ho, FIRStore.UpdateOne, hu]

/-- C24 (refuted as stated): no record of the collection has the identifier "xyz", yet
`SubmitFIR` with that record id returns an error, the one of the identifier parser. -/
theorem C24_counterexample :
    draftStore.docs.all (fun d => decide (Hex d.ID ≠ str "xyz")) = true ∧
    (SubmitFIR draftStore (clockAt 100) (str "xyz") officerA).1 =
      some "the provided hex string is not a valid ObjectID" := by
  decide

/-- C24 (amended): for a well-formed record id and officer id, when the update call of the
driver succeeds, `SubmitFIR` returns no error and changes at most the first record whose id
and owner are the given ones, in which it sets status, submission time and update time and
nothing else; every other record stays as it is, at its position; when no record has that id
and owner the collection is unchanged, the call returns no error and the handler answers
200 "FIR submitted successfully". -/
theorem C24_submit_frame (store : FIRStore) (rt : Runtime) (firID officerID : GoString)
    (fid oid : ObjectID) (hf : ObjectIDFromHex firID = Except.ok fid)
    (ho : ObjectIDFromHex officerID = Except.ok oid)
    (hu : store.fault FIRCall.updateOne = none) :
    (SubmitFIR store rt firID officerID).1 = none ∧
    (SubmitFIR store rt firID officerID).2.fault = store.fault ∧
    List.Forall₂
      (fun d d' => d' = d ∨ (d.ID = fid ∧ d.OfficerID = oid ∧
        d' = { d with Status := str "submitted", SubmittedAt := some (rt.Now 0),
                      UpdatedAt := rt.Now 1 }))
      store.docs (SubmitFIR store rt firID officerID).2.docs ∧
    (∀ (pre : List FIR) (d : FIR) (post : List FIR), store.docs = pre ++ d :: post →
      (∀ x ∈ pre, ¬ (x.ID = fid ∧ x.OfficerID = oid)) → d.ID = fid → d.OfficerID = oid →
      (SubmitFIR store rt firID officerID).2.docs =
        pre ++ { d with Status := str "submitted", SubmittedAt := some (rt.Now 0),
                        UpdatedAt := rt.Now 1 } :: post) ∧
    ((∀ d ∈ store.docs, ¬ (d.ID = fid ∧ d.OfficerID = oid)) →
      SubmitFIR store rt firID officerID = (none, store) ∧
      FIRHandler.SubmitFIR store rt firID officerID =
        (Response.json 200 (str "FIR submitted successfully"), store)) := by
  have hsub := SubmitFIR_eq store rt firID officerID fid oid hf ho hu
  refine ⟨by rw [hsub], by rw [hsub], ?_, ?_, ?_⟩
  · rw [hsub]
    refine (updateFirst_frame _ _ store.docs).imp ?_
    intro d d' h
    rcases h with h | ⟨hm, h⟩
    · exact Or.inl h
    · exact Or.inr ⟨((matches_both fid oid d).mp hm).1, ((matches_both fid oid d).mp hm).2, h⟩
  · intro pre d post hdocs hpre hid hown
    rw [hsub, hdocs]
    exact updateFirst_split _ _ d post ((matches_both fid oid d).mpr ⟨hid, hown⟩) pre
      (fun x hx => (matches_both_false fid oid x).mpr (hpre x hx))
  · intro hnone
    have hstore : SubmitFIR store rt firID officerID = (none, store) := by
      rw [hsub, updateFirst_none _ _ _ (fun d hd => (matches_both_false fid oid d).mpr
        (hnone d hd))]
    refine ⟨hstore, ?_⟩
    unfold FIRHandler.SubmitFIR
    rw [hstore]

/-- C24 (amended), at the collection with one record of officer A: a submission by
officer B of that record id changes nothing and returns no error. -/
theorem C24_submit_frame_witness :
    SubmitFIR draftStore (clockAt 100) (Hex 1) officerB = (none, draftStore) :=
  ((C24_submit_frame draftStore (clockAt 100) (Hex 1) officerB 1 officerBID rfl rfl rfl).2.2.2.2
    (by decide)).1

/-! ### Pagination -/

/-- C25 (refuted as stated): for the page 9223372036854775807 and the limit 100 the offset
wraps to -200, which is negative. -/
theorem C25_counterexample : (Paginate 9223372036854775807 100).1 = -200 := by
  decide

/-- C25 (amended): for machine integers `page` and `limit`, `Paginate` returns the limit
clamped to 10 if it is below 1 and to 100 if it is above 100, so between 1 and 100, and the
offset `(max(page, 1) - 1) * limit'` wrapped into the Go `int`; the offset equals that
product and is non-negative whenever the product does not overflow. -/
theorem C25_paginate (page limit : Int) (hp : page < 2 ^ 63) :
    (Paginate page limit).2 = (if limit < 1 then 10 else if 100 < limit then 100 else limit) ∧
    1 ≤ (Paginate page limit).2 ∧ (Paginate page limit).2 ≤ 100 ∧
    (Paginate page limit).1 = wrapInt ((max page 1 - 1) * (Paginate page limit).2) ∧
    ((max page 1 - 1) * (Paginate page limit).2 < 2 ^ 63 →
      (Paginate page limit).1 = (max page 1 - 1) * (Paginate page limit).2 ∧
      0 ≤ (Paginate page limit).1) := by
  have hmax : (if page < 1 then (1 : Int) else page) = max page 1 := by
    split_ifs <;> omega
  have hw : wrapInt (max page 1 - 1) = max page 1 - 1 :=
    wrapInt_of_range _ (by omega) (by omega)
  have h2 : (Paginate page limit).2 =
      (if limit < 1 then 10 else if 100 < limit then 100 else limit) := by
    unfold Paginate
    simp only
    split_ifs <;> omega
  have h1 : (Paginate page limit).1 = wrapInt ((max page 1 - 1) * (Paginate page limit).2) := by
    unfold Paginate
    simp only [hmax, hw]
  have hlo : 1 ≤ (Paginate page limit).2 := by rw [h2]; split_ifs <;> omega
  have hhi : (Paginate page limit).2 ≤ 100 := by rw [h2]; split_ifs <;> omega
  refine ⟨h2, hlo, hhi, h1, ?_⟩
  intro hno
  have hnn : 0 ≤ (max page 1 - 1) * (Paginate page limit).2 :=
    mul_nonneg (by omega) (by omega)
  rw [h1, wrapInt_of_range _ hnn hno]
  exact ⟨rfl, hnn⟩

/-- C25 (amended), at page 3 and limit 20: the offset is 40. -/
theorem C25_paginate_witness : (Paginate 3 20).1 = 40 ∧ 0 ≤ (Paginate 3 20).1 :=
  (C25_paginate 3 20 (by decide)).2.2.2.2 (by decide)

end FIRGuardian
